import Mathlib

/-! Verification of the clean-code-react MCP server core: the pattern registry,
its pure accessors (src/patterns/index.ts), the static quality-fundamentals
document (src/tools/get-code-quality-fundamentals.ts), and the tool-dispatch
layer of the two server variants present in the repository (the fine-grained
src/server.ts and the parameterized createServer variant). TypeScript objects
are modelled as Lean structures, JS object key order as list order, thrown
exceptions as `Except.error`, and the in-memory registry object as an
association list in literal insertion order. All pattern documents and the
fundamentals document are transcribed verbatim from the repository data files. -/

namespace CCR

/-- Short-form pattern summary (TS interface PatternOverview):
{ name, description, whenToUse }. -/
structure PatternOverview where
  name : String
  description : String
  whenToUse : String

/-- One side of a bad/good comparison inside a detailed example:
{ title, description, code }. -/
structure CodeBlock where
  title : String
  description : String
  code : String

/-- A detailed-pattern example. The repository data files carry two historical
shapes side by side: a flat { title, description, code } entry, and a
{ title, description, comparison: { bad, good } } entry; both occur
in the registered data, so the embedding keeps both constructors. -/
inductive PatternExample where
  | codeOnly (title description code : String)
  | comparison (title description : String) (bad good : CodeBlock)

/-- Long-form pattern document (TS interface DetailedPattern). -/
structure DetailedPattern where
  name : String
  description : String
  problem : String
  solution : String
  benefits : List String
  drawbacks : List String
  examples : List PatternExample
  bestPractices : List String
  commonMistakes : List String
  relatedPatterns : List String

/-- The unit stored in the registry: { overview, detailed }. -/
structure PatternDefinition where
  overview : PatternOverview
  detailed : DetailedPattern

/-- A code example of the quality-fundamentals document:
{ title, bad, good, explanation }. -/
structure CodeExample where
  title : String
  bad : String
  good : String
  explanation : String

/-- A concept of a quality principle: { name, description, examples,
bestPractices }. -/
structure Concept where
  name : String
  description : String
  examples : List CodeExample
  bestPractices : List String

/-- One of the four principles: { name, description, concepts,
whenToPrioritize }. -/
structure Principle where
  name : String
  description : String
  concepts : List Concept
  whenToPrioritize : String

/-- The `principles` sub-object of the fundamentals document. Its TS interface
and its literal both carry exactly these four keys, in this order. -/
structure QualityPrinciples where
  readability : Principle
  predictability : Principle
  cohesion : Principle
  coupling : Principle

/-- The whole quality-fundamentals document (TS interface
CodeQualityFundamentals). Literal key order: overview, corePhilosophy,
balancingPrinciples, principles. -/
structure CodeQualityFundamentals where
  overview : String
  corePhilosophy : String
  balancingPrinciples : String
  principles : QualityPrinciples

/-- Pattern definition `containerPresentationalPattern` transcribed from the repository data file registered
under key `container-presentational` in PATTERN_REGISTRY (src/patterns/index.ts). -/
def containerPresentationalPattern : PatternDefinition :=
  { overview :=
      { name := "Container/Presentational Pattern",
        description := "A foundational React pattern that separates components into two distinct types: smart containers that handle data, state, and business logic, and dumb presentational components that focus purely on rendering UI. This separation creates cleaner, more maintainable, and testable code by establishing clear boundaries between data management and visual presentation.",
        whenToUse := "Use when you have components mixing data fetching with UI logic, need to reuse UI components with different data sources, want to improve testability by isolating pure UI components, are building complex forms or data-heavy interfaces, have components that are becoming too large and handling multiple responsibilities, or need to share the same UI component across different parts of your application with different data sources." },
    detailed :=
      { name := "Container/Presentational Pattern",
        description := "Separate components that manage data and state (containers) from components that handle presentation (presentational).",
        problem := "Components become large and difficult to test when they mix data logic with presentation logic.",
        solution := "Split components into containers that handle logic and presentational components that handle UI.",
        benefits := ["Clear separation of concerns", "Easier testing of presentational components", "Reusable presentational components", "Better maintainability", "Cleaner component hierarchy"],
        drawbacks := ["Can lead to over-engineering for simple components", "More files to maintain", "Additional complexity for small applications"],
        examples :=
          [PatternExample.comparison "User List Implementation" "Comparing mixed concerns vs separated container/presentational components" (CodeBlock.mk "Mixed Concerns" "Component mixing data logic with presentation - hard to test and reuse" "// ❌ BAD: Everything mixed together\nfunction UserList() \x7b\n  const [users, setUsers] = useState([]);\n  const [loading, setLoading] = useState(true);\n  const [error, setError] = useState(null);\n\n  useEffect(() => \x7b\n    fetchUsers()\n      .then(setUsers)\n      .catch(setError)\n      .finally(() => setLoading(false));\n  \x7d, []);\n\n  const handleDeleteUser = (userId) => \x7b\n    deleteUser(userId).then(() => \x7b\n      setUsers(users.filter(user => user.id !== userId));\n    \x7d);\n  \x7d;\n\n  // Hard to test this UI logic separately\n  if (loading) return <div className=\"spinner\">Loading...</div>;\n  if (error) return <div className=\"error\">Error: \x7berror.message\x7d</div>;\n  \n  return (\n    <div className=\"user-list\">\n      <h2>Users (\x7busers.length\x7d)</h2>\n      \x7busers.map(user => (\n        <div key=\x7buser.id\x7d className=\"user-card\">\n          <img src=\x7buser.avatar\x7d alt=\x7buser.name\x7d />\n          <div>\n            <h3>\x7buser.name\x7d</h3>\n            <p>\x7buser.email\x7d</p>\n          </div>\n          <button onClick=\x7b() => handleDeleteUser(user.id)\x7d>\n            Delete\n          </button>\n        </div>\n      ))\x7d\n    </div>\n  );\n\x7d") (CodeBlock.mk "Separated Concerns" "Clear separation between data logic and presentation" "// ✅ GOOD: Container handles data\nfunction UserListContainer() \x7b\n  const [users, setUsers] = useState([]);\n  const [loading, setLoading] = useState(true);\n  const [error, setError] = useState(null);\n\n  useEffect(() => \x7b\n    fetchUsers()\n      .then(setUsers)\n      .catch(setError)\n      .finally(() => setLoading(false));\n  \x7d, []);\n\n  const handleDeleteUser = (userId) => \x7b\n    deleteUser(userId).then(() => \x7b\n      setUsers(users.filter(user => user.id !== userId));\n    \x7d);\n  \x7d;\n\n  return (\n    <UserList \n      users=\x7busers\x7d\n      loading=\x7bloading\x7d\n      error=\x7berror\x7d\n      onDeleteUser=\x7bhandleDeleteUser\x7d\n    />\n  );\n\x7d\n\n// ✅ GOOD: Presentational component handles UI only\nfunction UserList(\x7b users, loading, error, onDeleteUser \x7d) \x7b\n  if (loading) return <LoadingSpinner />;\n  if (error) return <ErrorMessage error=\x7berror\x7d />;\n  \n  return (\n    <div className=\"user-list\">\n      <h2>Users (\x7busers.length\x7d)</h2>\n      \x7busers.map(user => (\n        <UserCard \n          key=\x7buser.id\x7d\n          user=\x7buser\x7d\n          onDelete=\x7b() => onDeleteUser(user.id)\x7d\n        />\n      ))\x7d\n    </div>\n  );\n\x7d\n\n// ✅ GOOD: Reusable presentational component\nfunction UserCard(\x7b user, onDelete \x7d) \x7b\n  return (\n    <div className=\"user-card\">\n      <img src=\x7buser.avatar\x7d alt=\x7buser.name\x7d />\n      <div>\n        <h3>\x7buser.name\x7d</h3>\n        <p>\x7buser.email\x7d</p>\n      </div>\n      <button onClick=\x7bonDelete\x7d>Delete</button>\n    </div>\n  );\n\x7d")],
        bestPractices := ["Keep presentational components pure and predictable", "Use TypeScript interfaces to define props clearly", "Extract custom hooks for complex logic instead of container components when possible", "Presentational components should only handle UI concerns", "Container components should handle all side effects"],
        commonMistakes := ["Putting UI logic in container components", "Adding side effects to presentational components", "Over-splitting simple components", "Not defining clear prop interfaces", "Mixing presentation and logic in the same component"],
        relatedPatterns := ["compound-component"] } }

/-- Pattern definition `renderPropsPattern` transcribed from the repository data file registered
under key `render-props` in PATTERN_REGISTRY (src/patterns/index.ts). -/
def renderPropsPattern : PatternDefinition :=
  { overview :=
      { name := "Render Props Pattern",
        description := "A powerful React pattern that enables code sharing between components by using a prop whose value is a function that returns React elements. This pattern provides maximum flexibility by allowing the consuming component to control what gets rendered while the render prop component handles all the stateful logic and behavior.",
        whenToUse := "Use when you need to share complex stateful logic (like data fetching, mouse tracking, or form handling) across multiple components but want consumers to have complete control over the UI, when building reusable library components that need to work with any UI design, when you have logic that needs to work with multiple different rendering strategies, or when you want to avoid the limitations of higher-order components while maintaining composability and avoiding prop drilling." },
    detailed :=
      { name := "Render Props Pattern",
        description := "Share code between components using a prop whose value is a function that returns a React element.",
        problem := "Components need to share stateful logic but composition with traditional props is insufficient.",
        solution := "Use a prop whose value is a function that returns JSX, allowing the consuming component to control rendering.",
        benefits := ["Highly flexible and reusable", "Inversion of control over rendering", "Easy to compose multiple behaviors", "Clear data flow", "Framework agnostic pattern"],
        drawbacks := ["Can be harder to understand for beginners", "Callback hell with multiple render props", "Performance considerations with inline functions", "More verbose than custom hooks"],
        examples :=
          [PatternExample.codeOnly "Bad: Tight Coupling" "Component tightly coupled to specific UI implementation" "// ❌ BAD: MouseTracker is tied to specific rendering\nfunction MouseTracker() \x7b\n  const [position, setPosition] = useState(\x7b x: 0, y: 0 \x7d);\n  \n  useEffect(() => \x7b\n    const handleMouseMove = (event) => \x7b\n      setPosition(\x7b x: event.clientX, y: event.clientY \x7d);\n    \x7d;\n    \n    window.addEventListener('mousemove', handleMouseMove);\n    return () => window.removeEventListener('mousemove', handleMouseMove);\n  \x7d, []);\n  \n  // Fixed UI - can't reuse logic for different rendering\n  return <h1>Mouse position: \x7bposition.x\x7d, \x7bposition.y\x7d</h1>;\n\x7d\n\n// ❌ BAD: Need separate component for different UI\nfunction MouseFollower() \x7b\n  const [position, setPosition] = useState(\x7b x: 0, y: 0 \x7d);\n  \n  // Duplicated logic!\n  useEffect(() => \x7b\n    const handleMouseMove = (event) => \x7b\n      setPosition(\x7b x: event.clientX, y: event.clientY \x7d);\n    \x7d;\n    \n    window.addEventListener('mousemove', handleMouseMove);\n    return () => window.removeEventListener('mousemove', handleMouseMove);\n  \x7d, []);\n  \n  return (\n    <div\n      style=\x7b\x7b\n        position: 'absolute',\n        left: position.x,\n        top: position.y,\n      \x7d\x7d\n    >\n      🐭\n    </div>\n  );\n\x7d",
           PatternExample.codeOnly "Good: Flexible with Render Props" "Reusable logic with flexible rendering through render props" "// ✅ GOOD: Mouse component with render prop\nfunction Mouse(\x7b children \x7d) \x7b\n  const [position, setPosition] = useState(\x7b x: 0, y: 0 \x7d);\n  \n  useEffect(() => \x7b\n    const handleMouseMove = (event) => \x7b\n      setPosition(\x7b x: event.clientX, y: event.clientY \x7d);\n    \x7d;\n    \n    window.addEventListener('mousemove', handleMouseMove);\n    return () => window.removeEventListener('mousemove', handleMouseMove);\n  \x7d, []);\n  \n  return children(position);\n\x7d\n\n// ✅ GOOD: Same logic, different UIs\nfunction App() \x7b\n  return (\n    <div>\n      \x7b/* Text display */\x7d\n      <Mouse>\n        \x7b(\x7b x, y \x7d) => (\n          <h1>Mouse position: \x7bx\x7d, \x7by\x7d</h1>\n        )\x7d\n      </Mouse>\n      \n      \x7b/* Visual follower */\x7d\n      <Mouse>\n        \x7b(\x7b x, y \x7d) => (\n          <div\n            style=\x7b\x7b\n              position: 'absolute',\n              left: x,\n              top: y,\n            \x7d\x7d\n          >\n            🐭\n          </div>\n        )\x7d\n      </Mouse>\n      \n      \x7b/* Custom visualization */\x7d\n      <Mouse>\n        \x7b(\x7b x, y \x7d) => (\n          <canvas\n            width=\x7b400\x7d\n            height=\x7b300\x7d\n            style=\x7b\x7b border: '1px solid black' \x7d\x7d\n            ref=\x7b(canvas) => \x7b\n              if (canvas) \x7b\n                const ctx = canvas.getContext('2d');\n                ctx.clearRect(0, 0, 400, 300);\n                ctx.fillStyle = 'red';\n                ctx.fillRect(x % 400, y % 300, 10, 10);\n              \x7d\n            \x7d\x7d\n          />\n        )\x7d\n      </Mouse>\n    </div>\n  );\n\x7d"],
        bestPractices := ["Consider custom hooks for simpler cases", "Use children as a function for common render prop patterns", "Memoize render prop functions to avoid unnecessary re-renders", "Provide good TypeScript types for render prop parameters", "Keep render prop components focused on single responsibility"],
        commonMistakes := ["Creating new functions on every render (use useCallback)", "Making render prop components too complex", "Not handling loading and error states properly", "Overusing render props when simpler patterns would work", "Poor naming - render prop should describe what it provides"],
        relatedPatterns := ["higher-order-component", "compound-component"] } }

/-- Pattern definition `compoundComponentPattern` transcribed from the repository data file registered
under key `compound-component` in PATTERN_REGISTRY (src/patterns/index.ts). -/
def compoundComponentPattern : PatternDefinition :=
  { overview :=
      { name := "Compound Component Pattern",
        description := "A sophisticated React pattern that creates a family of components that work together to form a complete UI pattern, using React Context to implicitly share state and behavior. This pattern allows for highly flexible and intuitive APIs where child components can be composed in any order while maintaining their interconnected functionality.",
        whenToUse := "Use when building complex UI components like modals, accordions, tabs, or dropdowns that have multiple interconnected parts, when you want to provide maximum flexibility in how components are arranged and styled, when building reusable component libraries that need to work across different design systems, when you need to avoid prop drilling through multiple levels of components, or when you want to create APIs that feel natural and declarative like HTML elements." },
    detailed :=
      { name := "Compound Component Pattern",
        description := "Create a set of components that work together to form a complete UI pattern.",
        problem := "Building flexible, composable APIs for complex components with multiple parts.",
        solution := "Use React context to implicitly share state between parent and child components.",
        benefits := ["Flexible and expressive API", "Clear component relationships", "Extensible design", "Separation of concerns", "Easy to understand component structure"],
        drawbacks := ["More complex to implement", "Can be overkill for simple components", "Requires understanding of React context", "Harder to enforce proper usage"],
        examples :=
          [PatternExample.codeOnly "❌ BAD: Tightly Coupled Accordion" "Accordion with hardcoded structure and poor reusability" "// ❌ BAD: Monolithic component with hardcoded structure\nfunction BadAccordion(\x7b items \x7d) \x7b\n  const [openItems, setOpenItems] = useState(new Set());\n  \n  const toggleItem = (index) => \x7b\n    setOpenItems(prev => \x7b\n      const newSet = new Set(prev);\n      if (newSet.has(index)) \x7b\n        newSet.delete(index);\n      \x7d else \x7b\n        newSet.add(index);\n      \x7d\n      return newSet;\n    \x7d);\n  \x7d;\n  \n  return (\n    <div className=\"accordion\">\n      \x7bitems.map((item, index) => (\n        <div key=\x7bindex\x7d className=\"accordion-item\">\n          \x7b/* Header is hardcoded - no flexibility */\x7d\n          <button\n            className=\"accordion-header\"\n            onClick=\x7b() => toggleItem(index)\x7d\n          >\n            \x7bitem.title\x7d\n            <span>▼</span>\n          </button>\n          \n          \x7b/* Panel structure is fixed */\x7d\n          <div className=\x7b`accordion-panel $\x7bopenItems.has(index) ? 'open' : 'closed'\x7d`\x7d>\n            <div className=\"accordion-content\">\n              \x7bitem.content\x7d\n            </div>\n          </div>\n        </div>\n      ))\x7d\n    </div>\n  );\n\x7d\n\n// Usage - very limited, can only pass title and content strings\nfunction App() \x7b\n  const items = [\n    \x7b title: 'Section 1', content: 'Content 1' \x7d,\n    \x7b title: 'Section 2', content: 'Content 2' \x7d\n  ];\n  \n  return <BadAccordion items=\x7bitems\x7d />;\n\x7d\n\n// Problems:\n// - Can't customize header appearance\n// - Can't add custom content like icons, buttons\n// - Can't control individual item behavior\n// - Can't nest other components easily\n// - Hard to extend with new features",
           PatternExample.codeOnly "✅ GOOD: Flexible Compound Component" "Accordion using compound component pattern for maximum flexibility" "// ✅ GOOD: Flexible compound component pattern\nconst AccordionContext = createContext();\n\nfunction Accordion(\x7b children, defaultOpen = [], allowMultiple = true \x7d) \x7b\n  const [openItems, setOpenItems] = useState(new Set(defaultOpen));\n  \n  const toggleItem = (id) => \x7b\n    setOpenItems(prev => \x7b\n      const newSet = new Set(prev);\n      if (newSet.has(id)) \x7b\n        newSet.delete(id);\n      \x7d else \x7b\n        if (!allowMultiple) \x7b\n          newSet.clear();\n        \x7d\n        newSet.add(id);\n      \x7d\n      return newSet;\n    \x7d);\n  \x7d;\n  \n  return (\n    <AccordionContext.Provider value=\x7b\x7b openItems, toggleItem \x7d\x7d>\n      <div className=\"accordion\">\x7bchildren\x7d</div>\n    </AccordionContext.Provider>\n  );\n\x7d\n\nfunction AccordionItem(\x7b id, children \x7d) \x7b\n  return <div className=\"accordion-item\">\x7bchildren\x7d</div>;\n\x7d\n\nfunction AccordionHeader(\x7b id, children, className = '' \x7d) \x7b\n  const \x7b openItems, toggleItem \x7d = useContext(AccordionContext);\n  const isOpen = openItems.has(id);\n  \n  return (\n    <button\n      className=\x7b`accordion-header $\x7bclassName\x7d`\x7d\n      onClick=\x7b() => toggleItem(id)\x7d\n      aria-expanded=\x7bisOpen\x7d\n    >\n      \x7bchildren\x7d\n      <span className=\x7bisOpen ? 'expanded' : 'collapsed'\x7d>▼</span>\n    </button>\n  );\n\x7d\n\nfunction AccordionPanel(\x7b id, children \x7d) \x7b\n  const \x7b openItems \x7d = useContext(AccordionContext);\n  const isOpen = openItems.has(id);\n  \n  return (\n    <div className=\x7b`accordion-panel $\x7bisOpen ? 'open' : 'closed'\x7d`\x7d>\n      \x7bisOpen && children\x7d\n    </div>\n  );\n\x7d\n\n// Attach compound components\nAccordion.Item = AccordionItem;\nAccordion.Header = AccordionHeader;\nAccordion.Panel = AccordionPanel;\n\n// Usage - Much more flexible!\nfunction App() \x7b\n  return (\n    <Accordion defaultOpen=\x7b['section1']\x7d allowMultiple=\x7bfalse\x7d>\n      <Accordion.Item id=\"section1\">\n        <Accordion.Header id=\"section1\" className=\"primary-header\">\n          <Icon name=\"user\" />\n          User Settings\n          <Badge count=\x7b3\x7d />\n        </Accordion.Header>\n        <Accordion.Panel id=\"section1\">\n          <UserSettingsForm />\n          <div className=\"footer\">\n            <Button variant=\"primary\">Save</Button>\n            <Button variant=\"secondary\">Cancel</Button>\n          </div>\n        </Accordion.Panel>\n      </Accordion.Item>\n      \n      <Accordion.Item id=\"section2\">\n        <Accordion.Header id=\"section2\">\n          <Icon name=\"notification\" />\n          Notifications\n        </Accordion.Header>\n        <Accordion.Panel id=\"section2\">\n          <NotificationsList />\n        </Accordion.Panel>\n      </Accordion.Item>\n    </Accordion>\n  );\n\x7d\n\n// Benefits:\n// - Complete control over content structure\n// - Can add any components inside headers/panels\n// - Easy to extend with new features\n// - Flexible styling options\n// - Clear component relationships"],
        bestPractices := ["Use React context for implicit communication", "Provide good default behavior", "Include proper TypeScript types", "Consider using React.cloneElement for props injection", "Document the expected component structure"],
        commonMistakes := ["Making the API too flexible and confusing", "Not validating component structure", "Forgetting to provide context", "Not handling edge cases gracefully", "Poor error messages for incorrect usage"],
        relatedPatterns := ["render-props", "higher-order-component"] } }

/-- Pattern definition `higherOrderComponentPattern` transcribed from the repository data file registered
under key `higher-order-component` in PATTERN_REGISTRY (src/patterns/index.ts). -/
def higherOrderComponentPattern : PatternDefinition :=
  { overview :=
      { name := "Higher-Order Component (HOC)",
        description := "A classic React pattern that uses functions to take a component as input and return a new enhanced component with additional props, state, or behavior. HOCs enable code reuse and separation of cross-cutting concerns by wrapping components with shared functionality, creating a powerful composition pattern for extending component capabilities.",
        whenToUse := "Use when you need to add cross-cutting concerns like authentication, authorization, logging, or error boundaries to multiple components, when building component libraries that need consistent behavior across many components, when you need to conditionally render components based on external state, when working with legacy codebases that do not use hooks, or when you need to enhance third-party components that you cannot modify directly." },
    detailed :=
      { name := "Higher-Order Component (HOC) Pattern",
        description := "A function that takes a component and returns a new component with additional functionality.",
        problem := "Multiple components need the same behavior (like authentication, logging, or data fetching) but copy-pasting code leads to duplication.",
        solution := "Create a function that wraps components and adds the shared behavior, returning an enhanced component.",
        benefits := ["Code reuse across multiple components", "Separation of cross-cutting concerns", "Can compose multiple HOCs together", "Works well with class and function components", "Can manipulate props before passing them down"],
        drawbacks := ["Can create prop naming collisions", "Harder to debug with React DevTools", "Can lead to wrapper hell", "Static typing can be challenging", "Custom hooks are often a better modern solution"],
        examples :=
          [PatternExample.codeOnly "❌ BAD: Duplicated Logic Across Components" "Components with repeated authentication and loading logic" "// ❌ BAD: Every component handles auth and loading separately\nfunction Dashboard() \x7b\n  const \x7b user, loading \x7d = useAuth();\n  const navigate = useNavigate();\n  const [dashboardData, setDashboardData] = useState(null);\n  const [dataLoading, setDataLoading] = useState(true);\n  \n  // Duplicate auth logic\n  useEffect(() => \x7b\n    if (!loading && !user) \x7b\n      navigate('/login');\n    \x7d\n  \x7d, [user, loading, navigate]);\n  \n  // Duplicate loading handling\n  useEffect(() => \x7b\n    if (user) \x7b\n      fetchDashboardData()\n        .then(setDashboardData)\n        .finally(() => setDataLoading(false));\n    \x7d\n  \x7d, [user]);\n  \n  if (loading || dataLoading) return <LoadingSpinner />;\n  if (!user) return null;\n  \n  return (\n    <div>\n      <h1>Welcome, \x7buser.name\x7d!</h1>\n      <DashboardContent data=\x7bdashboardData\x7d />\n    </div>\n  );\n\x7d\n\nfunction Profile() \x7b\n  const \x7b user, loading \x7d = useAuth();\n  const navigate = useNavigate();\n  const [profileData, setProfileData] = useState(null);\n  const [dataLoading, setDataLoading] = useState(true);\n  \n  // Same auth logic repeated!\n  useEffect(() => \x7b\n    if (!loading && !user) \x7b\n      navigate('/login');\n    \x7d\n  \x7d, [user, loading, navigate]);\n  \n  // Same loading pattern repeated!\n  useEffect(() => \x7b\n    if (user) \x7b\n      fetchProfileData()\n        .then(setProfileData)\n        .finally(() => setDataLoading(false));\n    \x7d\n  \x7d, [user]);\n  \n  if (loading || dataLoading) return <LoadingSpinner />;\n  if (!user) return null;\n  \n  return (\n    <div>\n      <h1>Profile: \x7buser.name\x7d</h1>\n      <ProfileDetails data=\x7bprofileData\x7d />\n    </div>\n  );\n\x7d\n\n// Problems:\n// - Duplicated authentication logic\n// - Repeated loading state handling\n// - Hard to maintain and update\n// - Easy to forget auth checks in new components\n// - Inconsistent behavior across components",
           PatternExample.codeOnly "✅ GOOD: HOC for Shared Cross-Cutting Concerns" "HOC that provides authentication and loading logic to multiple components" "// ✅ GOOD: HOC handles auth and loading logic once\nfunction withAuth(WrappedComponent) \x7b\n  // Set display name for debugging\n  const componentName = WrappedComponent.displayName || WrappedComponent.name || 'Component';\n  \n  function AuthenticatedComponent(props) \x7b\n    const \x7b user, loading \x7d = useAuth();\n    const navigate = useNavigate();\n    \n    useEffect(() => \x7b\n      if (!loading && !user) \x7b\n        navigate('/login', \x7b \n          state: \x7b from: window.location.pathname \x7d \n        \x7d);\n      \x7d\n    \x7d, [user, loading, navigate]);\n    \n    if (loading) \x7b\n      return <LoadingSpinner />;\n    \x7d\n    \n    if (!user) \x7b\n      return null;\n    \x7d\n    \n    // Forward ref if the wrapped component uses refs\n    return <WrappedComponent \x7b...props\x7d user=\x7buser\x7d />;\n  \x7d\n  \n  AuthenticatedComponent.displayName = `withAuth($\x7bcomponentName\x7d)`;\n  return AuthenticatedComponent;\n\x7d\n\n// Components focus on their core responsibility\nfunction Dashboard(\x7b user \x7d) \x7b\n  const [dashboardData, setDashboardData] = useState(null);\n  const [loading, setLoading] = useState(true);\n  \n  useEffect(() => \x7b\n    fetchDashboardData()\n      .then(setDashboardData)\n      .finally(() => setLoading(false));\n  \x7d, []);\n  \n  if (loading) return <LoadingSpinner />;\n  \n  return (\n    <div>\n      <h1>Welcome, \x7buser.name\x7d!</h1>\n      <DashboardContent data=\x7bdashboardData\x7d />\n    </div>\n  );\n\x7d\n\nfunction Profile(\x7b user \x7d) \x7b\n  const [profileData, setProfileData] = useState(null);\n  const [loading, setLoading] = useState(true);\n  \n  useEffect(() => \x7b\n    fetchProfileData()\n      .then(setProfileData)\n      .finally(() => setLoading(false));\n  \x7d, []);\n  \n  if (loading) return <LoadingSpinner />;\n  \n  return (\n    <div>\n      <h1>Profile: \x7buser.name\x7d</h1>\n      <ProfileDetails data=\x7bprofileData\x7d />\n    </div>\n  );\n\x7d\n\n// Apply HOC to components that need authentication\nconst AuthenticatedDashboard = withAuth(Dashboard);\nconst AuthenticatedProfile = withAuth(Profile);\n\n// Benefits:\n// - Authentication logic centralized in one place\n// - Easy to update auth behavior across all components\n// - Components focus on their primary responsibility\n// - Consistent behavior across the application\n// - Easy to add new authenticated routes",
           PatternExample.codeOnly "✅ GOOD: Composable HOCs with TypeScript" "Type-safe HOCs that can be composed together" "// ✅ GOOD: Well-typed composable HOCs\ninterface WithLoadingProps \x7b\n  loading?: boolean;\n\x7d\n\ninterface WithErrorProps \x7b\n  error?: Error | null;\n\x7d\n\ninterface WithAnalyticsProps \x7b\n  trackingId?: string;\n\x7d\n\n// Loading HOC\nfunction withLoading<P extends object>(\n  WrappedComponent: React.ComponentType<P>\n): React.ComponentType<P & WithLoadingProps> \x7b\n  return function WithLoadingComponent(props: P & WithLoadingProps) \x7b\n    const \x7b loading, ...restProps \x7d = props;\n    \n    if (loading) \x7b\n      return (\n        <div className=\"loading-container\">\n          <Spinner size=\"large\" />\n          <p>Loading...</p>\n        </div>\n      );\n    \x7d\n    \n    return <WrappedComponent \x7b...(restProps as P)\x7d />;\n  \x7d;\n\x7d\n\n// Error boundary HOC\nfunction withErrorBoundary<P extends object>(\n  WrappedComponent: React.ComponentType<P>\n): React.ComponentType<P & WithErrorProps> \x7b\n  return function WithErrorBoundaryComponent(props: P & WithErrorProps) \x7b\n    const \x7b error, ...restProps \x7d = props;\n    \n    if (error) \x7b\n      return (\n        <div className=\"error-container\">\n          <h2>Something went wrong</h2>\n          <p>\x7berror.message\x7d</p>\n          <button onClick=\x7b() => window.location.reload()\x7d>\n            Retry\n          </button>\n        </div>\n      );\n    \x7d\n    \n    return <WrappedComponent \x7b...(restProps as P)\x7d />;\n  \x7d;\n\x7d\n\n// Analytics HOC\nfunction withAnalytics<P extends object>(\n  WrappedComponent: React.ComponentType<P>\n): React.ComponentType<P & WithAnalyticsProps> \x7b\n  return function WithAnalyticsComponent(props: P & WithAnalyticsProps) \x7b\n    const \x7b trackingId, ...restProps \x7d = props;\n    \n    useEffect(() => \x7b\n      if (trackingId) \x7b\n        analytics.track('component_mounted', \x7b\n          component: WrappedComponent.name,\n          trackingId,\n          timestamp: Date.now()\n        \x7d);\n      \x7d\n      \n      return () => \x7b\n        if (trackingId) \x7b\n          analytics.track('component_unmounted', \x7b\n            component: WrappedComponent.name,\n            trackingId,\n            timestamp: Date.now()\n          \x7d);\n        \x7d\n      \x7d;\n    \x7d, [trackingId]);\n    \n    return <WrappedComponent \x7b...(restProps as P)\x7d />;\n  \x7d;\n\x7d\n\n// Base component\ninterface UserListProps \x7b\n  users: User[];\n  onSelectUser: (user: User) => void;\n\x7d\n\nfunction UserList(\x7b users, onSelectUser \x7d: UserListProps) \x7b\n  return (\n    <ul>\n      \x7busers.map(user => (\n        <li key=\x7buser.id\x7d onClick=\x7b() => onSelectUser(user)\x7d>\n          \x7buser.name\x7d\n        </li>\n      ))\x7d\n    </ul>\n  );\n\x7d\n\n// Compose multiple HOCs\nconst EnhancedUserList = withAnalytics(\n  withErrorBoundary(\n    withLoading(UserList)\n  )\n);\n\n// Usage with all enhanced features\nfunction App() \x7b\n  const \x7b users, loading, error \x7d = useUsers();\n  \n  return (\n    <EnhancedUserList\n      users=\x7busers\x7d\n      loading=\x7bloading\x7d\n      error=\x7berror\x7d\n      trackingId=\"user-list-main\"\n      onSelectUser=\x7bhandleUserSelect\x7d\n    />\n  );\n\x7d"],
        bestPractices := ["Use descriptive names (withAuth, withAnalytics, etc.)", "Pass through all props using spread operator", "Handle component display names for debugging", "Copy over static methods when needed", "Consider using custom hooks instead for new code", "Document which props the HOC injects"],
        commonMistakes := ["Not forwarding refs properly", "Creating new components on every render", "Mutating the wrapped component", "Poor prop naming leading to collisions", "Not handling TypeScript types properly", "Using HOCs when hooks would be simpler"],
        relatedPatterns := ["render-props", "compound-component"] } }

/-- Pattern definition `dependencyInjectionPattern` transcribed from the repository data file registered
under key `dependency-injection` in PATTERN_REGISTRY (src/patterns/index.ts). -/
def dependencyInjectionPattern : PatternDefinition :=
  { overview :=
      { name := "Dependency Injection Pattern",
        description := "A fundamental design pattern that provides dependencies to components from external sources rather than having components create or import them directly. This pattern promotes loose coupling, enhances testability, and enables flexible configuration by allowing dependencies to be swapped out without modifying component code.",
        whenToUse := "Use when components depend on external services, APIs, or utilities that need to be mocked during testing, when building applications that need to work in different environments (development, staging, production) with different configurations, when you want to make components more reusable by removing hard dependencies, when implementing feature flags or A/B testing that requires swapping implementations, or when building modular applications where different parts might use different service implementations." },
    detailed :=
      { name := "Dependency Injection Pattern",
        description := "Inject dependencies into components rather than hardcoding them, improving testability and flexibility.",
        problem := "Components have hard dependencies on specific services, making them difficult to test and reuse.",
        solution := "Pass dependencies as props or through context, allowing different implementations for different environments.",
        benefits := ["Improved testability", "Better separation of concerns", "Easier to mock dependencies", "More flexible and reusable components", "Better abstraction"],
        drawbacks := ["Additional complexity", "More verbose component signatures", "Requires discipline to maintain", "Can be overkill for simple applications"],
        examples :=
          [PatternExample.codeOnly "❌ BAD: Hard-Coded Dependencies" "Components tightly coupled to specific implementations" "// ❌ BAD: Component directly imports and uses fetch\nfunction UserList() \x7b\n  const [users, setUsers] = useState<User[]>([]);\n  const [loading, setLoading] = useState(true);\n  const [error, setError] = useState<string | null>(null);\n  \n  useEffect(() => \x7b\n    // Hard-coded fetch implementation\n    fetch('/api/users')\n      .then(response => \x7b\n        if (!response.ok) \x7b\n          throw new Error('Failed to fetch users');\n        \x7d\n        return response.json();\n      \x7d)\n      .then(setUsers)\n      .catch(err => setError(err.message))\n      .finally(() => setLoading(false));\n  \x7d, []);\n  \n  const handleDelete = async (id: string) => \x7b\n    try \x7b\n      // Hard-coded delete implementation\n      const response = await fetch(`/api/users/$\x7bid\x7d`, \x7b \n        method: 'DELETE' \n      \x7d);\n      \n      if (!response.ok) \x7b\n        throw new Error('Failed to delete user');\n      \x7d\n      \n      setUsers(users => users.filter(u => u.id !== id));\n    \x7d catch (err) \x7b\n      setError(err.message);\n    \x7d\n  \x7d;\n  \n  const handleCreate = async (userData: Partial<User>) => \x7b\n    try \x7b\n      // Hard-coded create implementation\n      const response = await fetch('/api/users', \x7b\n        method: 'POST',\n        headers: \x7b 'Content-Type': 'application/json' \x7d,\n        body: JSON.stringify(userData)\n      \x7d);\n      \n      if (!response.ok) \x7b\n        throw new Error('Failed to create user');\n      \x7d\n      \n      const newUser = await response.json();\n      setUsers(users => [...users, newUser]);\n    \x7d catch (err) \x7b\n      setError(err.message);\n    \x7d\n  \x7d;\n  \n  if (loading) return <div>Loading...</div>;\n  if (error) return <div>Error: \x7berror\x7d</div>;\n  \n  return (\n    <div>\n      \x7busers.map(user => (\n        <div key=\x7buser.id\x7d>\n          \x7buser.name\x7d\n          <button onClick=\x7b() => handleDelete(user.id)\x7d>Delete</button>\n        </div>\n      ))\x7d\n      <CreateUserForm onSubmit=\x7bhandleCreate\x7d />\n    </div>\n  );\n\x7d\n\n// Problems:\n// - Impossible to test without making real HTTP requests\n// - Can't switch API implementations (REST vs GraphQL)\n// - Component knows too much about API details\n// - No way to mock or stub external dependencies\n// - Tight coupling makes component hard to reuse",
           PatternExample.codeOnly "✅ GOOD: Dependency Injection with Interfaces" "Flexible, testable components using dependency injection" "// ✅ GOOD: Define clear interfaces for dependencies\ninterface UserService \x7b\n  getUsers(): Promise<User[]>;\n  createUser(user: Partial<User>): Promise<User>;\n  deleteUser(id: string): Promise<void>;\n\x7d\n\ninterface NotificationService \x7b\n  showSuccess(message: string): void;\n  showError(message: string): void;\n\x7d\n\n// Real HTTP implementation\nclass HttpUserService implements UserService \x7b\n  constructor(private baseUrl: string = '/api') \x7b\x7d\n  \n  async getUsers(): Promise<User[]> \x7b\n    const response = await fetch(`$\x7bthis.baseUrl\x7d/users`);\n    if (!response.ok) \x7b\n      throw new Error(`HTTP $\x7bresponse.status\x7d: Failed to fetch users`);\n    \x7d\n    return response.json();\n  \x7d\n  \n  async createUser(user: Partial<User>): Promise<User> \x7b\n    const response = await fetch(`$\x7bthis.baseUrl\x7d/users`, \x7b\n      method: 'POST',\n      headers: \x7b 'Content-Type': 'application/json' \x7d,\n      body: JSON.stringify(user)\n    \x7d);\n    \n    if (!response.ok) \x7b\n      throw new Error(`HTTP $\x7bresponse.status\x7d: Failed to create user`);\n    \x7d\n    \n    return response.json();\n  \x7d\n  \n  async deleteUser(id: string): Promise<void> \x7b\n    const response = await fetch(`$\x7bthis.baseUrl\x7d/users/$\x7bid\x7d`, \x7b \n      method: 'DELETE' \n    \x7d);\n    \n    if (!response.ok) \x7b\n      throw new Error(`HTTP $\x7bresponse.status\x7d: Failed to delete user`);\n    \x7d\n  \x7d\n\x7d\n\n// Toast notification implementation\nclass ToastNotificationService implements NotificationService \x7b\n  showSuccess(message: string): void \x7b\n    toast.success(message);\n  \x7d\n  \n  showError(message: string): void \x7b\n    toast.error(message);\n  \x7d\n\x7d\n\n// Component receives dependencies as props\ninterface UserListProps \x7b\n  userService: UserService;\n  notificationService: NotificationService;\n\x7d\n\nfunction UserList(\x7b userService, notificationService \x7d: UserListProps) \x7b\n  const [users, setUsers] = useState<User[]>([]);\n  const [loading, setLoading] = useState(true);\n  \n  useEffect(() => \x7b\n    userService.getUsers()\n      .then(setUsers)\n      .catch(err => \x7b\n        notificationService.showError(`Failed to load users: $\x7berr.message\x7d`);\n      \x7d)\n      .finally(() => setLoading(false));\n  \x7d, [userService, notificationService]);\n  \n  const handleDelete = async (id: string) => \x7b\n    try \x7b\n      await userService.deleteUser(id);\n      setUsers(users => users.filter(u => u.id !== id));\n      notificationService.showSuccess('User deleted successfully');\n    \x7d catch (err) \x7b\n      notificationService.showError(`Failed to delete user: $\x7berr.message\x7d`);\n    \x7d\n  \x7d;\n  \n  const handleCreate = async (userData: Partial<User>) => \x7b\n    try \x7b\n      const newUser = await userService.createUser(userData);\n      setUsers(users => [...users, newUser]);\n      notificationService.showSuccess('User created successfully');\n    \x7d catch (err) \x7b\n      notificationService.showError(`Failed to create user: $\x7berr.message\x7d`);\n    \x7d\n  \x7d;\n  \n  if (loading) return <div>Loading...</div>;\n  \n  return (\n    <div>\n      \x7busers.map(user => (\n        <div key=\x7buser.id\x7d>\n          \x7buser.name\x7d\n          <button onClick=\x7b() => handleDelete(user.id)\x7d>Delete</button>\n        </div>\n      ))\x7d\n      <CreateUserForm onSubmit=\x7bhandleCreate\x7d />\n    </div>\n  );\n\x7d\n\n// Production usage\nfunction App() \x7b\n  const userService = new HttpUserService('/api/v1');\n  const notificationService = new ToastNotificationService();\n  \n  return (\n    <UserList \n      userService=\x7buserService\x7d\n      notificationService=\x7bnotificationService\x7d\n    />\n  );\n\x7d\n\n// Test usage with mocks\nfunction TestApp() \x7b\n  const mockUserService: UserService = \x7b\n    getUsers: jest.fn().mockResolvedValue([\n      \x7b id: '1', name: 'Test User 1' \x7d,\n      \x7b id: '2', name: 'Test User 2' \x7d\n    ]),\n    createUser: jest.fn().mockResolvedValue(\x7b id: '3', name: 'New User' \x7d),\n    deleteUser: jest.fn().mockResolvedValue(undefined)\n  \x7d;\n  \n  const mockNotificationService: NotificationService = \x7b\n    showSuccess: jest.fn(),\n    showError: jest.fn()\n  \x7d;\n  \n  return (\n    <UserList \n      userService=\x7bmockUserService\x7d\n      notificationService=\x7bmockNotificationService\x7d\n    />\n  );\n\x7d\n\n// Benefits:\n// - Easy to test with mock implementations\n// - Can switch between different API implementations\n// - Component focused on UI logic, not API details\n// - Flexible and reusable across different environments",
           PatternExample.codeOnly "✅ GOOD: Context-Based Dependency Injection" "Using React Context for app-wide dependency injection" "// ✅ GOOD: Context-based DI for app-wide services\ninterface AppServices \x7b\n  userService: UserService;\n  notificationService: NotificationService;\n  analyticsService: AnalyticsService;\n\x7d\n\nconst ServicesContext = createContext<AppServices | null>(null);\n\n// Custom hook to access services\nfunction useServices(): AppServices \x7b\n  const services = useContext(ServicesContext);\n  if (!services) \x7b\n    throw new Error('useServices must be used within ServicesProvider');\n  \x7d\n  return services;\n\x7d\n\n// Provider component\nfunction ServicesProvider(\x7b children \x7d: \x7b children: React.ReactNode \x7d) \x7b\n  const services: AppServices = useMemo(() => (\x7b\n    userService: new HttpUserService(),\n    notificationService: new ToastNotificationService(),\n    analyticsService: new GoogleAnalyticsService()\n  \x7d), []);\n  \n  return (\n    <ServicesContext.Provider value=\x7bservices\x7d>\n      \x7bchildren\x7d\n    </ServicesContext.Provider>\n  );\n\x7d\n\n// Components can now access services via hook\nfunction UserList() \x7b\n  const \x7b userService, notificationService \x7d = useServices();\n  const [users, setUsers] = useState<User[]>([]);\n  const [loading, setLoading] = useState(true);\n  \n  useEffect(() => \x7b\n    userService.getUsers()\n      .then(setUsers)\n      .catch(err => \x7b\n        notificationService.showError(`Failed to load users: $\x7berr.message\x7d`);\n      \x7d)\n      .finally(() => setLoading(false));\n  \x7d, [userService, notificationService]);\n  \n  const handleDelete = async (id: string) => \x7b\n    try \x7b\n      await userService.deleteUser(id);\n      setUsers(users => users.filter(u => u.id !== id));\n      notificationService.showSuccess('User deleted successfully');\n    \x7d catch (err) \x7b\n      notificationService.showError(`Failed to delete user: $\x7berr.message\x7d`);\n    \x7d\n  \x7d;\n  \n  if (loading) return <div>Loading...</div>;\n  \n  return (\n    <div>\n      \x7busers.map(user => (\n        <div key=\x7buser.id\x7d>\n          \x7buser.name\x7d\n          <button onClick=\x7b() => handleDelete(user.id)\x7d>Delete</button>\n        </div>\n      ))\x7d\n    </div>\n  );\n\x7d\n\n// App setup\nfunction App() \x7b\n  return (\n    <ServicesProvider>\n      <Router>\n        <Routes>\n          <Route path=\"/users\" element=\x7b<UserList />\x7d />\n          <Route path=\"/profile\" element=\x7b<UserProfile />\x7d />\n        </Routes>\n      </Router>\n    </ServicesProvider>\n  );\n\x7d\n\n// Test setup with mock services\nfunction TestServicesProvider(\x7b children \x7d: \x7b children: React.ReactNode \x7d) \x7b\n  const mockServices: AppServices = useMemo(() => (\x7b\n    userService: \x7b\n      getUsers: jest.fn().mockResolvedValue([]),\n      createUser: jest.fn(),\n      deleteUser: jest.fn()\n    \x7d,\n    notificationService: \x7b\n      showSuccess: jest.fn(),\n      showError: jest.fn()\n    \x7d,\n    analyticsService: \x7b\n      track: jest.fn()\n    \x7d\n  \x7d), []);\n  \n  return (\n    <ServicesContext.Provider value=\x7bmockServices\x7d>\n      \x7bchildren\x7d\n    </ServicesContext.Provider>\n  );\n\x7d"],
        bestPractices := ["Define clear interfaces for dependencies", "Use TypeScript for better type safety", "Consider using React context for app-wide dependencies", "Keep interfaces focused and minimal", "Provide good default implementations"],
        commonMistakes := ["Over-abstracting simple dependencies", "Not defining clear interfaces", "Passing too many dependencies as props", "Making interfaces too broad", "Not considering the testing implications"],
        relatedPatterns := ["service-layer", "adapter-pattern"] } }

/-- Pattern definition `serviceLayerPattern` transcribed from the repository data file registered
under key `service-layer` in PATTERN_REGISTRY (src/patterns/index.ts). -/
def serviceLayerPattern : PatternDefinition :=
  { overview :=
      { name := "Service Layer Pattern",
        description := "An architectural pattern that encapsulates business logic, API communications, and data transformations into dedicated service modules, creating a clean separation between the presentation layer and business logic. This pattern centralizes complex operations, provides consistent interfaces, and makes applications more maintainable and testable.",
        whenToUse := "Use when your application has complex business logic that should not live in components, when you need to interact with multiple APIs or data sources, when you want to centralize error handling and caching strategies, when building applications that need to work offline or sync data, when you have data transformation logic that is reused across multiple components, or when you need to implement complex validation, authentication, or authorization logic." },
    detailed :=
      { name := "Service Layer Pattern",
        description := "Abstracts API calls and business logic into separate service modules, keeping components focused on UI.",
        problem := "Components become cluttered with API calls, data transformation logic, and business rules, making them hard to test and maintain.",
        solution := "Extract all API interactions and business logic into dedicated service classes or modules that components can consume.",
        benefits := ["Clear separation of concerns", "Easier to test business logic in isolation", "Reusable across multiple components", "Centralized error handling", "Easier to mock for testing", "Can switch API implementations easily"],
        drawbacks := ["Additional abstraction layer", "Can lead to over-engineering", "May duplicate some logic from backend", "Need to maintain service interfaces"],
        examples :=
          [PatternExample.codeOnly "❌ BAD: Business Logic Mixed with UI" "Components handling API calls and business logic directly" "// ❌ BAD: Component doing everything - API calls, data transformation, business logic\nfunction UserManagement() \x7b\n  const [users, setUsers] = useState<User[]>([]);\n  const [loading, setLoading] = useState(true);\n  const [error, setError] = useState<string | null>(null);\n  \n  // API calls directly in component\n  useEffect(() => \x7b\n    fetch('/api/users')\n      .then(response => \x7b\n        if (!response.ok) \x7b\n          throw new Error('Failed to fetch users');\n        \x7d\n        return response.json();\n      \x7d)\n      .then(users => \x7b\n        // Business logic mixed in component\n        const activeUsers = users.filter(user => user.status === 'active');\n        const sortedUsers = activeUsers.sort((a, b) => \n          new Date(b.createdAt).getTime() - new Date(a.createdAt).getTime()\n        );\n        setUsers(sortedUsers);\n      \x7d)\n      .catch(err => setError(err.message))\n      .finally(() => setLoading(false));\n  \x7d, []);\n  \n  // Complex business logic in component\n  const handleInvite = async (email: string) => \x7b\n    try \x7b\n      // Validation logic in component\n      if (!email || !email.includes('@')) \x7b\n        toast.error('Invalid email address');\n        return;\n      \x7d\n      \n      // Check if user already exists\n      const existingUser = users.find(user => user.email === email);\n      if (existingUser) \x7b\n        toast.error('User already exists');\n        return;\n      \x7d\n      \n      // API call with complex payload construction\n      const response = await fetch('/api/users/invite', \x7b\n        method: 'POST',\n        headers: \x7b 'Content-Type': 'application/json' \x7d,\n        body: JSON.stringify(\x7b\n          email,\n          role: 'user',\n          invitedBy: getCurrentUser().id,\n          invitedAt: new Date().toISOString(),\n          expiresAt: new Date(Date.now() + 7 * 24 * 60 * 60 * 1000).toISOString()\n        \x7d)\n      \x7d);\n      \n      if (!response.ok) \x7b\n        const error = await response.json();\n        throw new Error(error.message);\n      \x7d\n      \n      // More business logic after API call\n      const result = await response.json();\n      toast.success(`Invitation sent to $\x7bemail\x7d`);\n      \n      // Manually update state\n      setUsers(prev => [...prev, \x7b ...result.user, status: 'pending' \x7d]);\n      \n      // Analytics tracking mixed in\n      analytics.track('user_invited', \x7b email, invitedBy: getCurrentUser().id \x7d);\n      \n    \x7d catch (error) \x7b\n      toast.error(`Failed to invite user: $\x7berror.message\x7d`);\n    \x7d\n  \x7d;\n  \n  const handleUserAction = async (userId: string, action: 'activate' | 'deactivate') => \x7b\n    try \x7b\n      // More business logic in component\n      const user = users.find(u => u.id === userId);\n      if (!user) return;\n      \n      const newStatus = action === 'activate' ? 'active' : 'inactive';\n      const updateData = \x7b\n        status: newStatus,\n        [`$\x7bnewStatus\x7dAt`]: new Date().toISOString(),\n        updatedBy: getCurrentUser().id\n      \x7d;\n      \n      // API call\n      const response = await fetch(`/api/users/$\x7buserId\x7d`, \x7b\n        method: 'PATCH',\n        headers: \x7b 'Content-Type': 'application/json' \x7d,\n        body: JSON.stringify(updateData)\n      \x7d);\n      \n      if (!response.ok) \x7b\n        throw new Error('Failed to update user');\n      \x7d\n      \n      // Manual state updates\n      setUsers(prev => \n        prev.map(u => u.id === userId ? \x7b ...u, ...updateData \x7d : u)\n      );\n      \n      toast.success(`User $\x7baction\x7dd successfully`);\n    \x7d catch (error) \x7b\n      toast.error(error.message);\n    \x7d\n  \x7d;\n  \n  if (loading) return <div>Loading...</div>;\n  if (error) return <div>Error: \x7berror\x7d</div>;\n  \n  return (\n    <div>\n      \x7busers.map(user => (\n        <div key=\x7buser.id\x7d>\n          \x7buser.name\x7d - \x7buser.status\x7d\n          <button onClick=\x7b() => handleUserAction(user.id, 'activate')\x7d>\n            Activate\n          </button>\n          <button onClick=\x7b() => handleUserAction(user.id, 'deactivate')\x7d>\n            Deactivate\n          </button>\n        </div>\n      ))\x7d\n      <InviteForm onInvite=\x7bhandleInvite\x7d />\n    </div>\n  );\n\x7d\n\n// Problems:\n// - Component is huge and complex\n// - Business logic is scattered and hard to test\n// - API calls are hardcoded and not reusable\n// - Error handling is inconsistent\n// - No caching or optimization\n// - Hard to maintain and debug",
           PatternExample.codeOnly "✅ GOOD: Clean Service Layer Separation" "Business logic and API calls abstracted into service layer" "// ✅ GOOD: Service layer handles all business logic and API calls\nclass UserService \x7b\n  private baseUrl = '/api/users';\n  private cache = new Map<string, any>();\n\n  async getUsers(filters?: \x7b status?: string; role?: string \x7d): Promise<User[]> \x7b\n    const cacheKey = `users-$\x7bJSON.stringify(filters || \x7b\x7d)\x7d`;\n    \n    if (this.cache.has(cacheKey)) \x7b\n      return this.cache.get(cacheKey);\n    \x7d\n    \n    try \x7b\n      const query = this.buildQueryString(filters);\n      const response = await fetch(`$\x7bthis.baseUrl\x7d$\x7bquery\x7d`);\n      \n      if (!response.ok) \x7b\n        throw new ApiError('Failed to fetch users', response.status);\n      \x7d\n      \n      const users = await response.json();\n      const processedUsers = this.processUsersData(users);\n      \n      this.cache.set(cacheKey, processedUsers);\n      return processedUsers;\n    \x7d catch (error) \x7b\n      this.handleError('getUsers', error);\n      throw error;\n    \x7d\n  \x7d\n\n  async inviteUser(email: string): Promise<InviteResult> \x7b\n    // Business logic centralized in service\n    this.validateEmail(email);\n    await this.checkUserExists(email);\n    \n    const inviteData = this.buildInvitePayload(email);\n    \n    try \x7b\n      const response = await fetch(`$\x7bthis.baseUrl\x7d/invite`, \x7b\n        method: 'POST',\n        headers: \x7b 'Content-Type': 'application/json' \x7d,\n        body: JSON.stringify(inviteData),\n      \x7d);\n      \n      if (!response.ok) \x7b\n        const error = await response.json();\n        throw new ValidationError(error.message, error.fields);\n      \x7d\n      \n      const result = await response.json();\n      \n      // Post-processing business logic\n      this.trackUserInvitation(email);\n      this.invalidateUserCache();\n      \n      return \x7b\n        success: true,\n        user: result.user,\n        message: `Invitation sent to $\x7bemail\x7d`\n      \x7d;\n    \x7d catch (error) \x7b\n      this.handleError('inviteUser', error);\n      throw error;\n    \x7d\n  \x7d\n\n  async updateUserStatus(userId: string, status: 'active' | 'inactive'): Promise<User> \x7b\n    try \x7b\n      const updateData = this.buildStatusUpdatePayload(status);\n      \n      const response = await fetch(`$\x7bthis.baseUrl\x7d/$\x7buserId\x7d`, \x7b\n        method: 'PATCH',\n        headers: \x7b 'Content-Type': 'application/json' \x7d,\n        body: JSON.stringify(updateData),\n      \x7d);\n      \n      if (!response.ok) \x7b\n        throw new ApiError('Failed to update user status', response.status);\n      \x7d\n      \n      const updatedUser = await response.json();\n      \n      // Business rules after update\n      this.invalidateUserCache();\n      this.trackUserStatusChange(userId, status);\n      \n      return updatedUser;\n    \x7d catch (error) \x7b\n      this.handleError('updateUserStatus', error);\n      throw error;\n    \x7d\n  \x7d\n\n  // Business logic methods\n  private validateEmail(email: string): void \x7b\n    if (!email || !email.includes('@')) \x7b\n      throw new ValidationError('Invalid email address');\n    \x7d\n  \x7d\n\n  private async checkUserExists(email: string): Promise<void> \x7b\n    const users = await this.getUsers();\n    const existingUser = users.find(user => user.email === email);\n    \n    if (existingUser) \x7b\n      throw new ValidationError('User already exists');\n    \x7d\n  \x7d\n\n  private buildInvitePayload(email: string) \x7b\n    return \x7b\n      email,\n      role: 'user',\n      invitedBy: this.getCurrentUserId(),\n      invitedAt: new Date().toISOString(),\n      expiresAt: this.getInviteExpirationDate().toISOString()\n    \x7d;\n  \x7d\n\n  private buildStatusUpdatePayload(status: string) \x7b\n    return \x7b\n      status,\n      [`$\x7bstatus\x7dAt`]: new Date().toISOString(),\n      updatedBy: this.getCurrentUserId()\n    \x7d;\n  \x7d\n\n  private processUsersData(users: User[]): User[] \x7b\n    return users\n      .filter(user => user.status === 'active')\n      .sort((a, b) => \n        new Date(b.createdAt).getTime() - new Date(a.createdAt).getTime()\n      );\n  \x7d\n\n  private buildQueryString(filters?: any): string \x7b\n    if (!filters) return '';\n    const params = new URLSearchParams();\n    Object.entries(filters).forEach(([key, value]) => \x7b\n      if (value !== undefined) params.append(key, String(value));\n    \x7d);\n    return params.toString() ? `?$\x7bparams.toString()\x7d` : '';\n  \x7d\n\n  private invalidateUserCache(): void \x7b\n    Array.from(this.cache.keys())\n      .filter(key => key.startsWith('users-'))\n      .forEach(key => this.cache.delete(key));\n  \x7d\n\n  private trackUserInvitation(email: string): void \x7b\n    analytics.track('user_invited', \x7b \n      email, \n      invitedBy: this.getCurrentUserId() \n    \x7d);\n  \x7d\n\n  private trackUserStatusChange(userId: string, status: string): void \x7b\n    analytics.track('user_status_changed', \x7b userId, status \x7d);\n  \x7d\n\n  private getCurrentUserId(): string \x7b\n    return getCurrentUser().id;\n  \x7d\n\n  private getInviteExpirationDate(): Date \x7b\n    return new Date(Date.now() + 7 * 24 * 60 * 60 * 1000);\n  \x7d\n\n  private handleError(method: string, error: unknown): void \x7b\n    console.error(`UserService.$\x7bmethod\x7d error:`, error);\n    // Could send to error tracking service\n  \x7d\n\x7d\n\n// Export singleton instance\nexport const userService = new UserService();\n\n// Component is now clean and focused on UI\nfunction UserManagement() \x7b\n  const [users, setUsers] = useState<User[]>([]);\n  const [loading, setLoading] = useState(true);\n  \n  useEffect(() => \x7b\n    userService.getUsers(\x7b status: 'active' \x7d)\n      .then(setUsers)\n      .catch(error => toast.error(error.message))\n      .finally(() => setLoading(false));\n  \x7d, []);\n  \n  const handleInvite = async (email: string) => \x7b\n    try \x7b\n      const result = await userService.inviteUser(email);\n      toast.success(result.message);\n      \n      // Simple state update\n      setUsers(prev => [...prev, result.user]);\n    \x7d catch (error) \x7b\n      toast.error(error.message);\n    \x7d\n  \x7d;\n  \n  const handleUserAction = async (userId: string, action: 'activate' | 'deactivate') => \x7b\n    try \x7b\n      const updatedUser = await userService.updateUserStatus(userId, action);\n      \n      setUsers(prev => \n        prev.map(u => u.id === userId ? updatedUser : u)\n      );\n      \n      toast.success(`User $\x7baction\x7dd successfully`);\n    \x7d catch (error) \x7b\n      toast.error(error.message);\n    \x7d\n  \x7d;\n  \n  if (loading) return <div>Loading...</div>;\n  \n  return (\n    <div>\n      \x7busers.map(user => (\n        <UserCard \n          key=\x7buser.id\x7d \n          user=\x7buser\x7d\n          onStatusChange=\x7b(status) => handleUserAction(user.id, status)\x7d\n        />\n      ))\x7d\n      <InviteForm onInvite=\x7bhandleInvite\x7d />\n    </div>\n  );\n\x7d\n\n// Benefits:\n// - Component is focused only on UI logic\n// - Business logic is centralized and testable\n// - API calls are abstracted and reusable\n// - Consistent error handling\n// - Built-in caching and optimization\n// - Easy to maintain and extend"],
        bestPractices := ["Keep services focused on a single domain", "Use TypeScript for better type safety", "Implement proper error handling", "Consider caching strategies", "Make services stateless when possible", "Use dependency injection for testability", "Document service methods clearly"],
        commonMistakes := ["Putting UI logic in services", "Making services too granular or too broad", "Not handling errors consistently", "Tight coupling between services", "Not considering loading and error states", "Forgetting to clean up subscriptions"],
        relatedPatterns := ["dependency-injection", "adapter-pattern"] } }

/-- Pattern definition `adapterPattern` transcribed from the repository data file registered
under key `adapter-pattern` in PATTERN_REGISTRY (src/patterns/index.ts). -/
def adapterPattern : PatternDefinition :=
  { overview :=
      { name := "Adapter Pattern",
        description := "A structural design pattern that creates a unified interface for working with external systems, APIs, or legacy code that have incompatible interfaces. Adapters translate between different data formats, method signatures, and protocols, allowing your application to work seamlessly with external services without tight coupling.",
        whenToUse := "Use when integrating with third-party APIs that have different data structures than your application expects, when you need to support multiple payment providers, authentication systems, or data sources with different interfaces, when migrating from legacy systems while maintaining backward compatibility, when you want to insulate your application from changes in external APIs, or when building applications that need to work with multiple versions of the same external service." },
    detailed :=
      { name := "Adapter Pattern",
        description := "Create adapters to transform external API responses or integrate with third-party services, providing a consistent interface.",
        problem := "External APIs return data in formats that don't match your application's needs, or you need to integrate multiple services with different interfaces.",
        solution := "Create adapter classes that transform external data formats into your application's expected format and provide a unified interface.",
        benefits := ["Consistent data format across the app", "Easy to switch between different services", "Isolates external API changes", "Simplifies testing with mock adapters", "Better type safety", "Can handle API versioning"],
        drawbacks := ["Additional code to maintain", "Can hide API capabilities", "May need updates when APIs change", "Performance overhead for transformations"],
        examples :=
          [PatternExample.comparison "Payment Provider Integration" "Comparing direct API coupling vs unified adapter interface" (CodeBlock.mk "Direct External API Coupling" "Component directly handles different API formats leading to tight coupling" "// ❌ BAD: Component directly handles different API formats\nfunction PaymentProcessor(\x7b provider, amount, currency \x7d: PaymentProps) \x7b\n  const [processing, setProcessing] = useState(false);\n  const [result, setResult] = useState<any>(null);\n  \n  const handlePayment = async () => \x7b\n    setProcessing(true);\n    \n    try \x7b\n      if (provider === 'stripe') \x7b\n        // Stripe-specific implementation\n        const stripe = new Stripe(process.env.STRIPE_KEY!);\n        const charge = await stripe.charges.create(\x7b\n          amount: amount * 100, // Stripe uses cents\n          currency,\n          source: 'tok_visa',\n        \x7d);\n        \n        // Handle Stripe response format\n        setResult(\x7b\n          id: charge.id,\n          status: charge.status === 'succeeded' ? 'success' : 'failed',\n          amount: charge.amount / 100,\n          currency: charge.currency,\n        \x7d);\n        \n      \x7d else if (provider === 'paypal') \x7b\n        // PayPal-specific implementation\n        const paypal = new PayPalClient(\x7b\n          clientId: process.env.PAYPAL_CLIENT_ID!,\n          clientSecret: process.env.PAYPAL_SECRET!\n        \x7d);\n        \n        const order = await paypal.orders.create(\x7b\n          intent: 'CAPTURE',\n          purchase_units: [\x7b\n            amount: \x7b\n              currency_code: currency,\n              value: amount.toString(), // PayPal uses strings\n            \x7d,\n          \x7d],\n        \x7d);\n        \n        const capture = await paypal.orders.capture(order.id);\n        \n        // Handle PayPal response format (completely different!)\n        setResult(\x7b\n          id: capture.id,\n          status: capture.status === 'COMPLETED' ? 'success' : 'failed',\n          amount: parseFloat(capture.purchase_units[0].amount.value),\n          currency: capture.purchase_units[0].amount.currency_code,\n        \x7d);\n        \n      \x7d else if (provider === 'square') \x7b\n        // Square-specific implementation (yet another format!)\n        const square = new SquareClient(\x7b\n          accessToken: process.env.SQUARE_TOKEN!,\n          environment: 'sandbox'\n        \x7d);\n        \n        const payment = await square.payments.create(\x7b\n          source_id: 'cnon:card-nonce-ok',\n          amount_money: \x7b\n            amount: amount * 100, // Square also uses cents\n            currency: currency.toUpperCase(),\n          \x7d,\n          idempotency_key: uuidv4(),\n        \x7d);\n        \n        // Handle Square response format (different again!)\n        setResult(\x7b\n          id: payment.payment!.id,\n          status: payment.payment!.status === 'COMPLETED' ? 'success' : 'failed',\n          amount: payment.payment!.amount_money!.amount! / 100,\n          currency: payment.payment!.amount_money!.currency!.toLowerCase(),\n        \x7d);\n      \x7d\n      \n    \x7d catch (error) \x7b\n      // Different providers throw different error formats too\n      let errorMessage = 'Payment failed';\n      \n      if (provider === 'stripe' && error.type === 'StripeCardError') \x7b\n        errorMessage = error.message;\n      \x7d else if (provider === 'paypal' && error.details) \x7b\n        errorMessage = error.details[0].description;\n      \x7d else if (provider === 'square' && error.errors) \x7b\n        errorMessage = error.errors[0].detail;\n      \x7d\n      \n      setResult(\x7b status: 'failed', error: errorMessage \x7d);\n    \x7d finally \x7b\n      setProcessing(false);\n    \x7d\n  \x7d;\n  \n  return (\n    <div>\n      <button onClick=\x7bhandlePayment\x7d disabled=\x7bprocessing\x7d>\n        \x7bprocessing ? 'Processing...' : `Pay $\x7bamount\x7d $\x7bcurrency.toUpperCase()\x7d`\x7d\n      </button>\n      \n      \x7bresult && (\n        <div>\n          Status: \x7bresult.status\x7d\n          \x7bresult.error && <p>Error: \x7bresult.error\x7d</p>\x7d\n        </div>\n      )\x7d\n    </div>\n  );\n\x7d\n\n// Problems:\n// - Component is tightly coupled to all payment providers\n// - Adding new providers requires modifying the component\n// - Different APIs have different data formats and error handling\n// - Business logic is mixed with integration details\n// - Very difficult to test individual provider integrations\n// - Code becomes unmanageable as more providers are added") (CodeBlock.mk "Adapter Pattern for Unified Interface" "Adapters provide consistent interface across different payment providers" "// ✅ GOOD: Define consistent interface for all payment providers\ninterface PaymentProvider \x7b\n  charge(amount: number, currency: string, source: string): Promise<PaymentResult>;\n  refund(chargeId: string, amount?: number): Promise<RefundResult>;\n  getTransaction(id: string): Promise<Transaction>;\n\x7d\n\ninterface PaymentResult \x7b\n  id: string;\n  status: 'succeeded' | 'failed' | 'pending';\n  amount: number;\n  currency: string;\n  errorMessage?: string;\n\x7d\n\ninterface RefundResult \x7b\n  id: string;\n  status: 'completed' | 'failed' | 'pending';\n  amount: number;\n\x7d\n\n// Stripe adapter - handles Stripe-specific format\nclass StripeAdapter implements PaymentProvider \x7b\n  private stripe: Stripe;\n  \n  constructor(apiKey: string) \x7b\n    this.stripe = new Stripe(apiKey);\n  \x7d\n  \n  async charge(amount: number, currency: string, source: string): Promise<PaymentResult> \x7b\n    try \x7b\n      const charge = await this.stripe.charges.create(\x7b\n        amount: Math.round(amount * 100), // Convert to cents\n        currency: currency.toLowerCase(),\n        source,\n      \x7d);\n      \n      return \x7b\n        id: charge.id,\n        status: this.mapStripeStatus(charge.status),\n        amount: charge.amount / 100, // Convert back from cents\n        currency: charge.currency.toUpperCase(),\n      \x7d;\n    \x7d catch (error) \x7b\n      return \x7b\n        id: '',\n        status: 'failed',\n        amount,\n        currency,\n        errorMessage: this.extractStripeError(error),\n      \x7d;\n    \x7d\n  \x7d\n  \n  async refund(chargeId: string, amount?: number): Promise<RefundResult> \x7b\n    const refund = await this.stripe.refunds.create(\x7b\n      charge: chargeId,\n      amount: amount ? Math.round(amount * 100) : undefined,\n    \x7d);\n    \n    return \x7b\n      id: refund.id,\n      status: refund.status === 'succeeded' ? 'completed' : 'failed',\n      amount: refund.amount / 100,\n    \x7d;\n  \x7d\n  \n  async getTransaction(id: string): Promise<Transaction> \x7b\n    const charge = await this.stripe.charges.retrieve(id);\n    return \x7b\n      id: charge.id,\n      amount: charge.amount / 100,\n      currency: charge.currency.toUpperCase(),\n      status: this.mapStripeStatus(charge.status),\n      createdAt: new Date(charge.created * 1000),\n      metadata: charge.metadata,\n    \x7d;\n  \x7d\n  \n  private mapStripeStatus(status: string): PaymentResult['status'] \x7b\n    switch (status) \x7b\n      case 'succeeded': return 'succeeded';\n      case 'pending': return 'pending';\n      default: return 'failed';\n    \x7d\n  \x7d\n  \n  private extractStripeError(error: any): string \x7b\n    return error.message || 'Stripe payment failed';\n  \x7d\n\x7d\n\n// PayPal adapter - handles PayPal-specific format\nclass PayPalAdapter implements PaymentProvider \x7b\n  private paypal: PayPalClient;\n  \n  constructor(clientId: string, clientSecret: string) \x7b\n    this.paypal = new PayPalClient(\x7b clientId, clientSecret \x7d);\n  \x7d\n  \n  async charge(amount: number, currency: string, source: string): Promise<PaymentResult> \x7b\n    try \x7b\n      const order = await this.paypal.orders.create(\x7b\n        intent: 'CAPTURE',\n        purchase_units: [\x7b\n          amount: \x7b\n            currency_code: currency.toUpperCase(),\n            value: amount.toFixed(2), // PayPal wants string with 2 decimals\n          \x7d,\n        \x7d],\n      \x7d);\n      \n      const capture = await this.paypal.orders.capture(order.id);\n      \n      return \x7b\n        id: capture.id,\n        status: this.mapPayPalStatus(capture.status),\n        amount: parseFloat(capture.purchase_units[0].amount.value),\n        currency: capture.purchase_units[0].amount.currency_code,\n      \x7d;\n    \x7d catch (error) \x7b\n      return \x7b\n        id: '',\n        status: 'failed',\n        amount,\n        currency,\n        errorMessage: this.extractPayPalError(error),\n      \x7d;\n    \x7d\n  \x7d\n  \n  async refund(chargeId: string, amount?: number): Promise<RefundResult> \x7b\n    const refund = await this.paypal.payments.refund(chargeId, \x7b\n      amount: amount ? \x7b \n        value: amount.toFixed(2),\n        currency_code: 'USD' \n      \x7d : undefined,\n    \x7d);\n    \n    return \x7b\n      id: refund.id,\n      status: 'completed',\n      amount: parseFloat(refund.amount.value),\n    \x7d;\n  \x7d\n  \n  async getTransaction(id: string): Promise<Transaction> \x7b\n    const order = await this.paypal.orders.get(id);\n    return \x7b\n      id: order.id,\n      amount: parseFloat(order.purchase_units[0].amount.value),\n      currency: order.purchase_units[0].amount.currency_code,\n      status: this.mapPayPalStatus(order.status),\n      createdAt: new Date(order.create_time),\n      metadata: \x7b\x7d,\n    \x7d;\n  \x7d\n  \n  private mapPayPalStatus(status: string): PaymentResult['status'] \x7b\n    switch (status) \x7b\n      case 'COMPLETED': return 'succeeded';\n      case 'APPROVED': return 'pending';\n      default: return 'failed';\n    \x7d\n  \x7d\n  \n  private extractPayPalError(error: any): string \x7b\n    if (error.details && error.details.length > 0) \x7b\n      return error.details[0].description;\n    \x7d\n    return 'PayPal payment failed';\n  \x7d\n\x7d\n\n// Component now works with any payment provider through the adapter\nfunction PaymentProcessor(\x7b provider, amount, currency \x7d: PaymentProps) \x7b\n  const [processing, setProcessing] = useState(false);\n  const [result, setResult] = useState<PaymentResult | null>(null);\n  \n  // Factory creates appropriate adapter\n  const getPaymentProvider = (): PaymentProvider => \x7b\n    switch (provider) \x7b\n      case 'stripe':\n        return new StripeAdapter(process.env.STRIPE_KEY!);\n      case 'paypal':\n        return new PayPalAdapter(\n          process.env.PAYPAL_CLIENT_ID!,\n          process.env.PAYPAL_SECRET!\n        );\n      default:\n        throw new Error(`Unsupported payment provider: $\x7bprovider\x7d`);\n    \x7d\n  \x7d;\n  \n  const handlePayment = async () => \x7b\n    setProcessing(true);\n    \n    try \x7b\n      const paymentProvider = getPaymentProvider();\n      const paymentResult = await paymentProvider.charge(amount, currency, 'tok_visa');\n      setResult(paymentResult);\n      \n      if (paymentResult.status === 'succeeded') \x7b\n        // Handle success - same logic for all providers\n        await saveTransaction(paymentResult);\n        showSuccessMessage(`Payment of $\x7bpaymentResult.amount\x7d $\x7bpaymentResult.currency\x7d completed!`);\n      \x7d else \x7b\n        // Handle failure - same logic for all providers\n        showErrorMessage(paymentResult.errorMessage || 'Payment failed');\n      \x7d\n      \n    \x7d catch (error) \x7b\n      setResult(\x7b\n        id: '',\n        status: 'failed',\n        amount,\n        currency,\n        errorMessage: 'Unexpected error occurred'\n      \x7d);\n    \x7d finally \x7b\n      setProcessing(false);\n    \x7d\n  \x7d;\n  \n  return (\n    <div>\n      <button onClick=\x7bhandlePayment\x7d disabled=\x7bprocessing\x7d>\n        \x7bprocessing ? 'Processing...' : `Pay $\x7bamount\x7d $\x7bcurrency.toUpperCase()\x7d`\x7d\n      </button>\n      \n      \x7bresult && (\n        <div>\n          <p>Status: \x7bresult.status\x7d</p>\n          \x7bresult.status === 'succeeded' && (\n            <p>Transaction ID: \x7bresult.id\x7d</p>\n          )\x7d\n          \x7bresult.errorMessage && (\n            <p style=\x7b\x7b color: 'red' \x7d\x7d>Error: \x7bresult.errorMessage\x7d</p>\n          )\x7d\n        </div>\n      )\x7d\n    </div>\n  );\n\x7d\n\n// Benefits:\n// - Component doesn't know about provider-specific implementations\n// - Easy to add new payment providers without changing component\n// - Consistent error handling across all providers\n// - Each adapter handles its provider's specific quirks\n// - Much easier to test individual adapters in isolation"),
           PatternExample.comparison "API Response Transformation" "Comparing direct API usage vs adapter pattern for normalizing different external API formats" (CodeBlock.mk "Direct API Usage with Format Handling" "Components directly handle different API response formats causing code duplication and maintenance issues" "// ❌ BAD: Components directly handle different API formats\nfunction UserProfile(\x7b provider, username \x7d: \x7b \n  provider: 'github' | 'gitlab';\n  username: string;\n\x7d) \x7b\n  const [user, setUser] = useState<any>(null);\n  const [loading, setLoading] = useState(true);\n  const [error, setError] = useState<string | null>(null);\n  \n  useEffect(() => \x7b\n    const fetchUser = async () => \x7b\n      try \x7b\n        setLoading(true);\n        setError(null);\n        \n        let userData;\n        \n        if (provider === 'github') \x7b\n          // Direct GitHub API call\n          const response = await fetch(`https://api.github.com/users/$\x7busername\x7d`);\n          const githubUser = await response.json();\n          \n          // Manual transformation inline\n          userData = \x7b\n            id: `github-$\x7bgithubUser.id\x7d`,\n            username: githubUser.login,\n            displayName: githubUser.name || githubUser.login,\n            avatarUrl: githubUser.avatar_url,\n            profileUrl: githubUser.html_url,\n            email: githubUser.email,\n            bio: githubUser.bio,\n            location: githubUser.location,\n            company: githubUser.company,\n            website: githubUser.blog ? (githubUser.blog.startsWith('http') ? githubUser.blog : `https://$\x7bgithubUser.blog\x7d`) : null,\n            repositories: githubUser.public_repos,\n            followers: githubUser.followers,\n            following: githubUser.following,\n            joinedAt: new Date(githubUser.created_at),\n          \x7d;\n          \n        \x7d else if (provider === 'gitlab') \x7b\n          // Direct GitLab API call\n          const response = await fetch(`https://gitlab.com/api/v4/users?username=$\x7busername\x7d`);\n          const users = await response.json();\n          \n          if (users.length === 0) \x7b\n            throw new Error('User not found');\n          \x7d\n          \n          const gitlabUser = users[0];\n          \n          // Manual transformation inline (different format!)\n          userData = \x7b\n            id: `gitlab-$\x7bgitlabUser.id\x7d`,\n            username: gitlabUser.username,\n            displayName: gitlabUser.name,\n            avatarUrl: gitlabUser.avatar_url,\n            profileUrl: gitlabUser.web_url,\n            email: gitlabUser.public_email || null,\n            bio: gitlabUser.bio || null,\n            location: gitlabUser.location || null,\n            company: gitlabUser.organization || null,\n            website: gitlabUser.website_url || null,\n            repositories: 0, // GitLab doesn't provide this easily\n            followers: gitlabUser.followers || 0,\n            following: gitlabUser.following || 0,\n            joinedAt: new Date(gitlabUser.created_at),\n          \x7d;\n        \x7d\n        \n        setUser(userData);\n        \n      \x7d catch (err) \x7b\n        setError(err.message);\n      \x7d finally \x7b\n        setLoading(false);\n      \x7d\n    \x7d;\n    \n    fetchUser();\n  \x7d, [provider, username]);\n  \n  if (loading) return <div>Loading user profile...</div>;\n  if (error) return <div>Error: \x7berror\x7d</div>;\n  if (!user) return <div>User not found</div>;\n  \n  return (\n    <div className=\"user-profile\">\n      <img src=\x7buser.avatarUrl\x7d alt=\x7buser.displayName\x7d />\n      <h1>\x7buser.displayName\x7d</h1>\n      <p>@\x7buser.username\x7d</p>\n      \x7buser.bio && <p>\x7buser.bio\x7d</p>\x7d\n      \x7buser.location && <p>📍 \x7buser.location\x7d</p>\x7d\n      \x7buser.company && <p>🏢 \x7buser.company\x7d</p>\x7d\n      \x7buser.website && (\n        <p>🔗 <a href=\x7buser.website\x7d>\x7buser.website\x7d</a></p>\n      )\x7d\n      \n      <div className=\"stats\">\n        <span>Repositories: \x7buser.repositories\x7d</span>\n        <span>Followers: \x7buser.followers\x7d</span>\n        <span>Following: \x7buser.following\x7d</span>\n      </div>\n      \n      <p>Joined: \x7buser.joinedAt.toLocaleDateString()\x7d</p>\n    </div>\n  );\n\x7d\n\n// Problems:\n// - Transformation logic is scattered throughout components\n// - Code duplication when multiple components need same API data\n// - Hard to maintain when API formats change\n// - No consistent error handling across different APIs\n// - Difficult to test API integration separately from UI\n// - Adding new APIs requires updating all consuming components") (CodeBlock.mk "API Response Transformation Adapter" "Adapters normalize different external API response formats into consistent internal format" "// ✅ GOOD: Different external APIs, unified internal format\ninterface User \x7b\n  id: string;\n  username: string;\n  displayName: string;\n  avatarUrl: string;\n  profileUrl: string;\n  email: string | null;\n  bio: string | null;\n  location: string | null;\n  company: string | null;\n  website: string | null;\n  stats: \x7b\n    repositories: number;\n    followers: number;\n    following: number;\n  \x7d;\n  joinedAt: Date;\n\x7d\n\n// GitHub API returns this format\ninterface GitHubUser \x7b\n  login: string;\n  id: number;\n  avatar_url: string;\n  html_url: string;\n  name: string | null;\n  company: string | null;\n  blog: string;\n  location: string | null;\n  email: string | null;\n  bio: string | null;\n  public_repos: number;\n  followers: number;\n  following: number;\n  created_at: string;\n\x7d\n\n// GitLab API returns this completely different format\ninterface GitLabUser \x7b\n  username: string;\n  id: number;\n  avatar_url: string;\n  web_url: string;\n  name: string;\n  organization: string;\n  website_url: string;\n  location: string;\n  public_email: string;\n  bio: string;\n  created_at: string;\n  followers: number;\n  following: number;\n\x7d\n\n// Common interface for user providers\ninterface UserProvider \x7b\n  getUser(username: string): Promise<User>;\n  searchUsers(query: string): Promise<User[]>;\n\x7d\n\n// GitHub adapter transforms GitHub API to our format\nclass GitHubUserAdapter implements UserProvider \x7b\n  private apiUrl = 'https://api.github.com';\n  \n  async getUser(username: string): Promise<User> \x7b\n    const response = await fetch(`$\x7bthis.apiUrl\x7d/users/$\x7busername\x7d`);\n    \n    if (!response.ok) \x7b\n      throw new Error(`GitHub user not found: $\x7busername\x7d`);\n    \x7d\n    \n    const githubUser: GitHubUser = await response.json();\n    return this.transformGitHubUser(githubUser);\n  \x7d\n  \n  async searchUsers(query: string): Promise<User[]> \x7b\n    const response = await fetch(`$\x7bthis.apiUrl\x7d/search/users?q=$\x7bquery\x7d`);\n    const data = await response.json();\n    \n    return data.items.map((user: GitHubUser) => this.transformGitHubUser(user));\n  \x7d\n  \n  private transformGitHubUser(githubUser: GitHubUser): User \x7b\n    return \x7b\n      id: `github-$\x7bgithubUser.id\x7d`,\n      username: githubUser.login,\n      displayName: githubUser.name || githubUser.login,\n      avatarUrl: githubUser.avatar_url,\n      profileUrl: githubUser.html_url,\n      email: githubUser.email,\n      bio: githubUser.bio,\n      location: githubUser.location,\n      company: githubUser.company,\n      website: this.normalizeUrl(githubUser.blog),\n      stats: \x7b\n        repositories: githubUser.public_repos,\n        followers: githubUser.followers,\n        following: githubUser.following,\n      \x7d,\n      joinedAt: new Date(githubUser.created_at),\n    \x7d;\n  \x7d\n  \n  private normalizeUrl(url: string): string | null \x7b\n    if (!url) return null;\n    return url.startsWith('http') ? url : `https://$\x7burl\x7d`;\n  \x7d\n\x7d\n\n// GitLab adapter transforms GitLab API to our format\nclass GitLabUserAdapter implements UserProvider \x7b\n  private apiUrl = 'https://gitlab.com/api/v4';\n  \n  async getUser(username: string): Promise<User> \x7b\n    const response = await fetch(`$\x7bthis.apiUrl\x7d/users?username=$\x7busername\x7d`);\n    const users: GitLabUser[] = await response.json();\n    \n    if (users.length === 0) \x7b\n      throw new Error(`GitLab user not found: $\x7busername\x7d`);\n    \x7d\n    \n    return this.transformGitLabUser(users[0]);\n  \x7d\n  \n  async searchUsers(query: string): Promise<User[]> \x7b\n    const response = await fetch(`$\x7bthis.apiUrl\x7d/users?search=$\x7bquery\x7d`);\n    const users: GitLabUser[] = await response.json();\n    \n    return users.map(user => this.transformGitLabUser(user));\n  \x7d\n  \n  private transformGitLabUser(gitlabUser: GitLabUser): User \x7b\n    return \x7b\n      id: `gitlab-$\x7bgitlabUser.id\x7d`,\n      username: gitlabUser.username,\n      displayName: gitlabUser.name,\n      avatarUrl: gitlabUser.avatar_url,\n      profileUrl: gitlabUser.web_url,\n      email: gitlabUser.public_email || null,\n      bio: gitlabUser.bio || null,\n      location: gitlabUser.location || null,\n      company: gitlabUser.organization || null,\n      website: gitlabUser.website_url || null,\n      stats: \x7b\n        repositories: 0, // GitLab doesn't provide this in user endpoint\n        followers: gitlabUser.followers || 0,\n        following: gitlabUser.following || 0,\n      \x7d,\n      joinedAt: new Date(gitlabUser.created_at),\n    \x7d;\n  \x7d\n\x7d\n\n// Factory to create appropriate adapter\nclass UserProviderFactory \x7b\n  static create(provider: 'github' | 'gitlab'): UserProvider \x7b\n    switch (provider) \x7b\n      case 'github':\n        return new GitHubUserAdapter();\n      case 'gitlab':\n        return new GitLabUserAdapter();\n      default:\n        throw new Error(`Unknown provider: $\x7bprovider\x7d`);\n    \x7d\n  \x7d\n\x7d\n\n// Component works with any provider through adapters\nfunction UserProfile(\x7b provider, username \x7d: \x7b \n  provider: 'github' | 'gitlab';\n  username: string;\n\x7d) \x7b\n  const [user, setUser] = useState<User | null>(null);\n  const [loading, setLoading] = useState(true);\n  const [error, setError] = useState<string | null>(null);\n  \n  useEffect(() => \x7b\n    const fetchUser = async () => \x7b\n      try \x7b\n        setLoading(true);\n        setError(null);\n        \n        const userProvider = UserProviderFactory.create(provider);\n        const userData = await userProvider.getUser(username);\n        setUser(userData);\n        \n      \x7d catch (err) \x7b\n        setError(err.message);\n      \x7d finally \x7b\n        setLoading(false);\n      \x7d\n    \x7d;\n    \n    fetchUser();\n  \x7d, [provider, username]);\n  \n  if (loading) return <div>Loading user profile...</div>;\n  if (error) return <div>Error: \x7berror\x7d</div>;\n  if (!user) return <div>User not found</div>;\n  \n  // Same JSX works for users from any provider!\n  return (\n    <div className=\"user-profile\">\n      <img src=\x7buser.avatarUrl\x7d alt=\x7buser.displayName\x7d />\n      <h1>\x7buser.displayName\x7d</h1>\n      <p>@\x7buser.username\x7d</p>\n      \x7buser.bio && <p>\x7buser.bio\x7d</p>\x7d\n      \x7buser.location && <p>📍 \x7buser.location\x7d</p>\x7d\n      \x7buser.company && <p>🏢 \x7buser.company\x7d</p>\x7d\n      \x7buser.website && (\n        <p>🔗 <a href=\x7buser.website\x7d>\x7buser.website\x7d</a></p>\n      )\x7d\n      \n      <div className=\"stats\">\n        <span>Repositories: \x7buser.stats.repositories\x7d</span>\n        <span>Followers: \x7buser.stats.followers\x7d</span>\n        <span>Following: \x7buser.stats.following\x7d</span>\n      </div>\n      \n      <p>Joined: \x7buser.joinedAt.toLocaleDateString()\x7d</p>\n    </div>\n  );\n\x7d\n\n// Benefits:\n// - Consistent data format across the app\n// - Easy to switch between different services\n// - Centralized transformation logic\n// - Clean separation of concerns\n// - Testable adapters in isolation\n// - Component doesn't need to know about API specifics")],
        bestPractices := ["Define clear interfaces for your domain models", "Keep adapters focused on data transformation", "Handle API errors gracefully", "Use TypeScript for better type safety", "Consider caching transformed data", "Document mapping decisions", "Test adapters thoroughly with mock data"],
        commonMistakes := ["Leaking external API details through the adapter", "Not handling missing or null fields", "Over-complicating simple transformations", "Forgetting to handle API errors", "Tight coupling between adapter and UI", "Not versioning adapters when APIs change"],
        relatedPatterns := ["service-layer", "dependency-injection"] } }

/-- Pattern definition `declarativeProgrammingPattern` transcribed from the repository data file registered
under key `declarative-programming` in PATTERN_REGISTRY (src/patterns/index.ts). -/
def declarativeProgrammingPattern : PatternDefinition :=
  { overview :=
      { name := "Declarative Programming Pattern",
        description := "Transform imperative code into declarative React patterns by describing what the UI should look like rather than how to achieve it. This includes conditional rendering with Suspense and ErrorBoundary, state transformations with derived values, event handling with declarative patterns, and data flow that emphasizes intent over implementation details.",
        whenToUse := "Use when you have complex imperative logic scattered throughout components, when you want to standardize loading/error/success states, when building reusable UI patterns, when you need to reduce cognitive load by making component intentions explicit, when you want to leverage React's built-in optimizations, or when you need to make code more testable and predictable by removing side effects and manual DOM manipulation." },
    detailed :=
      { name := "Declarative Programming Pattern",
        description := "Transform imperative code into declarative React patterns that express what the UI should look like rather than how to achieve it, covering conditional rendering, state management, event handling, and data transformations.",
        problem := "Components become cluttered with imperative logic like manual DOM manipulation, complex conditional chains, procedural event handling, and step-by-step state updates that obscure the intended behavior and make code harder to understand and maintain.",
        solution := "Use React's declarative patterns: Suspense/ErrorBoundary for conditional rendering, derived state for transformations, declarative event handlers, and functional programming principles to express intent clearly.",
        benefits := ["More readable and self-documenting code", "Consistent handling of common UI states", "Better separation of concerns", "Easier testing of UI states", "Leverages React's built-in optimizations", "Reduces boilerplate code"],
        drawbacks := ["Requires understanding of React's declarative patterns", "May need additional wrapper components", "Can be overkill for simple conditions", "Learning curve for team members"],
        examples :=
          [PatternExample.comparison "Conditional Rendering Patterns" "Comparing imperative conditional logic with declarative component patterns" (CodeBlock.mk "Imperative Conditional Logic" "Complex nested conditions making component logic hard to follow" "// ❌ BAD: Imperative conditional rendering\nfunction UserProfile(\x7b userId \x7d) \x7b\n  const [user, setUser] = useState(null);\n  const [loading, setLoading] = useState(true);\n  const [error, setError] = useState(null);\n  const [permissions, setPermissions] = useState(null);\n  const [permissionsLoading, setPermissionsLoading] = useState(true);\n\n  useEffect(() => \x7b\n    fetchUser(userId)\n      .then(setUser)\n      .catch(setError)\n      .finally(() => setLoading(false));\n      \n    fetchPermissions(userId)\n      .then(setPermissions)\n      .catch(setError)\n      .finally(() => setPermissionsLoading(false));\n  \x7d, [userId]);\n\n  // Complex imperative logic\n  if (loading || permissionsLoading) \x7b\n    return (\n      <div className=\"flex items-center justify-center p-8\">\n        <div className=\"animate-spin rounded-full h-8 w-8 border-b-2 border-blue-500\"></div>\n        <span className=\"ml-2\">Loading user data...</span>\n      </div>\n    );\n  \x7d\n\n  if (error) \x7b\n    return (\n      <div className=\"bg-red-50 border border-red-200 rounded-md p-4\">\n        <h3 className=\"text-red-800 font-medium\">Error Loading Profile</h3>\n        <p className=\"text-red-600 text-sm mt-1\">\x7berror.message\x7d</p>\n        <button \n          onClick=\x7b() => window.location.reload()\x7d\n          className=\"mt-2 px-3 py-1 bg-red-600 text-white rounded text-sm\"\n        >\n          Retry\n        </button>\n      </div>\n    );\n  \x7d\n\n  if (!user) \x7b\n    return (\n      <div className=\"text-center p-8\">\n        <h3 className=\"text-gray-500\">User not found</h3>\n      </div>\n    );\n  \x7d\n\n  if (!permissions?.canViewProfile) \x7b\n    return (\n      <div className=\"bg-yellow-50 border border-yellow-200 rounded-md p-4\">\n        <h3 className=\"text-yellow-800\">Access Denied</h3>\n        <p className=\"text-yellow-600 text-sm\">You don't have permission to view this profile.</p>\n      </div>\n    );\n  \x7d\n\n  // Actual component logic buried at the bottom\n  return (\n    <div className=\"max-w-2xl mx-auto p-6\">\n      <div className=\"flex items-center space-x-4 mb-6\">\n        <img \n          src=\x7buser.avatar\x7d \n          alt=\x7buser.name\x7d\n          className=\"w-16 h-16 rounded-full\"\n        />\n        <div>\n          <h1 className=\"text-2xl font-bold\">\x7buser.name\x7d</h1>\n          <p className=\"text-gray-600\">\x7buser.email\x7d</p>\n        </div>\n      </div>\n      <UserDetails user=\x7buser\x7d />\n    </div>\n  );\n\x7d") (CodeBlock.mk "Declarative with Components" "Clean declarative approach using Suspense, ErrorBoundary, and conditional components" "// ✅ GOOD: Declarative conditional rendering\nfunction UserProfile(\x7b userId \x7d) \x7b\n  return (\n    <ErrorBoundary fallback=\x7b<ErrorDisplay />\x7d>\n      <Suspense fallback=\x7b<LoadingSpinner message=\"Loading user data...\" />\x7d>\n        <PermissionGuard \n          userId=\x7buserId\x7d \n          permission=\"canViewProfile\"\n          fallback=\x7b<AccessDenied />\x7d\n        >\n          <UserProfileContent userId=\x7buserId\x7d />\n        </PermissionGuard>\n      </Suspense>\n    </ErrorBoundary>\n  );\n\x7d\n\n// Clean, focused component with single responsibility\nfunction UserProfileContent(\x7b userId \x7d) \x7b\n  const user = useSuspenseQuery(['user', userId], () => fetchUser(userId));\n\n  return (\n    <ConditionalRender\n      condition=\x7buser\x7d\n      fallback=\x7b<NotFound message=\"User not found\" />\x7d\n    >\n      <div className=\"max-w-2xl mx-auto p-6\">\n        <div className=\"flex items-center space-x-4 mb-6\">\n          <img \n            src=\x7buser.avatar\x7d \n            alt=\x7buser.name\x7d\n            className=\"w-16 h-16 rounded-full\"\n          />\n          <div>\n            <h1 className=\"text-2xl font-bold\">\x7buser.name\x7d</h1>\n            <p className=\"text-gray-600\">\x7buser.email\x7d</p>\n          </div>\n        </div>\n        <UserDetails user=\x7buser\x7d />\n      </div>\n    </ConditionalRender>\n  );\n\x7d\n\n// Reusable declarative components\nfunction ConditionalRender(\x7b condition, fallback, children \x7d) \x7b\n  return condition ? children : fallback;\n\x7d\n\nfunction PermissionGuard(\x7b userId, permission, fallback, children \x7d) \x7b\n  const permissions = useSuspenseQuery(\n    ['permissions', userId], \n    () => fetchPermissions(userId)\n  );\n  \n  return permissions?.[permission] ? children : fallback;\n\x7d\n\nfunction LoadingSpinner(\x7b message = \"Loading...\" \x7d) \x7b\n  return (\n    <div className=\"flex items-center justify-center p-8\">\n      <div className=\"animate-spin rounded-full h-8 w-8 border-b-2 border-blue-500\"></div>\n      <span className=\"ml-2\">\x7bmessage\x7d</span>\n    </div>\n  );\n\x7d\n\nfunction ErrorDisplay(\x7b error, onRetry \x7d) \x7b\n  return (\n    <div className=\"bg-red-50 border border-red-200 rounded-md p-4\">\n      <h3 className=\"text-red-800 font-medium\">Something went wrong</h3>\n      <p className=\"text-red-600 text-sm mt-1\">\n        \x7berror?.message || 'An unexpected error occurred'\x7d\n      </p>\n      <button \n        onClick=\x7bonRetry || (() => window.location.reload())\x7d\n        className=\"mt-2 px-3 py-1 bg-red-600 text-white rounded text-sm\"\n      >\n        Try Again\n      </button>\n    </div>\n  );\n\x7d\n\nfunction AccessDenied() \x7b\n  return (\n    <div className=\"bg-yellow-50 border border-yellow-200 rounded-md p-4\">\n      <h3 className=\"text-yellow-800\">Access Denied</h3>\n      <p className=\"text-yellow-600 text-sm\">\n        You don't have permission to view this content.\n      </p>\n    </div>\n  );\n\x7d"),
           PatternExample.comparison "Event Handling and State Management" "Comparing imperative event handling with declarative state flow patterns" (CodeBlock.mk "Imperative Event Handling & State" "Manual event handling and imperative state updates" "// ❌ BAD: Imperative approach to form handling\nfunction SearchForm() \x7b\n  const [query, setQuery] = useState('');\n  const [filters, setFilters] = useState(\x7b\x7d);\n  const [results, setResults] = useState([]);\n  const [loading, setLoading] = useState(false);\n  const inputRef = useRef(null);\n\n  // Imperative event handling\n  const handleSubmit = (e) => \x7b\n    e.preventDefault();\n    \n    // Manual validation\n    if (!query.trim()) \x7b\n      inputRef.current.focus();\n      inputRef.current.style.borderColor = 'red';\n      return;\n    \x7d\n    \n    // Manual loading state management\n    setLoading(true);\n    setResults([]);\n    \n    // Imperative API call with manual error handling\n    fetch(`/api/search?q=$\x7bquery\x7d&filters=$\x7bJSON.stringify(filters)\x7d`)\n      .then(response => \x7b\n        if (!response.ok) \x7b\n          throw new Error('Search failed');\n        \x7d\n        return response.json();\n      \x7d)\n      .then(data => \x7b\n        setResults(data.results);\n        setLoading(false);\n        // Manual scroll to results\n        document.getElementById('results').scrollIntoView();\n      \x7d)\n      .catch(error => \x7b\n        setLoading(false);\n        // Manual error display\n        alert('Search failed: ' + error.message);\n      \x7d);\n  \x7d;\n\n  // Imperative filter handling\n  const handleFilterChange = (key, value) => \x7b\n    const newFilters = \x7b ...filters \x7d;\n    if (value) \x7b\n      newFilters[key] = value;\n    \x7d else \x7b\n      delete newFilters[key];\n    \x7d\n    setFilters(newFilters);\n    \n    // Manual dependent state update\n    if (query) \x7b\n      handleSubmit(\x7b preventDefault: () => \x7b\x7d \x7d);\n    \x7d\n  \x7d;\n\n  return (\n    <form onSubmit=\x7bhandleSubmit\x7d>\n      <input\n        ref=\x7binputRef\x7d\n        value=\x7bquery\x7d\n        onChange=\x7b(e) => \x7b\n          setQuery(e.target.value);\n          // Manual style reset\n          e.target.style.borderColor = '';\n        \x7d\x7d\n        placeholder=\"Search...\"\n      />\n      \n      \x7b/* Manual filter rendering */\x7d\n      <select onChange=\x7b(e) => handleFilterChange('category', e.target.value)\x7d>\n        <option value=\"\">All Categories</option>\n        <option value=\"tech\">Technology</option>\n        <option value=\"business\">Business</option>\n      </select>\n      \n      <button type=\"submit\" disabled=\x7bloading\x7d>\n        \x7bloading ? 'Searching...' : 'Search'\x7d\n      </button>\n      \n      <div id=\"results\">\n        \x7bloading && <div>Loading...</div>\x7d\n        \x7bresults.map(result => (\n          <div key=\x7bresult.id\x7d>\x7bresult.title\x7d</div>\n        ))\x7d\n      </div>\n    </form>\n  );\n\x7d") (CodeBlock.mk "Declarative State & Event Flow" "Declarative approach using derived state and clean data flow" "// ✅ GOOD: Declarative approach with clear data flow\nfunction SearchForm() \x7b\n  const [query, setQuery] = useState('');\n  const [filters, setFilters] = useState(\x7b\x7d);\n  \n  // Declarative derived state\n  const searchParams = useMemo(() => (\x7b\n    query: query.trim(),\n    filters,\n    isValid: query.trim().length > 0\n  \x7d), [query, filters]);\n  \n  // Declarative data fetching\n  const \x7b \n    data: results, \n    isLoading, \n    error,\n    refetch \n  \x7d = useQuery(\x7b\n    queryKey: ['search', searchParams],\n    queryFn: () => searchAPI(searchParams),\n    enabled: searchParams.isValid,\n  \x7d);\n\n  // Declarative form submission\n  const handleSubmit = useCallback((e) => \x7b\n    e.preventDefault();\n    if (searchParams.isValid) \x7b\n      refetch();\n    \x7d\n  \x7d, [searchParams.isValid, refetch]);\n\n  // Declarative filter updates\n  const updateFilter = useCallback((key, value) => \x7b\n    setFilters(prev => (\x7b\n      ...prev,\n      [key]: value || undefined\n    \x7d));\n  \x7d, []);\n\n  return (\n    <SearchFormLayout onSubmit=\x7bhandleSubmit\x7d>\n      <SearchInput\n        value=\x7bquery\x7d\n        onChange=\x7bsetQuery\x7d\n        isValid=\x7bsearchParams.isValid\x7d\n        placeholder=\"Search...\"\n      />\n      \n      <FilterSelect\n        value=\x7bfilters.category || ''\x7d\n        onChange=\x7b(value) => updateFilter('category', value)\x7d\n        options=\x7b[\n          \x7b value: '', label: 'All Categories' \x7d,\n          \x7b value: 'tech', label: 'Technology' \x7d,\n          \x7b value: 'business', label: 'Business' \x7d,\n        ]\x7d\n      />\n      \n      <SubmitButton \n        isLoading=\x7bisLoading\x7d\n        disabled=\x7b!searchParams.isValid\x7d\n      >\n        Search\n      </SubmitButton>\n      \n      <SearchResults\n        results=\x7bresults\x7d\n        isLoading=\x7bisLoading\x7d\n        error=\x7berror\x7d\n        onRetry=\x7brefetch\x7d\n      />\n    </SearchFormLayout>\n  );\n\x7d\n\n// Declarative components that express intent\nfunction SearchInput(\x7b value, onChange, isValid, placeholder \x7d) \x7b\n  return (\n    <input\n      value=\x7bvalue\x7d\n      onChange=\x7b(e) => onChange(e.target.value)\x7d\n      placeholder=\x7bplaceholder\x7d\n      className=\x7b`border rounded px-3 py-2 $\x7b\n        value && !isValid ? 'border-red-500' : 'border-gray-300'\n      \x7d`\x7d\n    />\n  );\n\x7d\n\nfunction FilterSelect(\x7b value, onChange, options \x7d) \x7b\n  return (\n    <select\n      value=\x7bvalue\x7d\n      onChange=\x7b(e) => onChange(e.target.value)\x7d\n      className=\"border rounded px-3 py-2\"\n    >\n      \x7boptions.map(option => (\n        <option key=\x7boption.value\x7d value=\x7boption.value\x7d>\n          \x7boption.label\x7d\n        </option>\n      ))\x7d\n    </select>\n  );\n\x7d\n\nfunction SubmitButton(\x7b isLoading, disabled, children \x7d) \x7b\n  return (\n    <button\n      type=\"submit\"\n      disabled=\x7bdisabled || isLoading\x7d\n      className=\"bg-blue-500 text-white px-4 py-2 rounded disabled:opacity-50\"\n    >\n      \x7bisLoading ? 'Searching...' : children\x7d\n    </button>\n  );\n\x7d\n\nfunction SearchResults(\x7b results, isLoading, error, onRetry \x7d) \x7b\n  if (isLoading) return <LoadingSpinner />;\n  if (error) return <ErrorDisplay error=\x7berror\x7d onRetry=\x7bonRetry\x7d />;\n  if (!results?.length) return <EmptyState />;\n\n  return (\n    <div className=\"mt-4 space-y-2\">\n      \x7bresults.map(result => (\n        <SearchResultItem key=\x7bresult.id\x7d result=\x7bresult\x7d />\n      ))\x7d\n    </div>\n  );\n\x7d")],
        bestPractices := ["Express \"what\" should happen, not \"how\" it should happen", "Use data transformations instead of step-by-step mutations", "Prefer pure functions that return new values over procedures that modify state", "Model state as immutable data structures that represent current reality", "Use functional composition to build complex logic from simple pieces", "Express business rules as declarative predicates and transformations", "Design APIs that describe desired outcomes rather than implementation steps", "Use descriptive names that communicate intent rather than implementation details"],
        commonMistakes := ["Writing step-by-step procedures instead of describing desired end states", "Mutating existing data structures instead of creating new ones", "Using imperative loops (for, while) when functional methods would be clearer", "Mixing declarative and imperative approaches in the same abstraction level", "Creating APIs that expose implementation details rather than intent", "Building complex logic with nested conditions instead of composable functions", "Manually orchestrating sequences of operations instead of describing dependencies", "Focusing on \"how to change\" rather than \"what the result should be\""],
        relatedPatterns := ["container-presentational", "compound-component"] } }

/-- Pattern definition `propDrillingSolutionsPattern` transcribed from the repository data file registered
under key `prop-drilling-solutions` in PATTERN_REGISTRY (src/patterns/index.ts). -/
def propDrillingSolutionsPattern : PatternDefinition :=
  { overview :=
      { name := "Prop Drilling Solutions Pattern",
        description := "Address the problem of prop drilling (passing props through multiple component layers) using various React patterns including Context, component composition, state co-location, custom hooks, and render props. Choose the right solution based on your specific use case to maintain clean, maintainable component hierarchies.",
        whenToUse := "Use when you find yourself passing props through multiple component layers that don't use those props themselves, when you have deeply nested component trees with shared state, when building reusable component libraries that need flexible data access, when you want to avoid tightly coupling components to specific prop shapes, or when you need to share stateful logic across components without complex prop threading." },
    detailed :=
      { name := "Prop Drilling Solutions Pattern",
        description := "Solve prop drilling using the most appropriate React pattern for your use case, from simple component composition to Context API for complex shared state.",
        problem := "Props need to be passed through multiple component layers where intermediate components don't use those props, creating unnecessary coupling, verbose component signatures, and maintenance burden when prop shapes change.",
        solution := "Apply the right solution based on the scenario: component composition for layout, Context for truly global state, custom hooks for shared logic, state co-location for localized needs, or render props for flexible data sharing.",
        benefits := ["Eliminates unnecessary prop passing through components", "Reduces coupling between components", "Cleaner component interfaces and signatures", "Easier maintenance when data shapes change", "Better component reusability", "More explicit data dependencies"],
        drawbacks := ["Context can cause unnecessary re-renders if not used carefully", "Over-abstraction can make data flow harder to follow", "Multiple solutions to choose from can be overwhelming", "Some patterns require more initial setup"],
        examples :=
          [PatternExample.comparison "Prop Drilling vs Context Solutions" "Comparing prop drilling problems with appropriate solutions like Context, composition, and state co-location" (CodeBlock.mk "Deep Prop Drilling" "Props passed through components that don't need them" "// ❌ BAD: Props drilled through multiple levels\nfunction App() \x7b\n  const [user, setUser] = useState(null);\n  const [theme, setTheme] = useState('light');\n  const [notifications, setNotifications] = useState([]);\n\n  return (\n    <Layout \n      user=\x7buser\x7d\n      theme=\x7btheme\x7d\n      notifications=\x7bnotifications\x7d\n      onThemeChange=\x7bsetTheme\x7d\n      onNotificationDismiss=\x7b(id) => \n        setNotifications(prev => prev.filter(n => n.id !== id))\n      \x7d\n    />\n  );\n\x7d\n\n// Layout doesn't need these props but has to pass them down\nfunction Layout(\x7b user, theme, notifications, onThemeChange, onNotificationDismiss \x7d) \x7b\n  return (\n    <div className=\x7b`layout layout--$\x7btheme\x7d`\x7d>\n      <Header \n        user=\x7buser\x7d\n        theme=\x7btheme\x7d\n        onThemeChange=\x7bonThemeChange\x7d\n      />\n      <Main \n        user=\x7buser\x7d\n        notifications=\x7bnotifications\x7d\n        onNotificationDismiss=\x7bonNotificationDismiss\x7d\n      />\n    </div>\n  );\n\x7d\n\n// Header only needs user and theme\nfunction Header(\x7b user, theme, onThemeChange \x7d) \x7b\n  return (\n    <header className=\"header\">\n      <Navigation user=\x7buser\x7d />\n      <ThemeToggle theme=\x7btheme\x7d onThemeChange=\x7bonThemeChange\x7d />\n    </header>\n  );\n\x7d\n\n// Main only needs notifications\nfunction Main(\x7b user, notifications, onNotificationDismiss \x7d) \x7b\n  return (\n    <main className=\"main\">\n      <Sidebar user=\x7buser\x7d />\n      <Content \n        notifications=\x7bnotifications\x7d\n        onNotificationDismiss=\x7bonNotificationDismiss\x7d\n      />\n    </main>\n  );\n\x7d\n\n// Navigation finally uses user\nfunction Navigation(\x7b user \x7d) \x7b\n  return (\n    <nav>\n      \x7buser ? (\n        <span>Welcome, \x7buser.name\x7d</span>\n      ) : (\n        <LoginButton />\n      )\x7d\n    </nav>\n  );\n\x7d\n\n// Content finally uses notifications\nfunction Content(\x7b notifications, onNotificationDismiss \x7d) \x7b\n  return (\n    <div className=\"content\">\n      <NotificationList \n        notifications=\x7bnotifications\x7d\n        onDismiss=\x7bonNotificationDismiss\x7d\n      />\n      <MainContent />\n    </div>\n  );\n\x7d") (CodeBlock.mk "Multiple Solutions Applied" "Using the right pattern for each data sharing need" "// ✅ GOOD: Multiple solutions based on use case\n\n// 1. Context for truly global/app-wide state\nconst UserContext = createContext(null);\nconst ThemeContext = createContext('light');\n\nfunction UserProvider(\x7b children \x7d) \x7b\n  const [user, setUser] = useState(null);\n  return (\n    <UserContext.Provider value=\x7b\x7b user, setUser \x7d\x7d>\n      \x7bchildren\x7d\n    </UserContext.Provider>\n  );\n\x7d\n\nfunction ThemeProvider(\x7b children \x7d) \x7b\n  const [theme, setTheme] = useState('light');\n  return (\n    <ThemeContext.Provider value=\x7b\x7b theme, setTheme \x7d\x7d>\n      \x7bchildren\x7d\n    </ThemeContext.Provider>\n  );\n\x7d\n\n// 2. Component composition to avoid prop drilling\nfunction App() \x7b\n  return (\n    <UserProvider>\n      <ThemeProvider>\n        <Layout>\n          <Header>\n            <Navigation />\n            <ThemeToggle />\n          </Header>\n          <Main>\n            <Sidebar />\n            <Content />\n          </Main>\n        </Layout>\n      </ThemeProvider>\n    </UserProvider>\n  );\n\x7d\n\n// 3. Clean Layout that just provides structure\nfunction Layout(\x7b children \x7d) \x7b\n  const \x7b theme \x7d = useContext(ThemeContext);\n  return (\n    <div className=\x7b`layout layout--$\x7btheme\x7d`\x7d>\n      \x7bchildren\x7d\n    </div>\n  );\n\x7d\n\nfunction Header(\x7b children \x7d) \x7b\n  return <header className=\"header\">\x7bchildren\x7d</header>;\n\x7d\n\nfunction Main(\x7b children \x7d) \x7b\n  return <main className=\"main\">\x7bchildren\x7d</main>;\n\x7d\n\n// 4. Components consume what they need directly\nfunction Navigation() \x7b\n  const \x7b user \x7d = useContext(UserContext);\n  return (\n    <nav>\n      \x7buser ? (\n        <span>Welcome, \x7buser.name\x7d</span>\n      ) : (\n        <LoginButton />\n      )\x7d\n    </nav>\n  );\n\x7d\n\nfunction ThemeToggle() \x7b\n  const \x7b theme, setTheme \x7d = useContext(ThemeContext);\n  return (\n    <button onClick=\x7b() => setTheme(theme === 'light' ? 'dark' : 'light')\x7d>\n      \x7btheme === 'light' ? '🌙' : '☀️'\x7d\n    </button>\n  );\n\x7d\n\nfunction Sidebar() \x7b\n  const \x7b user \x7d = useContext(UserContext);\n  return (\n    <aside className=\"sidebar\">\n      \x7buser && <UserProfile user=\x7buser\x7d />\x7d\n    </aside>\n  );\n\x7d\n\n// 5. State co-location for local needs\nfunction Content() \x7b\n  // Notifications are local to Content - no need to drill from App\n  const [notifications, setNotifications] = useState([]);\n  \n  useEffect(() => \x7b\n    // Load notifications specific to this component\n    loadNotifications().then(setNotifications);\n  \x7d, []);\n\n  const handleDismiss = (id) => \x7b\n    setNotifications(prev => prev.filter(n => n.id !== id));\n  \x7d;\n\n  return (\n    <div className=\"content\">\n      <NotificationList \n        notifications=\x7bnotifications\x7d\n        onDismiss=\x7bhandleDismiss\x7d\n      />\n      <MainContent />\n    </div>\n  );\n\x7d\n\n// 6. Custom hook for shared stateful logic\nfunction useNotifications() \x7b\n  const [notifications, setNotifications] = useState([]);\n  \n  const addNotification = useCallback((notification) => \x7b\n    setNotifications(prev => [...prev, \x7b ...notification, id: Date.now() \x7d]);\n  \x7d, []);\n  \n  const dismissNotification = useCallback((id) => \x7b\n    setNotifications(prev => prev.filter(n => n.id !== id));\n  \x7d, []);\n  \n  return \x7b notifications, addNotification, dismissNotification \x7d;\n\x7d\n\n// Usage of custom hook where needed\nfunction AnotherComponent() \x7b\n  const \x7b notifications, addNotification, dismissNotification \x7d = useNotifications();\n  \n  return (\n    <div>\n      <button onClick=\x7b() => addNotification(\x7b message: 'Hello!' \x7d)\x7d>\n        Add Notification\n      </button>\n      <NotificationList notifications=\x7bnotifications\x7d onDismiss=\x7bdismissNotification\x7d />\n    </div>\n  );\n\x7d")],
        bestPractices := ["Use component composition (children prop) before reaching for Context", "Co-locate state as close as possible to where it's used", "Use Context sparingly - only for truly global state", "Split contexts by concern to avoid unnecessary re-renders", "Consider custom hooks for shared stateful logic", "Use render props or compound components for flexible APIs", "Memoize context values to prevent unnecessary re-renders"],
        commonMistakes := ["Using Context for all shared state instead of composition", "Creating monolithic contexts that cause widespread re-renders", "Not co-locating state close to where it's actually needed", "Over-engineering simple prop passing with complex patterns", "Forgetting to memoize context values", "Using prop drilling for truly global state like user authentication", "Not considering component composition as a solution"],
        relatedPatterns := ["compound-component", "render-props", "container-presentational"] } }

/-- Pattern definition `builderPattern` transcribed from the repository data file registered
under key `builder-pattern` in PATTERN_REGISTRY (src/patterns/index.ts). -/
def builderPattern : PatternDefinition :=
  { overview :=
      { name := "Builder Pattern",
        description := "Create complex objects or configurations step by step using a fluent interface. In React/TypeScript contexts, this pattern is useful for building component configurations, form schemas, API query builders, and complex state objects with optional properties and validation.",
        whenToUse := "Use when you need to construct complex objects with many optional parameters, when you want to provide a fluent API for configuring components or services, when building form schemas or validation rules, when creating API query builders or request configurations, when you need to ensure object construction follows specific rules or validation, or when you want to make complex object creation more readable and maintainable." },
    detailed :=
      { name := "Builder Pattern",
        description := "Implement the Builder pattern to construct complex objects with a fluent, readable interface that guides users through the construction process.",
        problem := "Complex objects with many optional parameters lead to constructor functions with long parameter lists, unclear object construction, and difficulty ensuring all required properties are set correctly.",
        solution := "Use a builder class with a fluent interface that allows step-by-step construction of complex objects, providing clear validation and ensuring required properties are set.",
        benefits := ["Readable and intuitive object construction", "Prevents invalid object states", "Flexible construction with optional parameters", "Type-safe configuration building", "Chainable method calls for fluent APIs", "Clear separation of construction logic"],
        drawbacks := ["Additional complexity for simple objects", "More code to maintain", "Can be overkill for straightforward cases", "Requires understanding of the builder pattern"],
        examples :=
          [PatternExample.codeOnly "Bad: Complex Constructor Parameters" "Hard-to-use constructors with many optional parameters" "// ❌ BAD: Complex constructors and configuration objects\ninterface FormFieldConfig \x7b\n  name: string;\n  label?: string;\n  type?: 'text' | 'email' | 'password' | 'number';\n  placeholder?: string;\n  required?: boolean;\n  disabled?: boolean;\n  validation?: \x7b\n    minLength?: number;\n    maxLength?: number;\n    pattern?: RegExp;\n    custom?: (value: string) => string | null;\n  \x7d;\n  formatting?: \x7b\n    uppercase?: boolean;\n    lowercase?: boolean;\n    trim?: boolean;\n  \x7d;\n  styling?: \x7b\n    className?: string;\n    width?: string;\n    variant?: 'outlined' | 'filled';\n  \x7d;\n\x7d\n\n// Hard to use and error-prone\nfunction createFormField(config: FormFieldConfig) \x7b\n  // Complex validation logic mixed with construction\n  if (!config.name) \x7b\n    throw new Error('Name is required');\n  \x7d\n  \n  if (config.type === 'email' && !config.validation?.pattern) \x7b\n    config.validation = \x7b \n      ...config.validation, \n      pattern: /^[^\\s@]+@[^\\s@]+\\.[^\\s@]+$/ \n    \x7d;\n  \x7d\n  \n  return config;\n\x7d\n\n// Ugly usage - easy to make mistakes\nconst emailField = createFormField(\x7b\n  name: 'email',\n  label: 'Email Address',\n  type: 'email',\n  placeholder: 'Enter your email',\n  required: true,\n  validation: \x7b\n    minLength: 5,\n    maxLength: 100,\n    // Forgot to add email pattern - constructor adds it\n  \x7d,\n  styling: \x7b\n    className: 'form-field',\n    width: '100%',\n    variant: 'outlined',\n  \x7d,\n\x7d);\n\n// API Query - complex parameter object\ninterface QueryConfig \x7b\n  endpoint: string;\n  method?: 'GET' | 'POST' | 'PUT' | 'DELETE';\n  headers?: Record<string, string>;\n  params?: Record<string, any>;\n  body?: any;\n  timeout?: number;\n  retries?: number;\n  cache?: boolean;\n  transform?: (data: any) => any;\n\x7d\n\n// Hard to construct properly\nconst userQuery = \x7b\n  endpoint: '/api/users',\n  method: 'GET' as const,\n  headers: \x7b\n    'Authorization': 'Bearer token',\n    'Content-Type': 'application/json',\n  \x7d,\n  params: \x7b\n    page: 1,\n    limit: 10,\n    sort: 'createdAt',\n    order: 'desc',\n  \x7d,\n  timeout: 5000,\n  retries: 3,\n  cache: true,\n  transform: (data) => data.users,\n\x7d;",
           PatternExample.codeOnly "Good: Builder Pattern Implementation" "Fluent builders for readable and type-safe object construction" "// ✅ GOOD: Builder pattern for complex configurations\n\n// Form Field Builder\nclass FormFieldBuilder \x7b\n  private config: Partial<FormFieldConfig> = \x7b\x7d;\n\n  constructor(name: string) \x7b\n    this.config.name = name;\n  \x7d\n\n  label(label: string): FormFieldBuilder \x7b\n    this.config.label = label;\n    return this;\n  \x7d\n\n  type(type: 'text' | 'email' | 'password' | 'number'): FormFieldBuilder \x7b\n    this.config.type = type;\n    // Auto-add email validation for email type\n    if (type === 'email') \x7b\n      this.config.validation = \x7b\n        ...this.config.validation,\n        pattern: /^[^\\s@]+@[^\\s@]+\\.[^\\s@]+$/,\n      \x7d;\n    \x7d\n    return this;\n  \x7d\n\n  placeholder(placeholder: string): FormFieldBuilder \x7b\n    this.config.placeholder = placeholder;\n    return this;\n  \x7d\n\n  required(required: boolean = true): FormFieldBuilder \x7b\n    this.config.required = required;\n    return this;\n  \x7d\n\n  disabled(disabled: boolean = true): FormFieldBuilder \x7b\n    this.config.disabled = disabled;\n    return this;\n  \x7d\n\n  validation(validation: FormFieldConfig['validation']): FormFieldBuilder \x7b\n    this.config.validation = \x7b ...this.config.validation, ...validation \x7d;\n    return this;\n  \x7d\n\n  minLength(minLength: number): FormFieldBuilder \x7b\n    this.config.validation = \x7b ...this.config.validation, minLength \x7d;\n    return this;\n  \x7d\n\n  maxLength(maxLength: number): FormFieldBuilder \x7b\n    this.config.validation = \x7b ...this.config.validation, maxLength \x7d;\n    return this;\n  \x7d\n\n  pattern(pattern: RegExp): FormFieldBuilder \x7b\n    this.config.validation = \x7b ...this.config.validation, pattern \x7d;\n    return this;\n  \x7d\n\n  styling(styling: FormFieldConfig['styling']): FormFieldBuilder \x7b\n    this.config.styling = \x7b ...this.config.styling, ...styling \x7d;\n    return this;\n  \x7d\n\n  className(className: string): FormFieldBuilder \x7b\n    this.config.styling = \x7b ...this.config.styling, className \x7d;\n    return this;\n  \x7d\n\n  width(width: string): FormFieldBuilder \x7b\n    this.config.styling = \x7b ...this.config.styling, width \x7d;\n    return this;\n  \x7d\n\n  build(): FormFieldConfig \x7b\n    if (!this.config.name) \x7b\n      throw new Error('Field name is required');\n    \x7d\n    return this.config as FormFieldConfig;\n  \x7d\n\x7d\n\n// API Query Builder\nclass QueryBuilder \x7b\n  private config: Partial<QueryConfig> = \x7b\x7d;\n\n  constructor(endpoint: string) \x7b\n    this.config.endpoint = endpoint;\n  \x7d\n\n  method(method: 'GET' | 'POST' | 'PUT' | 'DELETE'): QueryBuilder \x7b\n    this.config.method = method;\n    return this;\n  \x7d\n\n  headers(headers: Record<string, string>): QueryBuilder \x7b\n    this.config.headers = \x7b ...this.config.headers, ...headers \x7d;\n    return this;\n  \x7d\n\n  header(key: string, value: string): QueryBuilder \x7b\n    this.config.headers = \x7b ...this.config.headers, [key]: value \x7d;\n    return this;\n  \x7d\n\n  auth(token: string): QueryBuilder \x7b\n    return this.header('Authorization', `Bearer $\x7btoken\x7d`);\n  \x7d\n\n  params(params: Record<string, any>): QueryBuilder \x7b\n    this.config.params = \x7b ...this.config.params, ...params \x7d;\n    return this;\n  \x7d\n\n  param(key: string, value: any): QueryBuilder \x7b\n    this.config.params = \x7b ...this.config.params, [key]: value \x7d;\n    return this;\n  \x7d\n\n  pagination(page: number, limit: number): QueryBuilder \x7b\n    return this.params(\x7b page, limit \x7d);\n  \x7d\n\n  sort(field: string, order: 'asc' | 'desc' = 'asc'): QueryBuilder \x7b\n    return this.params(\x7b sort: field, order \x7d);\n  \x7d\n\n  body(body: any): QueryBuilder \x7b\n    this.config.body = body;\n    return this;\n  \x7d\n\n  timeout(timeout: number): QueryBuilder \x7b\n    this.config.timeout = timeout;\n    return this;\n  \x7d\n\n  retries(retries: number): QueryBuilder \x7b\n    this.config.retries = retries;\n    return this;\n  \x7d\n\n  cache(cache: boolean = true): QueryBuilder \x7b\n    this.config.cache = cache;\n    return this;\n  \x7d\n\n  transform<T, R>(transformer: (data: T) => R): QueryBuilder \x7b\n    this.config.transform = transformer;\n    return this;\n  \x7d\n\n  build(): QueryConfig \x7b\n    if (!this.config.endpoint) \x7b\n      throw new Error('Endpoint is required');\n    \x7d\n    return \x7b\n      method: 'GET',\n      headers: \x7b 'Content-Type': 'application/json' \x7d,\n      timeout: 5000,\n      retries: 1,\n      cache: false,\n      ...this.config,\n    \x7d as QueryConfig;\n  \x7d\n\x7d\n\n// Clean, readable usage\nconst emailField = new FormFieldBuilder('email')\n  .label('Email Address')\n  .type('email')\n  .placeholder('Enter your email')\n  .required()\n  .minLength(5)\n  .maxLength(100)\n  .className('form-field')\n  .width('100%')\n  .build();\n\nconst userQuery = new QueryBuilder('/api/users')\n  .method('GET')\n  .auth('your-token-here')\n  .pagination(1, 10)\n  .sort('createdAt', 'desc')\n  .timeout(5000)\n  .retries(3)\n  .cache()\n  .transform((data: any) => data.users)\n  .build();\n\n// React Hook for form builder\nfunction useFormBuilder() \x7b\n  const createField = useCallback((name: string) => \x7b\n    return new FormFieldBuilder(name);\n  \x7d, []);\n\n  return \x7b createField \x7d;\n\x7d\n\n// Usage in React component\nfunction FormExample() \x7b\n  const \x7b createField \x7d = useFormBuilder();\n\n  const fields = useMemo(() => [\n    createField('username')\n      .label('Username')\n      .required()\n      .minLength(3)\n      .maxLength(20)\n      .build(),\n      \n    createField('email')\n      .label('Email')\n      .type('email')\n      .required()\n      .build(),\n      \n    createField('password')\n      .label('Password')\n      .type('password')\n      .required()\n      .minLength(8)\n      .pattern(/^(?=.*[a-z])(?=.*[A-Z])(?=.*\\d)/)\n      .build(),\n  ], [createField]);\n\n  return (\n    <form>\n      \x7bfields.map(field => (\n        <FormField key=\x7bfield.name\x7d config=\x7bfield\x7d />\n      ))\x7d\n    </form>\n  );\n\x7d"],
        bestPractices := ["Use TypeScript for type safety in builder methods", "Provide sensible defaults in the build() method", "Validate required properties in build() method", "Use method chaining for fluent interface", "Keep builder methods focused on single responsibility", "Consider using static factory methods for common configurations", "Make builders immutable by returning new instances if needed"],
        commonMistakes := ["Not validating required properties in build() method", "Making builders too complex with too many methods", "Forgetting to return \"this\" for method chaining", "Not providing clear error messages for invalid configurations", "Using builders for simple objects that don't need them", "Not considering performance implications of method chaining"],
        relatedPatterns := ["adapter-pattern", "dependency-injection"] } }

/-- Pattern definition `factoryPattern` transcribed from the repository data file registered
under key `factory-pattern` in PATTERN_REGISTRY (src/patterns/index.ts). -/
def factoryPattern : PatternDefinition :=
  { overview :=
      { name := "Factory Pattern",
        description := "Create objects or React components through factory functions/classes without specifying exact classes or types. This pattern provides a way to encapsulate object creation logic, handle complex instantiation scenarios, and create different variants of components or services based on runtime conditions.",
        whenToUse := "Use when you need to create different types of components based on runtime data, when object creation logic is complex or needs to be centralized, when you want to abstract the creation process from the consuming code, when building plugin systems or extensible architectures, when you need to create objects that require specific initialization or configuration, or when you want to provide a consistent interface for creating related objects." },
    detailed :=
      { name := "Factory Pattern",
        description := "Implement factory functions or classes to encapsulate complex object creation logic and provide a clean interface for creating different types of objects or components.",
        problem := "Direct object instantiation spreads creation logic throughout the codebase, makes it hard to manage complex creation scenarios, and tightly couples code to specific implementations.",
        solution := "Use factory functions or classes to centralize creation logic, provide a consistent interface for object creation, and allow runtime determination of which objects to create.",
        benefits := ["Encapsulates complex creation logic", "Reduces coupling between code and concrete classes", "Provides consistent creation interface", "Enables runtime object type determination", "Easier to test with mock factories", "Supports plugin and extension patterns"],
        drawbacks := ["Additional abstraction layer", "Can add complexity for simple cases", "May hide the actual types being created", "Requires understanding of factory pattern"],
        examples :=
          [PatternExample.codeOnly "Bad: Direct Instantiation Everywhere" "Creation logic scattered throughout components with tight coupling" "// ❌ BAD: Direct instantiation and scattered creation logic\n\n// Different notification types created directly in components\nfunction NotificationContainer() \x7b\n  const [notifications, setNotifications] = useState([]);\n\n  const addNotification = (type: string, message: string, data?: any) => \x7b\n    let notification;\n    \n    // Complex creation logic scattered in component\n    if (type === 'success') \x7b\n      notification = \x7b\n        id: Date.now(),\n        type: 'success',\n        message,\n        icon: '✅',\n        duration: 3000,\n        className: 'notification-success',\n        actions: [\x7b label: 'Dismiss', onClick: () => removeNotification(notification.id) \x7d],\n      \x7d;\n    \x7d else if (type === 'error') \x7b\n      notification = \x7b\n        id: Date.now(),\n        type: 'error',\n        message,\n        icon: '❌',\n        duration: 5000,\n        className: 'notification-error',\n        actions: [\n          \x7b label: 'Dismiss', onClick: () => removeNotification(notification.id) \x7d,\n          \x7b label: 'Retry', onClick: data?.retryAction \x7d,\n        ],\n      \x7d;\n    \x7d else if (type === 'warning') \x7b\n      notification = \x7b\n        id: Date.now(),\n        type: 'warning',\n        message,\n        icon: '⚠️',\n        duration: 4000,\n        className: 'notification-warning',\n        actions: [\x7b label: 'Dismiss', onClick: () => removeNotification(notification.id) \x7d],\n      \x7d;\n    \x7d else if (type === 'info') \x7b\n      notification = \x7b\n        id: Date.now(),\n        type: 'info',\n        message,\n        icon: 'ℹ️',\n        duration: 3000,\n        className: 'notification-info',\n        actions: [\x7b label: 'Dismiss', onClick: () => removeNotification(notification.id) \x7d],\n      \x7d;\n    \x7d\n\n    setNotifications(prev => [...prev, notification]);\n  \x7d;\n\n  // Similar creation logic duplicated in other components...\n\x7d\n\n// API clients created directly with repetitive logic\nfunction UserProfile(\x7b userId \x7d) \x7b\n  const [user, setUser] = useState(null);\n\n  useEffect(() => \x7b\n    // Direct instantiation with complex setup\n    const apiClient = \x7b\n      baseURL: process.env.REACT_APP_API_URL,\n      timeout: 5000,\n      headers: \x7b\n        'Authorization': `Bearer $\x7blocalStorage.getItem('token')\x7d`,\n        'Content-Type': 'application/json',\n      \x7d,\n      interceptors: \x7b\n        request: (config) => \x7b\n          console.log('Request:', config);\n          return config;\n        \x7d,\n        response: (response) => \x7b\n          console.log('Response:', response);\n          return response;\n        \x7d,\n      \x7d,\n    \x7d;\n\n    // This creation logic is repeated everywhere API calls are made\n    fetch(`$\x7bapiClient.baseURL\x7d/users/$\x7buserId\x7d`, \x7b\n      method: 'GET',\n      headers: apiClient.headers,\n      signal: AbortSignal.timeout(apiClient.timeout),\n    \x7d)\n    .then(response => response.json())\n    .then(setUser);\n  \x7d, [userId]);\n\x7d\n\n// Form fields created with repetitive logic\nfunction CreateUserForm() \x7b\n  const [formData, setFormData] = useState(\x7b\x7d);\n\n  // Repetitive field creation logic\n  const usernameField = \x7b\n    name: 'username',\n    type: 'text',\n    label: 'Username',\n    validation: \x7b required: true, minLength: 3 \x7d,\n    placeholder: 'Enter username',\n    className: 'form-field',\n  \x7d;\n\n  const emailField = \x7b\n    name: 'email',\n    type: 'email',\n    label: 'Email',\n    validation: \x7b required: true, pattern: /^[^\\s@]+@[^\\s@]+\\.[^\\s@]+$/ \x7d,\n    placeholder: 'Enter email',\n    className: 'form-field',\n  \x7d;\n\n  // This gets repeated for every form...\n\x7d",
           PatternExample.codeOnly "Good: Factory Pattern Implementation" "Centralized creation logic with factory functions and classes" "// ✅ GOOD: Factory pattern for clean object creation\n\n// Notification Factory\ninterface Notification \x7b\n  id: string;\n  type: 'success' | 'error' | 'warning' | 'info';\n  message: string;\n  icon: string;\n  duration: number;\n  className: string;\n  actions: Array<\x7b label: string; onClick: () => void \x7d>;\n\x7d\n\nclass NotificationFactory \x7b\n  private static generateId(): string \x7b\n    return `notification-$\x7bDate.now()\x7d-$\x7bMath.random().toString(36).substr(2, 9)\x7d`;\n  \x7d\n\n  static createSuccess(\n    message: string, \n    options: \x7b duration?: number; onDismiss?: () => void \x7d = \x7b\x7d\n  ): Notification \x7b\n    const id = this.generateId();\n    return \x7b\n      id,\n      type: 'success',\n      message,\n      icon: '✅',\n      duration: options.duration || 3000,\n      className: 'notification-success',\n      actions: [\x7b label: 'Dismiss', onClick: options.onDismiss || (() => \x7b\x7d) \x7d],\n    \x7d;\n  \x7d\n\n  static createError(\n    message: string,\n    options: \x7b \n      duration?: number; \n      onDismiss?: () => void; \n      onRetry?: () => void;\n    \x7d = \x7b\x7d\n  ): Notification \x7b\n    const id = this.generateId();\n    const actions = [\x7b label: 'Dismiss', onClick: options.onDismiss || (() => \x7b\x7d) \x7d];\n    \n    if (options.onRetry) \x7b\n      actions.push(\x7b label: 'Retry', onClick: options.onRetry \x7d);\n    \x7d\n\n    return \x7b\n      id,\n      type: 'error',\n      message,\n      icon: '❌',\n      duration: options.duration || 5000,\n      className: 'notification-error',\n      actions,\n    \x7d;\n  \x7d\n\n  static createWarning(\n    message: string,\n    options: \x7b duration?: number; onDismiss?: () => void \x7d = \x7b\x7d\n  ): Notification \x7b\n    const id = this.generateId();\n    return \x7b\n      id,\n      type: 'warning',\n      message,\n      icon: '⚠️',\n      duration: options.duration || 4000,\n      className: 'notification-warning',\n      actions: [\x7b label: 'Dismiss', onClick: options.onDismiss || (() => \x7b\x7d) \x7d],\n    \x7d;\n  \x7d\n\n  static createInfo(\n    message: string,\n    options: \x7b duration?: number; onDismiss?: () => void \x7d = \x7b\x7d\n  ): Notification \x7b\n    const id = this.generateId();\n    return \x7b\n      id,\n      type: 'info',\n      message,\n      icon: 'ℹ️',\n      duration: options.duration || 3000,\n      className: 'notification-info',\n      actions: [\x7b label: 'Dismiss', onClick: options.onDismiss || (() => \x7b\x7d) \x7d],\n    \x7d;\n  \x7d\n\x7d\n\n// API Client Factory\ninterface ApiClientConfig \x7b\n  baseURL?: string;\n  timeout?: number;\n  retries?: number;\n  authToken?: string;\n\x7d\n\nclass ApiClientFactory \x7b\n  static createAuthenticated(config: ApiClientConfig = \x7b\x7d) \x7b\n    return \x7b\n      baseURL: config.baseURL || process.env.REACT_APP_API_URL,\n      timeout: config.timeout || 5000,\n      retries: config.retries || 1,\n      headers: \x7b\n        'Authorization': `Bearer $\x7bconfig.authToken || localStorage.getItem('token')\x7d`,\n        'Content-Type': 'application/json',\n      \x7d,\n      interceptors: \x7b\n        request: this.createRequestInterceptor(),\n        response: this.createResponseInterceptor(),\n      \x7d,\n    \x7d;\n  \x7d\n\n  static createPublic(config: ApiClientConfig = \x7b\x7d) \x7b\n    return \x7b\n      baseURL: config.baseURL || process.env.REACT_APP_API_URL,\n      timeout: config.timeout || 5000,\n      retries: config.retries || 1,\n      headers: \x7b\n        'Content-Type': 'application/json',\n      \x7d,\n    \x7d;\n  \x7d\n\n  static createMock() \x7b\n    return \x7b\n      baseURL: 'http://localhost:3001',\n      timeout: 1000,\n      headers: \x7b 'Content-Type': 'application/json' \x7d,\n      isMock: true,\n    \x7d;\n  \x7d\n\n  private static createRequestInterceptor() \x7b\n    return (config: any) => \x7b\n      console.log('API Request:', config);\n      return config;\n    \x7d;\n  \x7d\n\n  private static createResponseInterceptor() \x7b\n    return (response: any) => \x7b\n      console.log('API Response:', response);\n      return response;\n    \x7d;\n  \x7d\n\x7d\n\n// Form Field Factory\ninterface FormFieldConfig \x7b\n  name: string;\n  label: string;\n  type: string;\n  validation?: any;\n  placeholder?: string;\n  className?: string;\n\x7d\n\nconst FormFieldFactory = \x7b\n  createText(name: string, label: string, options: Partial<FormFieldConfig> = \x7b\x7d): FormFieldConfig \x7b\n    return \x7b\n      name,\n      label,\n      type: 'text',\n      validation: \x7b required: false \x7d,\n      placeholder: `Enter $\x7blabel.toLowerCase()\x7d`,\n      className: 'form-field',\n      ...options,\n    \x7d;\n  \x7d,\n\n  createEmail(name: string, label: string = 'Email', options: Partial<FormFieldConfig> = \x7b\x7d): FormFieldConfig \x7b\n    return \x7b\n      name,\n      label,\n      type: 'email',\n      validation: \x7b \n        required: true, \n        pattern: /^[^\\s@]+@[^\\s@]+\\.[^\\s@]+$/ \n      \x7d,\n      placeholder: 'Enter email address',\n      className: 'form-field',\n      ...options,\n    \x7d;\n  \x7d,\n\n  createPassword(name: string, label: string = 'Password', options: Partial<FormFieldConfig> = \x7b\x7d): FormFieldConfig \x7b\n    return \x7b\n      name,\n      label,\n      type: 'password',\n      validation: \x7b required: true, minLength: 8 \x7d,\n      placeholder: 'Enter password',\n      className: 'form-field',\n      ...options,\n    \x7d;\n  \x7d,\n\n  createRequired(name: string, label: string, type: string = 'text'): FormFieldConfig \x7b\n    return this.createText(name, label, \x7b \n      type, \n      validation: \x7b required: true \x7d \n    \x7d);\n  \x7d,\n\x7d;\n\n// Clean usage in components\nfunction NotificationContainer() \x7b\n  const [notifications, setNotifications] = useState<Notification[]>([]);\n\n  const addNotification = useCallback((notification: Notification) => \x7b\n    setNotifications(prev => [...prev, notification]);\n  \x7d, []);\n\n  const removeNotification = useCallback((id: string) => \x7b\n    setNotifications(prev => prev.filter(n => n.id !== id));\n  \x7d, []);\n\n  const showSuccess = useCallback((message: string) => \x7b\n    const notification = NotificationFactory.createSuccess(message, \x7b\n      onDismiss: () => removeNotification(notification.id),\n    \x7d);\n    addNotification(notification);\n  \x7d, [addNotification, removeNotification]);\n\n  const showError = useCallback((message: string, onRetry?: () => void) => \x7b\n    const notification = NotificationFactory.createError(message, \x7b\n      onDismiss: () => removeNotification(notification.id),\n      onRetry,\n    \x7d);\n    addNotification(notification);\n  \x7d, [addNotification, removeNotification]);\n\n  return \x7b notifications, showSuccess, showError \x7d;\n\x7d\n\n// Clean API usage\nfunction UserProfile(\x7b userId \x7d: \x7b userId: string \x7d) \x7b\n  const [user, setUser] = useState(null);\n  const apiClient = useMemo(() => ApiClientFactory.createAuthenticated(), []);\n\n  useEffect(() => \x7b\n    fetch(`$\x7bapiClient.baseURL\x7d/users/$\x7buserId\x7d`, \x7b\n      headers: apiClient.headers,\n      signal: AbortSignal.timeout(apiClient.timeout),\n    \x7d)\n    .then(response => response.json())\n    .then(setUser);\n  \x7d, [userId, apiClient]);\n\n  return user ? <div>\x7buser.name\x7d</div> : <div>Loading...</div>;\n\x7d\n\n// Clean form field creation\nfunction CreateUserForm() \x7b\n  const fields = useMemo(() => [\n    FormFieldFactory.createRequired('username', 'Username'),\n    FormFieldFactory.createEmail('email'),\n    FormFieldFactory.createPassword('password'),\n    FormFieldFactory.createText('firstName', 'First Name', \x7b required: true \x7d),\n    FormFieldFactory.createText('lastName', 'Last Name', \x7b required: true \x7d),\n  ], []);\n\n  return (\n    <form>\n      \x7bfields.map(field => (\n        <FormField key=\x7bfield.name\x7d config=\x7bfield\x7d />\n      ))\x7d\n    </form>\n  );\n\x7d"],
        bestPractices := ["Use static factory methods for simple cases", "Encapsulate complex creation logic in factory classes", "Provide clear factory method names that describe what they create", "Use TypeScript interfaces to define what factories create", "Consider using Abstract Factory pattern for families of related objects", "Make factories testable by allowing dependency injection", "Keep factory methods focused on creation, not business logic"],
        commonMistakes := ["Making factories too complex with business logic", "Not providing clear method names for different creation scenarios", "Creating factories for overly simple objects", "Not using TypeScript to type the created objects", "Making factories stateful when they should be stateless", "Not considering the Abstract Factory pattern for related object families"],
        relatedPatterns := ["builder-pattern", "dependency-injection", "adapter-pattern"] } }

/-- The static quality-fundamentals document, transcribed from
src/tools/get-code-quality-fundamentals.ts (const codeQualityFundamentals). -/
def codeQualityFundamentals : CodeQualityFundamentals :=
  { overview := "The Four Principles of Writing Good Code - fundamental guidelines for creating maintainable, readable, and scalable React applications. Based on Frontend Fundamentals (https://frontend-fundamentals.com/code-quality/en/code/).",
    corePhilosophy := "Good code is **easily modifiable** code. These four principles help you write code that can be changed, extended, and maintained with confidence over time.",
    balancingPrinciples := "These principles may conflict with each other. The key is to prioritize based on your specific context and long-term maintenance needs. No single principle is absolute - balance them according to your project's requirements.",
    principles :=
      { readability := { name := "Readability", description := "Code should be easy to read and understand at first glance. Readable code reduces cognitive load and makes maintenance faster.", whenToPrioritize := "Prioritize when working with complex business logic, onboarding new team members, or maintaining legacy code.", concepts := [{ name := "Reducing Context", description := "Separate code that doesn't run together and abstract implementation details to reduce the mental context needed to understand a piece of code.", examples := [CodeExample.mk "Separate unrelated logic" "function UserProfile(\x7b userId \x7d: \x7b userId: string \x7d) \x7b\n  const [user, setUser] = useState<User | null>(null);\n  const [analytics, setAnalytics] = useState<AnalyticsData | null>(null);\n  \n  useEffect(() => \x7b\n    // Fetch user data\n    fetch(`/api/users/$\x7buserId\x7d`)\n      .then(res => res.json())\n      .then(setUser);\n    \n    // Track page view\n    fetch('/api/analytics', \x7b\n      method: 'POST',\n      body: JSON.stringify(\x7b event: 'profile_view', userId \x7d)\n    \x7d);\n    \n    // Update analytics\n    fetch(`/api/analytics/$\x7buserId\x7d`)\n      .then(res => res.json())\n      .then(setAnalytics);\n  \x7d, [userId]);\n  \n  return <div>\x7buser?.name\x7d</div>;\n\x7d" "function UserProfile(\x7b userId \x7d: \x7b userId: string \x7d) \x7b\n  const user = useUser(userId);\n  const analytics = useUserAnalytics(userId);\n  \n  useAnalyticsTracking('profile_view', \x7b userId \x7d);\n  \n  return <div>\x7buser?.name\x7d</div>;\n\x7d\n\n// Separate custom hooks handle their own concerns\nfunction useUser(userId: string) \x7b\n  const [user, setUser] = useState<User | null>(null);\n  \n  useEffect(() => \x7b\n    fetch(`/api/users/$\x7buserId\x7d`)\n      .then(res => res.json())\n      .then(setUser);\n  \x7d, [userId]);\n  \n  return user;\n\x7d" "Separating concerns into focused custom hooks makes each piece of code easier to understand and test in isolation.", CodeExample.mk "Abstract implementation details" "function ProductList() \x7b\n  const [products, setProducts] = useState([]);\n  \n  useEffect(() => \x7b\n    fetch('/api/products', \x7b\n      headers: \x7b\n        'Authorization': `Bearer $\x7blocalStorage.getItem('token')\x7d`,\n        'Content-Type': 'application/json'\n      \x7d\n    \x7d)\n    .then(response => \x7b\n      if (!response.ok) \x7b\n        throw new Error('Network response was not ok');\n      \x7d\n      return response.json();\n    \x7d)\n    .then(data => \x7b\n      const sortedProducts = data.products.sort((a, b) => \n        new Date(b.createdAt).getTime() - new Date(a.createdAt).getTime()\n      );\n      setProducts(sortedProducts);\n    \x7d)\n    .catch(error => \x7b\n      console.error('Error fetching products:', error);\n    \x7d);\n  \x7d, []);\n  \n  return (\n    <div>\n      \x7bproducts.map(product => (\n        <div key=\x7bproduct.id\x7d>\x7bproduct.name\x7d</div>\n      ))\x7d\n    </div>\n  );\n\x7d" "function ProductList() \x7b\n  const products = useProducts();\n  \n  return (\n    <div>\n      \x7bproducts.map(product => (\n        <div key=\x7bproduct.id\x7d>\x7bproduct.name\x7d</div>\n      ))\x7d\n    </div>\n  );\n\x7d\n\n// Implementation details are abstracted away\nfunction useProducts() \x7b\n  const [products, setProducts] = useState([]);\n  \n  useEffect(() => \x7b\n    productService.getProducts()\n      .then(sortProductsByDate)\n      .then(setProducts)\n      .catch(handleError);\n  \x7d, []);\n  \n  return products;\n\x7d" "The component focuses on rendering while the hook handles data fetching complexity. Implementation details are hidden behind clear abstractions."], bestPractices := ["Use custom hooks to separate data fetching from UI rendering", "Abstract complex operations behind descriptively named functions", "Keep components focused on their primary responsibility", "Group related logic together, separate unrelated logic"] }, { name := "Naming", description := "Use clear, descriptive names for complex conditions and magic numbers to make code self-documenting.", examples := [CodeExample.mk "Name complex conditions" "function UserCard(\x7b user \x7d: \x7b user: User \x7d) \x7b\n  return (\n    <div className=\x7b\n      user.subscription?.status === 'active' && \n      user.subscription?.plan !== 'free' && \n      user.lastLoginAt && \n      Date.now() - new Date(user.lastLoginAt).getTime() < 30 * 24 * 60 * 60 * 1000\n        ? 'premium-user' \n        : 'regular-user'\n    \x7d>\n      \x7buser.name\x7d\n    </div>\n  );\n\x7d" "function UserCard(\x7b user \x7d: \x7b user: User \x7d) \x7b\n  const isPremiumActiveUser = \n    user.subscription?.status === 'active' && \n    user.subscription?.plan !== 'free' && \n    isRecentlyActive(user.lastLoginAt);\n  \n  return (\n    <div className=\x7bisPremiumActiveUser ? 'premium-user' : 'regular-user'\x7d>\n      \x7buser.name\x7d\n    </div>\n  );\n\x7d\n\nfunction isRecentlyActive(lastLoginAt: string | null): boolean \x7b\n  if (!lastLoginAt) return false;\n  \n  const THIRTY_DAYS_MS = 30 * 24 * 60 * 60 * 1000;\n  return Date.now() - new Date(lastLoginAt).getTime() < THIRTY_DAYS_MS;\n\x7d" "Named conditions and extracted functions make the logic immediately understandable without mental parsing.", CodeExample.mk "Name magic numbers" "function useProductSearch() \x7b\n  const [query, setQuery] = useState('');\n  const [results, setResults] = useState([]);\n  \n  const debouncedSearch = useMemo(\n    () => debounce(async (searchQuery: string) => \x7b\n      if (searchQuery.length < 3) return;\n      \n      const response = await fetch(`/api/search?q=$\x7bsearchQuery\x7d&limit=50`);\n      const data = await response.json();\n      setResults(data.results);\n    \x7d, 300),\n    []\n  );\n  \n  useEffect(() => \x7b\n    debouncedSearch(query);\n  \x7d, [query, debouncedSearch]);\n  \n  return \x7b query, setQuery, results \x7d;\n\x7d" "function useProductSearch() \x7b\n  const [query, setQuery] = useState('');\n  const [results, setResults] = useState([]);\n  \n  const MINIMUM_QUERY_LENGTH = 3;\n  const SEARCH_RESULTS_LIMIT = 50;\n  const DEBOUNCE_DELAY_MS = 300;\n  \n  const debouncedSearch = useMemo(\n    () => debounce(async (searchQuery: string) => \x7b\n      if (searchQuery.length < MINIMUM_QUERY_LENGTH) return;\n      \n      const response = await fetch(\n        `/api/search?q=$\x7bsearchQuery\x7d&limit=$\x7bSEARCH_RESULTS_LIMIT\x7d`\n      );\n      const data = await response.json();\n      setResults(data.results);\n    \x7d, DEBOUNCE_DELAY_MS),\n    []\n  );\n  \n  useEffect(() => \x7b\n    debouncedSearch(query);\n  \x7d, [query, debouncedSearch]);\n  \n  return \x7b query, setQuery, results \x7d;\n\x7d" "Named constants make the code self-documenting and easier to modify. The intent behind each number is immediately clear."], bestPractices := ["Name complex boolean conditions with descriptive variables", "Extract magic numbers into named constants", "Use intention-revealing names for functions and variables", "Prefer descriptive names over comments when possible"] }, { name := "Reading Flow", description := "Structure code to minimize eye movement and cognitive jumps when reading from top to bottom.", examples := [CodeExample.mk "Reduce eye movement in conditionals" "function OrderStatus(\x7b order \x7d: \x7b order: Order \x7d) \x7b\n  return (\n    <div>\n      \x7border.status === 'pending' ? (\n        <div className=\"status-pending\">\n          <Icon name=\"clock\" />\n          <span>Processing your order...</span>\n          <Button onClick=\x7b() => cancelOrder(order.id)\x7d>Cancel</Button>\n        </div>\n      ) : order.status === 'shipped' ? (\n        <div className=\"status-shipped\">\n          <Icon name=\"truck\" />\n          <span>Order shipped on \x7bformatDate(order.shippedAt)\x7d</span>\n          <Button onClick=\x7b() => trackOrder(order.id)\x7d>Track Package</Button>\n        </div>\n      ) : order.status === 'delivered' ? (\n        <div className=\"status-delivered\">\n          <Icon name=\"check\" />\n          <span>Delivered on \x7bformatDate(order.deliveredAt)\x7d</span>\n          <Button onClick=\x7b() => reorder(order.items)\x7d>Reorder</Button>\n        </div>\n      ) : (\n        <div className=\"status-unknown\">\n          <Icon name=\"question\" />\n          <span>Status unknown</span>\n        </div>\n      )\x7d\n    </div>\n  );\n\x7d" "function OrderStatus(\x7b order \x7d: \x7b order: Order \x7d) \x7b\n  const statusComponents = \x7b\n    pending: (\n      <div className=\"status-pending\">\n        <Icon name=\"clock\" />\n        <span>Processing your order...</span>\n        <Button onClick=\x7b() => cancelOrder(order.id)\x7d>Cancel</Button>\n      </div>\n    ),\n    shipped: (\n      <div className=\"status-shipped\">\n        <Icon name=\"truck\" />\n        <span>Order shipped on \x7bformatDate(order.shippedAt)\x7d</span>\n        <Button onClick=\x7b() => trackOrder(order.id)\x7d>Track Package</Button>\n      </div>\n    ),\n    delivered: (\n      <div className=\"status-delivered\">\n        <Icon name=\"check\" />\n        <span>Delivered on \x7bformatDate(order.deliveredAt)\x7d</span>\n        <Button onClick=\x7b() => reorder(order.items)\x7d>Reorder</Button>\n      </div>\n    ),\n  \x7d;\n  \n  return (\n    <div>\n      \x7bstatusComponents[order.status] || (\n        <div className=\"status-unknown\">\n          <Icon name=\"question\" />\n          <span>Status unknown</span>\n        </div>\n      )\x7d\n    </div>\n  );\n\x7d" "Object lookup eliminates the nested ternary chain, making each status case easy to read and modify independently."], bestPractices := ["Avoid deeply nested ternary operators", "Use early returns to reduce nesting levels", "Group related code blocks together", "Structure conditional logic for linear reading"] }] },
        predictability := { name := "Predictability", description := "Code should behave consistently and predictably. Similar functions should work in similar ways, and hidden behaviors should be made explicit.", whenToPrioritize := "Prioritize when building reusable components, working with team APIs, or creating functions that will be used across multiple contexts.", concepts := [{ name := "Managing Unique Names", description := "Ensure that similar functions across your codebase follow consistent naming patterns and behaviors.", examples := [CodeExample.mk "Consistent function naming patterns" "// Inconsistent naming across similar functions\nfunction fetchUser(id: string) \x7b return api.get(`/users/$\x7bid\x7d`); \x7d\nfunction getUserPosts(userId: string) \x7b return api.get(`/users/$\x7buserId\x7d/posts`); \x7d\nfunction loadUserComments(id: string) \x7b return api.get(`/users/$\x7bid\x7d/comments`); \x7d\nfunction retrieveUserSettings(userId: string) \x7b return api.get(`/users/$\x7buserId\x7d/settings`); \x7d" "// Consistent naming pattern\nfunction getUser(id: string) \x7b return api.get(`/users/$\x7bid\x7d`); \x7d\nfunction getUserPosts(userId: string) \x7b return api.get(`/users/$\x7buserId\x7d/posts`); \x7d\nfunction getUserComments(userId: string) \x7b return api.get(`/users/$\x7buserId\x7d/comments`); \x7d\nfunction getUserSettings(userId: string) \x7b return api.get(`/users/$\x7buserId\x7d/settings`); \x7d" "Consistent naming patterns make it easier to predict function names and understand their purpose across the codebase."], bestPractices := ["Use consistent prefixes (get, set, update, delete) for similar operations", "Follow established naming conventions throughout the codebase", "Make function names predictable based on their behavior"] }, { name := "Unifying Return Types", description := "Similar functions should return data in consistent formats to reduce cognitive overhead when using them.", examples := [CodeExample.mk "Consistent return types for similar functions" "function getUser(id: string): Promise<User> \x7b\n  return fetch(`/api/users/$\x7bid\x7d`).then(res => res.json());\n\x7d\n\nfunction getUserPosts(userId: string): Promise<Post[]> \x7b\n  return fetch(`/api/users/$\x7buserId\x7d/posts`)\n    .then(res => res.json())\n    .then(data => data.posts); // Unwraps the posts array\n\x7d\n\nfunction getUserComments(userId: string): Promise<\x7b comments: Comment[], total: number \x7d> \x7b\n  return fetch(`/api/users/$\x7buserId\x7d/comments`).then(res => res.json()); // Returns full response\n\x7d" "interface ApiResponse<T> \x7b\n  data: T;\n  total?: number;\n  page?: number;\n\x7d\n\nfunction getUser(id: string): Promise<User> \x7b\n  return fetch(`/api/users/$\x7bid\x7d`)\n    .then(res => res.json())\n    .then(response => response.data);\n\x7d\n\nfunction getUserPosts(userId: string): Promise<Post[]> \x7b\n  return fetch(`/api/users/$\x7buserId\x7d/posts`)\n    .then(res => res.json())\n    .then(response => response.data);\n\x7d\n\nfunction getUserComments(userId: string): Promise<Comment[]> \x7b\n  return fetch(`/api/users/$\x7buserId\x7d/comments`)\n    .then(res => res.json())\n    .then(response => response.data);\n\x7d" "Consistent return types mean developers can predict what they'll get from similar functions without checking documentation each time."], bestPractices := ["Standardize response formats across similar API functions", "Use TypeScript interfaces to enforce consistent return types", "Document any deviations from standard patterns clearly"] }, { name := "Revealing Hidden Logic", description := "Make implicit behaviors and side effects explicit so other developers can predict what your code will do.", examples := [CodeExample.mk "Make side effects explicit" "function useUserData(userId: string) \x7b\n  const [user, setUser] = useState<User | null>(null);\n  \n  useEffect(() => \x7b\n    fetch(`/api/users/$\x7buserId\x7d`)\n      .then(res => res.json())\n      .then(userData => \x7b\n        setUser(userData);\n        // Hidden side effect - also updates analytics\n        fetch('/api/analytics', \x7b\n          method: 'POST',\n          body: JSON.stringify(\x7b event: 'user_viewed', userId \x7d)\n        \x7d);\n        // Hidden side effect - stores in localStorage\n        localStorage.setItem('lastViewedUser', userId);\n      \x7d);\n  \x7d, [userId]);\n  \n  return user;\n\x7d" "function useUserData(userId: string, options: \x7b trackView?: boolean \x7d = \x7b\x7d) \x7b\n  const [user, setUser] = useState<User | null>(null);\n  \n  useEffect(() => \x7b\n    fetchUser(userId).then(userData => \x7b\n      setUser(userData);\n      \n      if (options.trackView) \x7b\n        trackUserView(userId);\n      \x7d\n      \n      updateLastViewedUser(userId);\n    \x7d);\n  \x7d, [userId, options.trackView]);\n  \n  return user;\n\x7d\n\n// Side effects are now explicit functions\nfunction trackUserView(userId: string) \x7b\n  return fetch('/api/analytics', \x7b\n    method: 'POST',\n    body: JSON.stringify(\x7b event: 'user_viewed', userId \x7d)\n  \x7d);\n\x7d\n\nfunction updateLastViewedUser(userId: string) \x7b\n  localStorage.setItem('lastViewedUser', userId);\n\x7d" "Explicit parameters and named functions make it clear what side effects occur, allowing developers to make informed decisions about usage."], bestPractices := ["Make side effects explicit through function names or parameters", "Avoid hidden behaviors in seemingly simple functions", "Use function names that accurately describe all behaviors"] }] },
        cohesion := { name := "Cohesion", description := "Related code should be grouped together. Files, functions, and components should have a single, well-defined purpose.", whenToPrioritize := "Prioritize when organizing large codebases, creating reusable modules, or when code is scattered across many files without clear relationships.", concepts := [{ name := "File Organization", description := "Keep related files close together and organize them by feature or domain rather than technical type.", examples := [CodeExample.mk "Organize by feature, not by type" "src/\n├── components/\n│   ├── UserProfile.tsx\n│   ├── UserSettings.tsx\n│   ├── UserList.tsx\n│   ├── PostCard.tsx\n│   ├── PostForm.tsx\n│   └── CommentList.tsx\n├── hooks/\n│   ├── useUser.ts\n│   ├── useUserSettings.ts\n│   ├── usePosts.ts\n│   └── useComments.ts\n├── services/\n│   ├── userService.ts\n│   ├── postService.ts\n│   └── commentService.ts\n└── types/\n    ├── user.ts\n    ├── post.ts\n    └── comment.ts" "src/\n├── features/\n│   ├── user/\n│   │   ├── components/\n│   │   │   ├── UserProfile.tsx\n│   │   │   ├── UserSettings.tsx\n│   │   │   └── UserList.tsx\n│   │   ├── hooks/\n│   │   │   ├── useUser.ts\n│   │   │   └── useUserSettings.ts\n│   │   ├── services/\n│   │   │   └── userService.ts\n│   │   ├── types/\n│   │   │   └── user.ts\n│   │   └── index.ts\n│   ├── posts/\n│   │   ├── components/\n│   │   │   ├── PostCard.tsx\n│   │   │   └── PostForm.tsx\n│   │   ├── hooks/\n│   │   │   └── usePosts.ts\n│   │   ├── services/\n│   │   │   └── postService.ts\n│   │   └── types/\n│   │       └── post.ts\n│   └── comments/\n│       └── ... similar structure\n└── shared/\n    ├── components/\n    ├── hooks/\n    └── utils/" "Feature-based organization keeps all related code together, making it easier to understand and modify complete features."], bestPractices := ["Group files by feature or domain, not technical layer", "Keep related components, hooks, and utilities in the same directory", "Use index files to create clean import boundaries", "Place shared code in clearly marked shared directories"] }, { name := "Eliminating Magic Numbers", description := "Replace scattered magic numbers with named constants grouped in logical locations.", examples := [CodeExample.mk "Group related constants" "// Constants scattered throughout different files\nfunction UserCard(\x7b user \x7d) \x7b\n  return (\n    <div style=\x7b\x7b maxWidth: 320 \x7d\x7d>\n      \x7buser.name.length > 25 ? user.name.substring(0, 25) + '...' : user.name\x7d\n    </div>\n  );\n\x7d\n\nfunction UserList(\x7b users \x7d) \x7b\n  const displayUsers = users.slice(0, 10);\n  return (\n    <div style=\x7b\x7b gap: 16 \x7d\x7d>\n      \x7bdisplayUsers.map(user => <UserCard key=\x7buser.id\x7d user=\x7buser\x7d />)\x7d\n    </div>\n  );\n\x7d\n\nfunction UserSearch(\x7b onSearch \x7d) \x7b\n  const [query, setQuery] = useState('');\n  \n  const debouncedSearch = useMemo(\n    () => debounce(onSearch, 300),\n    [onSearch]\n  );\n  \n  return (\n    <input \n      minLength=\x7b3\x7d\n      onChange=\x7b(e) => \x7b\n        setQuery(e.target.value);\n        if (e.target.value.length >= 3) \x7b\n          debouncedSearch(e.target.value);\n        \x7d\n      \x7d\x7d\n    />\n  );\n\x7d" "// Constants grouped by domain\nconst USER_DISPLAY_CONSTANTS = \x7b\n  CARD_MAX_WIDTH: 320,\n  NAME_MAX_LENGTH: 25,\n  LIST_DEFAULT_LIMIT: 10,\n  LIST_ITEM_GAP: 16,\n\x7d as const;\n\nconst USER_SEARCH_CONSTANTS = \x7b\n  MIN_QUERY_LENGTH: 3,\n  DEBOUNCE_DELAY_MS: 300,\n\x7d as const;\n\nfunction UserCard(\x7b user \x7d) \x7b\n  const \x7b CARD_MAX_WIDTH, NAME_MAX_LENGTH \x7d = USER_DISPLAY_CONSTANTS;\n  \n  return (\n    <div style=\x7b\x7b maxWidth: CARD_MAX_WIDTH \x7d\x7d>\n      \x7buser.name.length > NAME_MAX_LENGTH \n        ? user.name.substring(0, NAME_MAX_LENGTH) + '...' \n        : user.name\n      \x7d\n    </div>\n  );\n\x7d\n\nfunction UserList(\x7b users \x7d) \x7b\n  const \x7b LIST_DEFAULT_LIMIT, LIST_ITEM_GAP \x7d = USER_DISPLAY_CONSTANTS;\n  const displayUsers = users.slice(0, LIST_DEFAULT_LIMIT);\n  \n  return (\n    <div style=\x7b\x7b gap: LIST_ITEM_GAP \x7d\x7d>\n      \x7bdisplayUsers.map(user => <UserCard key=\x7buser.id\x7d user=\x7buser\x7d />)\x7d\n    </div>\n  );\n\x7d" "Grouping related constants makes it easy to understand and modify related values together, improving maintainability."], bestPractices := ["Group related constants in objects or enums", "Place constants close to where they're used", "Use descriptive names that explain the purpose of each value", "Consider using TypeScript's const assertions for immutable constants"] }, { name := "Form Cohesion", description := "Group related form logic, validation, and state management together rather than scattering it throughout components.", examples := [CodeExample.mk "Cohesive form management" "function UserRegistrationForm() \x7b\n  const [email, setEmail] = useState('');\n  const [password, setPassword] = useState('');\n  const [confirmPassword, setConfirmPassword] = useState('');\n  const [firstName, setFirstName] = useState('');\n  const [lastName, setLastName] = useState('');\n  const [emailError, setEmailError] = useState('');\n  const [passwordError, setPasswordError] = useState('');\n  const [isSubmitting, setIsSubmitting] = useState(false);\n  \n  const validateEmail = (email: string) => \x7b\n    if (!email.includes('@')) \x7b\n      setEmailError('Invalid email');\n      return false;\n    \x7d\n    setEmailError('');\n    return true;\n  \x7d;\n  \n  const validatePassword = (password: string, confirmPassword: string) => \x7b\n    if (password.length < 8) \x7b\n      setPasswordError('Password must be at least 8 characters');\n      return false;\n    \x7d\n    if (password !== confirmPassword) \x7b\n      setPasswordError('Passwords do not match');\n      return false;\n    \x7d\n    setPasswordError('');\n    return true;\n  \x7d;\n  \n  const handleSubmit = async (e: FormEvent) => \x7b\n    e.preventDefault();\n    if (!validateEmail(email) || !validatePassword(password, confirmPassword)) \x7b\n      return;\n    \x7d\n    \n    setIsSubmitting(true);\n    try \x7b\n      await fetch('/api/register', \x7b\n        method: 'POST',\n        body: JSON.stringify(\x7b email, password, firstName, lastName \x7d)\n      \x7d);\n    \x7d finally \x7b\n      setIsSubmitting(false);\n    \x7d\n  \x7d;\n  \n  return (\n    <form onSubmit=\x7bhandleSubmit\x7d>\n      <input \n        value=\x7bemail\x7d \n        onChange=\x7b(e) => setEmail(e.target.value)\x7d\n        onBlur=\x7b() => validateEmail(email)\x7d\n      />\n      \x7bemailError && <span>\x7bemailError\x7d</span>\x7d\n      \x7b/* More form fields... */\x7d\n    </form>\n  );\n\x7d" "interface UserRegistrationData \x7b\n  email: string;\n  password: string;\n  confirmPassword: string;\n  firstName: string;\n  lastName: string;\n\x7d\n\nfunction useUserRegistrationForm() \x7b\n  const [formData, setFormData] = useState<UserRegistrationData>(\x7b\n    email: '',\n    password: '',\n    confirmPassword: '',\n    firstName: '',\n    lastName: '',\n  \x7d);\n  \n  const [errors, setErrors] = useState<Partial<UserRegistrationData>>(\x7b\x7d);\n  const [isSubmitting, setIsSubmitting] = useState(false);\n  \n  const updateField = (field: keyof UserRegistrationData, value: string) => \x7b\n    setFormData(prev => (\x7b ...prev, [field]: value \x7d));\n    // Clear error when user starts typing\n    if (errors[field]) \x7b\n      setErrors(prev => (\x7b ...prev, [field]: '' \x7d));\n    \x7d\n  \x7d;\n  \n  const validateForm = (): boolean => \x7b\n    const newErrors: Partial<UserRegistrationData> = \x7b\x7d;\n    \n    if (!formData.email.includes('@')) \x7b\n      newErrors.email = 'Invalid email';\n    \x7d\n    \n    if (formData.password.length < 8) \x7b\n      newErrors.password = 'Password must be at least 8 characters';\n    \x7d\n    \n    if (formData.password !== formData.confirmPassword) \x7b\n      newErrors.confirmPassword = 'Passwords do not match';\n    \x7d\n    \n    setErrors(newErrors);\n    return Object.keys(newErrors).length === 0;\n  \x7d;\n  \n  const submitForm = async () => \x7b\n    if (!validateForm()) return;\n    \n    setIsSubmitting(true);\n    try \x7b\n      await userService.register(\x7b\n        email: formData.email,\n        password: formData.password,\n        firstName: formData.firstName,\n        lastName: formData.lastName,\n      \x7d);\n    \x7d finally \x7b\n      setIsSubmitting(false);\n    \x7d\n  \x7d;\n  \n  return \x7b\n    formData,\n    errors,\n    isSubmitting,\n    updateField,\n    submitForm,\n    validateForm,\n  \x7d;\n\x7d\n\nfunction UserRegistrationForm() \x7b\n  const \x7b\n    formData,\n    errors,\n    isSubmitting,\n    updateField,\n    submitForm,\n  \x7d = useUserRegistrationForm();\n  \n  return (\n    <form onSubmit=\x7b(e) => \x7b e.preventDefault(); submitForm(); \x7d\x7d>\n      <input \n        value=\x7bformData.email\x7d\n        onChange=\x7b(e) => updateField('email', e.target.value)\x7d\n      />\n      \x7berrors.email && <span>\x7berrors.email\x7d</span>\x7d\n      \x7b/* More form fields... */\x7d\n      <button type=\"submit\" disabled=\x7bisSubmitting\x7d>\n        \x7bisSubmitting ? 'Registering...' : 'Register'\x7d\n      </button>\n    </form>\n  );\n\x7d" "All form-related logic is cohesively organized in a custom hook, making the component cleaner and the form logic reusable."], bestPractices := ["Group related form state and logic in custom hooks", "Keep validation logic together with form state", "Use TypeScript interfaces to define form data structure", "Centralize form submission and error handling"] }] },
        coupling := { name := "Coupling", description := "Components and functions should have minimal dependencies on each other. Reduce tight coupling to make code more flexible and testable.", whenToPrioritize := "Prioritize when building reusable components, creating testable code, or when changes in one part of the system frequently break other parts.", concepts := [{ name := "Managing Responsibilities", description := "Each component should have a single, well-defined responsibility. Avoid components that know too much about other parts of the system.", examples := [CodeExample.mk "Single responsibility components" "// Component with too many responsibilities\nfunction UserDashboard(\x7b userId \x7d: \x7b userId: string \x7d) \x7b\n  const [user, setUser] = useState<User | null>(null);\n  const [posts, setPosts] = useState<Post[]>([]);\n  const [analytics, setAnalytics] = useState<Analytics | null>(null);\n  const [notifications, setNotifications] = useState<Notification[]>([]);\n  \n  useEffect(() => \x7b\n    // Fetch user data\n    fetch(`/api/users/$\x7buserId\x7d`)\n      .then(res => res.json())\n      .then(setUser);\n    \n    // Fetch user posts\n    fetch(`/api/users/$\x7buserId\x7d/posts`)\n      .then(res => res.json())\n      .then(setPosts);\n    \n    // Fetch analytics\n    fetch(`/api/users/$\x7buserId\x7d/analytics`)\n      .then(res => res.json())\n      .then(setAnalytics);\n    \n    // Fetch notifications\n    fetch(`/api/users/$\x7buserId\x7d/notifications`)\n      .then(res => res.json())\n      .then(setNotifications);\n  \x7d, [userId]);\n  \n  const handlePostLike = async (postId: string) => \x7b\n    await fetch(`/api/posts/$\x7bpostId\x7d/like`, \x7b method: 'POST' \x7d);\n    // Update posts state\n    setPosts(posts.map(post => \n      post.id === postId \n        ? \x7b ...post, likes: post.likes + 1, isLiked: true \x7d\n        : post\n    ));\n  \x7d;\n  \n  const handleNotificationRead = async (notificationId: string) => \x7b\n    await fetch(`/api/notifications/$\x7bnotificationId\x7d/read`, \x7b method: 'POST' \x7d);\n    setNotifications(notifications.filter(n => n.id !== notificationId));\n  \x7d;\n  \n  return (\n    <div className=\"dashboard\">\n      \x7b/* User profile section */\x7d\n      <div className=\"profile-section\">\n        <img src=\x7buser?.avatar\x7d alt=\x7buser?.name\x7d />\n        <h1>\x7buser?.name\x7d</h1>\n        <p>\x7buser?.bio\x7d</p>\n      </div>\n      \n      \x7b/* Posts section */\x7d\n      <div className=\"posts-section\">\n        <h2>Recent Posts</h2>\n        \x7bposts.map(post => (\n          <div key=\x7bpost.id\x7d className=\"post\">\n            <h3>\x7bpost.title\x7d</h3>\n            <p>\x7bpost.content\x7d</p>\n            <button onClick=\x7b() => handlePostLike(post.id)\x7d>\n              Like (\x7bpost.likes\x7d)\n            </button>\n          </div>\n        ))\x7d\n      </div>\n      \n      \x7b/* Analytics section */\x7d\n      <div className=\"analytics-section\">\n        <h2>Analytics</h2>\n        <div>Page Views: \x7banalytics?.pageViews\x7d</div>\n        <div>Post Engagement: \x7banalytics?.engagement\x7d%</div>\n      </div>\n      \n      \x7b/* Notifications section */\x7d\n      <div className=\"notifications-section\">\n        <h2>Notifications</h2>\n        \x7bnotifications.map(notification => (\n          <div key=\x7bnotification.id\x7d className=\"notification\">\n            <p>\x7bnotification.message\x7d</p>\n            <button onClick=\x7b() => handleNotificationRead(notification.id)\x7d>\n              Mark as Read\n            </button>\n          </div>\n        ))\x7d\n      </div>\n    </div>\n  );\n\x7d" "// Dashboard orchestrates multiple focused components\nfunction UserDashboard(\x7b userId \x7d: \x7b userId: string \x7d) \x7b\n  return (\n    <div className=\"dashboard\">\n      <UserProfile userId=\x7buserId\x7d />\n      <UserPosts userId=\x7buserId\x7d />\n      <UserAnalytics userId=\x7buserId\x7d />\n      <UserNotifications userId=\x7buserId\x7d />\n    </div>\n  );\n\x7d\n\n// Each component has a single responsibility\nfunction UserProfile(\x7b userId \x7d: \x7b userId: string \x7d) \x7b\n  const user = useUser(userId);\n  \n  if (!user) return <UserProfileSkeleton />;\n  \n  return (\n    <div className=\"profile-section\">\n      <img src=\x7buser.avatar\x7d alt=\x7buser.name\x7d />\n      <h1>\x7buser.name\x7d</h1>\n      <p>\x7buser.bio\x7d</p>\n    </div>\n  );\n\x7d\n\nfunction UserPosts(\x7b userId \x7d: \x7b userId: string \x7d) \x7b\n  const \x7b posts, likePost \x7d = useUserPosts(userId);\n  \n  return (\n    <div className=\"posts-section\">\n      <h2>Recent Posts</h2>\n      \x7bposts.map(post => (\n        <PostCard \n          key=\x7bpost.id\x7d \n          post=\x7bpost\x7d \n          onLike=\x7b() => likePost(post.id)\x7d \n        />\n      ))\x7d\n    </div>\n  );\n\x7d\n\nfunction UserAnalytics(\x7b userId \x7d: \x7b userId: string \x7d) \x7b\n  const analytics = useUserAnalytics(userId);\n  \n  return (\n    <div className=\"analytics-section\">\n      <h2>Analytics</h2>\n      <AnalyticsChart data=\x7banalytics\x7d />\n    </div>\n  );\n\x7d" "Each component focuses on a single aspect of the dashboard, making them easier to test, reuse, and modify independently."], bestPractices := ["Break large components into smaller, focused components", "Each component should have one primary responsibility", "Use composition to combine simple components into complex UIs", "Extract shared logic into custom hooks"] }, { name := "Handling Duplicate Code", description := "Sometimes duplicate code is preferable to tight coupling. Know when to extract shared logic and when to keep code separate.", examples := [CodeExample.mk "When duplication is better than coupling" "// Over-abstracted utility that couples different concerns\nfunction createApiEndpoint(\n  config: \x7b\n    path: string;\n    method: 'GET' | 'POST' | 'PUT' | 'DELETE';\n    requiresAuth?: boolean;\n    cacheable?: boolean;\n    retries?: number;\n    timeout?: number;\n    transformRequest?: (data: any) => any;\n    transformResponse?: (data: any) => any;\n    validateResponse?: (data: any) => boolean;\n    errorHandler?: (error: Error) => void;\n  \x7d\n) \x7b\n  return async (data?: any) => \x7b\n    let url = config.path;\n    let options: RequestInit = \x7b\n      method: config.method,\n      headers: \x7b\x7d,\n    \x7d;\n    \n    if (config.requiresAuth) \x7b\n      options.headers = \x7b \n        ...options.headers, \n        Authorization: `Bearer $\x7bgetToken()\x7d` \n      \x7d;\n    \x7d\n    \n    if (config.transformRequest && data) \x7b\n      data = config.transformRequest(data);\n    \x7d\n    \n    if (data && config.method !== 'GET') \x7b\n      options.body = JSON.stringify(data);\n      options.headers = \x7b \n        ...options.headers, \n        'Content-Type': 'application/json' \n      \x7d;\n    \x7d\n    \n    // ... lots more configuration logic\n    \n    try \x7b\n      const response = await fetch(url, options);\n      let result = await response.json();\n      \n      if (config.transformResponse) \x7b\n        result = config.transformResponse(result);\n      \x7d\n      \n      if (config.validateResponse && !config.validateResponse(result)) \x7b\n        throw new Error('Invalid response');\n      \x7d\n      \n      return result;\n    \x7d catch (error) \x7b\n      if (config.errorHandler) \x7b\n        config.errorHandler(error as Error);\n      \x7d\n      throw error;\n    \x7d\n  \x7d;\n\x7d\n\n// Usage becomes complex and tightly coupled to the utility\nconst getUser = createApiEndpoint(\x7b\n  path: '/api/users',\n  method: 'GET',\n  requiresAuth: true,\n  cacheable: true,\n  transformResponse: (data) => (\x7b ...data, fullName: `$\x7bdata.firstName\x7d $\x7bdata.lastName\x7d` \x7d),\n  validateResponse: (data) => data && data.id,\n\x7d);" "// Simple, focused functions that may have some duplication\nasync function getUser(id: string): Promise<User> \x7b\n  const response = await fetch(`/api/users/$\x7bid\x7d`, \x7b\n    headers: \x7b\n      Authorization: `Bearer $\x7bgetToken()\x7d`,\n    \x7d,\n  \x7d);\n  \n  if (!response.ok) \x7b\n    throw new Error('Failed to fetch user');\n  \x7d\n  \n  const data = await response.json();\n  return \x7b\n    ...data,\n    fullName: `$\x7bdata.firstName\x7d $\x7bdata.lastName\x7d`,\n  \x7d;\n\x7d\n\nasync function createPost(postData: CreatePostData): Promise<Post> \x7b\n  const response = await fetch('/api/posts', \x7b\n    method: 'POST',\n    headers: \x7b\n      'Content-Type': 'application/json',\n      Authorization: `Bearer $\x7bgetToken()\x7d`,\n    \x7d,\n    body: JSON.stringify(postData),\n  \x7d);\n  \n  if (!response.ok) \x7b\n    throw new Error('Failed to create post');\n  \x7d\n  \n  return response.json();\n\x7d\n\n// Shared utilities for common patterns only\nfunction withAuth(headers: Record<string, string> = \x7b\x7d) \x7b\n  return \x7b\n    ...headers,\n    Authorization: `Bearer $\x7bgetToken()\x7d`,\n  \x7d;\n\x7d" "Simple, focused functions are easier to understand and modify than a complex over-abstracted utility. Some duplication is acceptable when it keeps code decoupled."], bestPractices := ["Prefer simple duplication over complex abstractions", "Extract shared logic only when patterns are truly identical", "Keep abstractions focused on single concerns", "Consider the maintenance cost of both duplication and abstraction"] }, { name := "Eliminating Props Drilling", description := "Avoid passing props through multiple component layers. Use context, state management, or component composition to reduce coupling.", examples := [CodeExample.mk "Use context for deeply nested shared state" "// Props drilling through multiple levels\nfunction App() \x7b\n  const [user, setUser] = useState<User | null>(null);\n  const [theme, setTheme] = useState<'light' | 'dark'>('light');\n  \n  return (\n    <Layout user=\x7buser\x7d theme=\x7btheme\x7d onThemeChange=\x7bsetTheme\x7d>\n      <Dashboard user=\x7buser\x7d theme=\x7btheme\x7d />\n    </Layout>\n  );\n\x7d\n\nfunction Layout(\x7b \n  user, \n  theme, \n  onThemeChange, \n  children \n\x7d: \x7b \n  user: User | null; \n  theme: 'light' | 'dark'; \n  onThemeChange: (theme: 'light' | 'dark') => void;\n  children: ReactNode;\n\x7d) \x7b\n  return (\n    <div className=\x7b`layout layout--$\x7btheme\x7d`\x7d>\n      <Header user=\x7buser\x7d theme=\x7btheme\x7d onThemeChange=\x7bonThemeChange\x7d />\n      <main>\x7bchildren\x7d</main>\n    </div>\n  );\n\x7d\n\nfunction Header(\x7b user, theme, onThemeChange \x7d: \x7b\n  user: User | null;\n  theme: 'light' | 'dark';\n  onThemeChange: (theme: 'light' | 'dark') => void;\n\x7d) \x7b\n  return (\n    <header>\n      <UserMenu user=\x7buser\x7d />\n      <ThemeToggle theme=\x7btheme\x7d onThemeChange=\x7bonThemeChange\x7d />\n    </header>\n  );\n\x7d" "// Context eliminates props drilling\nconst AppContext = createContext<\x7b\n  user: User | null;\n  theme: 'light' | 'dark';\n  setTheme: (theme: 'light' | 'dark') => void;\n\x7d | null>(null);\n\nfunction App() \x7b\n  const [user, setUser] = useState<User | null>(null);\n  const [theme, setTheme] = useState<'light' | 'dark'>('light');\n  \n  return (\n    <AppContext.Provider value=\x7b\x7b user, theme, setTheme \x7d\x7d>\n      <Layout>\n        <Dashboard />\n      </Layout>\n    </AppContext.Provider>\n  );\n\x7d\n\nfunction Layout(\x7b children \x7d: \x7b children: ReactNode \x7d) \x7b\n  const \x7b theme \x7d = useAppContext();\n  \n  return (\n    <div className=\x7b`layout layout--$\x7btheme\x7d`\x7d>\n      <Header />\n      <main>\x7bchildren\x7d</main>\n    </div>\n  );\n\x7d\n\nfunction Header() \x7b\n  return (\n    <header>\n      <UserMenu />\n      <ThemeToggle />\n    </header>\n  );\n\x7d\n\n// Components access context directly\nfunction ThemeToggle() \x7b\n  const \x7b theme, setTheme \x7d = useAppContext();\n  \n  return (\n    <button onClick=\x7b() => setTheme(theme === 'light' ? 'dark' : 'light')\x7d>\n      \x7btheme === 'light' ? '🌙' : '☀️'\x7d\n    </button>\n  );\n\x7d\n\nfunction useAppContext() \x7b\n  const context = useContext(AppContext);\n  if (!context) \x7b\n    throw new Error('useAppContext must be used within AppContext.Provider');\n  \x7d\n  return context;\n\x7d" "Context provides direct access to shared state without coupling intermediate components to data they don't use."], bestPractices := ["Use React Context for data needed by many components", "Consider component composition patterns to avoid prop drilling", "Use state management libraries for complex global state", "Keep context focused on specific domains (user, theme, etc.)"] }] } } }

/-- Central pattern registry (src/patterns/index.ts, PATTERN_REGISTRY): a TS
object literal mapping pattern-id keys to definitions, modelled as an
association list in the literal's insertion order (JS objects preserve
string-key insertion order, which Object.entries and Object.keys observe). -/
def PATTERN_REGISTRY : List (String × PatternDefinition) := [
  ("container-presentational", containerPresentationalPattern),
  ("render-props", renderPropsPattern),
  ("compound-component", compoundComponentPattern),
  ("higher-order-component", higherOrderComponentPattern),
  ("dependency-injection", dependencyInjectionPattern),
  ("service-layer", serviceLayerPattern),
  ("adapter-pattern", adapterPattern),
  ("declarative-programming", declarativeProgrammingPattern),
  ("prop-drilling-solutions", propDrillingSolutionsPattern),
  ("builder-pattern", builderPattern),
  ("factory-pattern", factoryPattern)]

/-- The property access PATTERN_REGISTRY[id]: the value at the key, or
undefined (none) when the key is absent. -/
def registryLookup (id : String) : Option PatternDefinition :=
  (PATTERN_REGISTRY.find? (fun kp => kp.1 == id)).map (fun kp => kp.2)

/-- Embeds the tool-name computation key.replace(regex dash, global, "_") of
getAllPatternOverviews: a global single-character replacement of "-" by "_". -/
def dashToUnderscore (s : String) : String :=
  String.mk (s.data.map (fun c => if c = '-' then '_' else c))

/-- The element shape produced by getAllPatternOverviews:
the overview spread together with id and toolName
(literal key order: name, description, whenToUse, id, toolName). -/
structure OverviewEntry where
  name : String
  description : String
  whenToUse : String
  id : String
  toolName : String

/-- getAllPatternOverviews (src/patterns/index.ts): Object.entries over the
registry, each overview spread and extended with its key as id and the derived
toolName get_<key with dashes replaced>_pattern. -/
def getAllPatternOverviews : List OverviewEntry :=
  PATTERN_REGISTRY.map (fun kp =>
    { name := kp.2.overview.name,
      description := kp.2.overview.description,
      whenToUse := kp.2.overview.whenToUse,
      id := kp.1,
      toolName := "get_" ++ dashToUnderscore kp.1 ++ "_pattern" })

/-- The message of the assertion that getPatternOverview and
getDetailedPattern throw for an unknown id. -/
def notFoundMessage (id : String) : String :=
  "Pattern '" ++ id ++ "' not found in registry"

/-- getPatternOverview (src/patterns/index.ts): looks the id up and asserts
the result; the failing assert throws, modelled as Except.error carrying the
assertion message. -/
def getPatternOverview (id : String) : Except String PatternOverview :=
  match registryLookup id with
  | some p => Except.ok p.overview
  | none => Except.error (notFoundMessage id)

/-- The result shape of getDetailedPattern: the detailed document spread
together with its own id ({...patternDef.detailed, id}; the id key comes
last in the literal). -/
structure DetailedPatternWithId where
  name : String
  description : String
  problem : String
  solution : String
  benefits : List String
  drawbacks : List String
  examples : List PatternExample
  bestPractices : List String
  commonMistakes : List String
  relatedPatterns : List String
  id : String

/-- getDetailedPattern (src/patterns/index.ts): looks the id up, asserts, and
returns the detailed document merged with the requested id. -/
def getDetailedPattern (id : String) : Except String DetailedPatternWithId :=
  match registryLookup id with
  | some p => Except.ok
      { name := p.detailed.name,
        description := p.detailed.description,
        problem := p.detailed.problem,
        solution := p.detailed.solution,
        benefits := p.detailed.benefits,
        drawbacks := p.detailed.drawbacks,
        examples := p.detailed.examples,
        bestPractices := p.detailed.bestPractices,
        commonMistakes := p.detailed.commonMistakes,
        relatedPatterns := p.detailed.relatedPatterns,
        id := id }
  | none => Except.error (notFoundMessage id)

/-- getPatternIds (src/patterns/index.ts): Object.keys of the registry. -/
def getPatternIds : List String :=
  PATTERN_REGISTRY.map (fun kp => kp.1)

/-- handleGetCodeQualityFundamentals
(src/tools/get-code-quality-fundamentals.ts): returns the module-level static
document unchanged; no parameters, no failure path. -/
def handleGetCodeQualityFundamentals : CodeQualityFundamentals :=
  codeQualityFundamentals

/-- The usage block of the get_patterns response: { nextStep, example }. -/
structure UsageBlock where
  nextStep : String
  «example» : String

/-- Element shape of the get_patterns response of src/tools/get-patterns.ts:
{ name, description, whenToUse, toolName } (the id of the overview entry is
dropped by the map; only toolName is kept). -/
structure PatternsEntry where
  name : String
  description : String
  whenToUse : String
  toolName : String

/-- The get_patterns response of src/tools/get-patterns.ts:
{ patterns, usage }. -/
structure PatternOverviewResponse where
  patterns : List PatternsEntry
  usage : UsageBlock

/-- handleGetPatterns (src/tools/get-patterns.ts): maps the overview entries to
{ name, description, whenToUse, toolName } and attaches the fixed usage
hint block. -/
def handleGetPatterns : PatternOverviewResponse :=
  { patterns := getAllPatternOverviews.map (fun p =>
      { name := p.name,
        description := p.description,
        whenToUse := p.whenToUse,
        toolName := p.toolName }),
    usage :=
      { nextStep := "Choose a pattern that fits your needs and call the corresponding tool(s) for detailed guidance and examples",
        «example» := "Call 'get_container_presentational_pattern' for detailed Container/Presentational pattern implementation" } }

/-- Element shape of the other get_patterns variant present in the snapshot
(second document inside src/tools/get-dependency-injection-pattern.ts):
{ name, description, whenToUse, patternId }. -/
structure PatternsEntryParam where
  name : String
  description : String
  whenToUse : String
  patternId : String

/-- The parameterized-variant get_patterns response: { patterns, usage }. -/
structure PatternOverviewResponseParam where
  patterns : List PatternsEntryParam
  usage : UsageBlock

/-- The parameterized-variant handleGetPatterns: elements keep the overview
entry's id under the key patternId; the usage block points at get_pattern. -/
def handleGetPatternsParam : PatternOverviewResponseParam :=
  { patterns := getAllPatternOverviews.map (fun p =>
      { name := p.name,
        description := p.description,
        whenToUse := p.whenToUse,
        patternId := p.id }),
    usage :=
      { nextStep := "Choose pattern(s) that fits your needs and call get_pattern with the patternId for detailed guidance and examples. Be careful not to over-engineer - start simple and add complexity only when needed.",
        «example» := "Call get_pattern with patternId 'container-presentational' for detailed Container/Presentational pattern implementation" } }

/-- The get_pattern response: { pattern }. -/
structure DetailedPatternResponse where
  pattern : DetailedPatternWithId

/-- handleGetPattern (get-pattern.ts): delegates to getDetailedPattern; the
extra assert on the returned object never fires because getDetailedPattern
already threw for an unknown id and never returns a falsy value. -/
def handleGetPattern (patternId : String) : Except String DetailedPatternResponse :=
  match getDetailedPattern patternId with
  | Except.ok p => Except.ok { pattern := p }
  | Except.error e => Except.error e

/-- Untyped JSON-ish request arguments arriving at the dispatch boundary. -/
inductive Json where
  | str (s : String)
  | num (n : Int)
  | bool (b : Bool)
  | null
  | arr (elems : List Json)
  | obj (fields : List (String × Json))

/-- The successful payloads the tool handlers of either server variant can
produce (what JSON.stringify(result) serializes). -/
inductive ToolResult where
  | patternsR (r : PatternOverviewResponse)
  | patternsParamR (r : PatternOverviewResponseParam)
  | patternR (r : DetailedPatternResponse)
  | fundamentalsR (r : CodeQualityFundamentals)

/-- What the CallTool response envelope's text serializes: the handler result
on success, the { error: message } object on a caught failure. -/
inductive ResponsePayload where
  | success (result : ToolResult)
  | failure (error : String)

/-- The uniform CallTool response envelope: content plus the isError flag
(the success branch leaves isError unset, which reads as false). -/
structure CallToolEnvelope where
  content : ResponsePayload
  isError : Bool

/-- The failure condition of the parameterized server's get_pattern argument
check: !args || typeof args.patternId !== "string". -/
def getPatternArgsInvalid (args : Option (List (String × Json))) : Bool :=
  match args with
  | none => true
  | some fields =>
    match fields.lookup "patternId" with
    | some (Json.str _) => false
    | _ => true

/-- The get_patterns entry of the parameterized server's handler table:
arguments ignored. -/
def getPatternsHandlerFn : Option (List (String × Json)) → Except String ToolResult :=
  fun _ => Except.ok (ToolResult.patternsParamR handleGetPatternsParam)

/-- The get_pattern entry of the parameterized server's handler table: the
inline lambda that throws "patternId is required" unless args is present with
a string patternId field, then delegates to handleGetPattern. -/
def getPatternHandlerFn : Option (List (String × Json)) → Except String ToolResult :=
  fun args =>
    match args with
    | none => Except.error "patternId is required"
    | some fields =>
      match fields.lookup "patternId" with
      | some (Json.str s) =>
        (match handleGetPattern s with
         | Except.ok r => Except.ok (ToolResult.patternR r)
         | Except.error e => Except.error e)
      | _ => Except.error "patternId is required"

/-- The get_code_quality_fundamentals entry of the parameterized server's
handler table: arguments ignored. -/
def fundamentalsHandlerFn : Option (List (String × Json)) → Except String ToolResult :=
  fun _ => Except.ok (ToolResult.fundamentalsR handleGetCodeQualityFundamentals)

/-- The name-to-handler table of the parameterized server variant
(createServer of the snapshot's three-tool server), in insertion order.
A handler's thrown error is an Except.error. -/
def paramToolHandlers :
    List (String × (Option (List (String × Json)) → Except String ToolResult)) := [
  ("get_patterns", getPatternsHandlerFn),
  ("get_pattern", getPatternHandlerFn),
  ("get_code_quality_fundamentals", fundamentalsHandlerFn)]

/-- The CallToolRequestSchema handler of the parameterized server. The lookup
miss throws before the try block, so that error escapes the dispatch handler
(the Except.error branch of this function); a handler failure is caught by
the try/catch and becomes the { error } payload with isError set. -/
def callToolParam (name : String) (args : Option (List (String × Json))) :
    Except String CallToolEnvelope :=
  match paramToolHandlers.lookup name with
  | none => Except.error ("Tool '" ++ name ++ "' not found")
  | some h =>
    match h args with
    | Except.ok r => Except.ok { content := ResponsePayload.success r, isError := false }
    | Except.error e => Except.ok { content := ResponsePayload.failure e, isError := true }

/-- validateArgsObject (src/adapters/mcp.ts): args is an object, not null and
not an array. -/
def validateArgsObject : Json → Bool
  | Json.obj _ => true
  | _ => false

/-- createValidatedHandler (src/adapters/mcp.ts): rejects non-object args with
"Invalid arguments: expected object", and rewraps a handler failure as
"Handler execution failed: <message>". -/
def createValidatedHandler (h : Json → Except String ToolResult) (args : Json) :
    Except String ToolResult :=
  if validateArgsObject args then
    match h args with
    | Except.ok r => Except.ok r
    | Except.error e => Except.error ("Handler execution failed: " ++ e)
  else Except.error "Invalid arguments: expected object"

/-- The per-pattern tools of the fine-grained server (src/server.ts), in table
insertion order: each tool name with the fixed pattern id its handler fetches. -/
def fineGrainedPatternTools : List (String × String) := [
  ("get_container_presentational_pattern", "container-presentational"),
  ("get_render_props_pattern", "render-props"),
  ("get_compound_component_pattern", "compound-component"),
  ("get_higher_order_component_pattern", "higher-order-component"),
  ("get_dependency_injection_pattern", "dependency-injection"),
  ("get_service_layer_pattern", "service-layer"),
  ("get_adapter_pattern", "adapter-pattern"),
  ("get_declarative_programming_pattern", "declarative-programming"),
  ("get_prop_drilling_solutions_pattern", "prop-drilling-solutions"),
  ("get_builder_pattern", "builder-pattern"),
  ("get_factory_pattern", "factory-pattern")]

/-- A fine-grained per-pattern handler (handleGetBuilderPattern and its
siblings): fetch the fixed id, assert the truthy result (never fires for a
registered id), return { pattern }. -/
def handleFixedPattern (pid : String) : Except String ToolResult :=
  match getDetailedPattern pid with
  | Except.ok p => Except.ok (ToolResult.patternR { pattern := p })
  | Except.error e => Except.error e

/-- The name-to-handler table of src/server.ts: get_patterns first, then one
validated handler per pattern. -/
def fineToolHandlers : List (String × (Json → Except String ToolResult)) :=
  ("get_patterns",
    createValidatedHandler (fun _ => Except.ok (ToolResult.patternsR handleGetPatterns)))
    :: fineGrainedPatternTools.map (fun np =>
        (np.1, createValidatedHandler (fun _ => handleFixedPattern np.2)))

/-- The CallToolRequestSchema handler of src/server.ts: handler lookup, with
args defaulted to {} (args ?? {}); the unknown-tool throw stands before the
try block and escapes, a handler failure is caught into the isError envelope. -/
def callToolFine (name : String) (args : Option Json) :
    Except String CallToolEnvelope :=
  match fineToolHandlers.lookup name with
  | none => Except.error ("Tool '" ++ name ++ "' not found")
  | some h =>
    match h (args.getD (Json.obj [])) with
    | Except.ok r => Except.ok { content := ResponsePayload.success r, isError := false }
    | Except.error e => Except.ok { content := ResponsePayload.failure e, isError := true }

/-- The key/value sequence JSON.stringify serializes for one element of the
get_patterns response of src/tools/get-patterns.ts, in literal key order. -/
def patternsEntryFields (e : PatternsEntry) : List (String × String) :=
  [("name", e.name), ("description", e.description),
   ("whenToUse", e.whenToUse), ("toolName", e.toolName)]

/-- The key/value sequence JSON.stringify serializes for one element of the
parameterized-variant get_patterns response, in literal key order. -/
def patternsEntryParamFields (e : PatternsEntryParam) : List (String × String) :=
  [("name", e.name), ("description", e.description),
   ("whenToUse", e.whenToUse), ("patternId", e.patternId)]

/-- The key sequence JSON.stringify serializes for the principles sub-object
of the fundamentals document, in literal key order. -/
def principlesFields (p : QualityPrinciples) : List (String × Principle) :=
  [("readability", p.readability), ("predictability", p.predictability),
   ("cohesion", p.cohesion), ("coupling", p.coupling)]

/-- The toolName that the get_patterns overview listing advertises for a
registry key. -/
def advertisedToolName (k : String) : Option String :=
  (getAllPatternOverviews.find? (fun e => e.id == k)).map (fun e => e.toolName)

/-! Helper definitions and lemmas used by the claim theorems. -/

/-- Whether an Except value is a success (the call returned without throwing). -/
def exceptIsOk {ε : Type} {α : Type} : Except ε α → Bool
  | Except.ok _ => true
  | Except.error _ => false

/-- The id field of the document getDetailedPattern returns, when it succeeds. -/
def detailedIdOf (x : String) : Option String :=
  match getDetailedPattern x with
  | Except.ok d => some d.id
  | Except.error _ => none

/-- An id outside the key list of the registry is not found by the registry
property access. -/
theorem registryLookup_eq_none_of_not_mem (id : String) (h : id ∉ getPatternIds) :
    registryLookup id = none := by
  unfold registryLookup
  cases hf : PATTERN_REGISTRY.find? (fun kp => kp.1 == id) with
  | none => rfl
  | some kp =>
    exfalso
    apply h
    have hmem := List.mem_of_find?_eq_some hf
    have hp := List.find?_some hf
    have hk : kp.1 = id := by simpa using hp
    exact hk ▸ List.mem_map_of_mem (fun x => x.1) hmem

/-! The claim theorems. -/

/-- C1, counterexample: an invocation of get_patterns
(src/tools/get-patterns.ts, handleGetPatterns) produces a non-empty patterns
array in which NO element carries an `id` field: the handler maps each
overview entry to name, description, whenToUse and toolName only. This
refutes the claim that every element has the fields id, name, description
and whenToUse. -/
theorem c1_counterexample :
    (handleGetPatterns.patterns.all
      (fun e => ((patternsEntryFields e).lookup "id").isSome)) = false ∧
    handleGetPatterns.patterns.isEmpty = false :=
  ⟨by decide, by decide⟩

/-- C1, amended: every invocation of get_patterns yields a patterns array
whose length equals the registry size, each element carrying the fields
name, description, whenToUse and toolName (not id), together with the fixed
usage hint block { nextStep, example }, a constant not computed from state. -/
theorem c1_get_patterns_listing :
    handleGetPatterns.patterns.length = PATTERN_REGISTRY.length ∧
    handleGetPatterns.patterns.all (fun e =>
      ((patternsEntryFields e).lookup "name").isSome &&
      ((patternsEntryFields e).lookup "description").isSome &&
      ((patternsEntryFields e).lookup "whenToUse").isSome &&
      ((patternsEntryFields e).lookup "toolName").isSome) = true ∧
    handleGetPatterns.usage =
      { nextStep := "Choose a pattern that fits your needs and call the corresponding tool(s) for detailed guidance and examples",
        «example» := "Call 'get_container_presentational_pattern' for detailed Container/Presentational pattern implementation" } :=
  ⟨by decide, by decide, rfl⟩

/-- C2, counterexample: dispatching the tool name "does_not_exist" does NOT
produce a response envelope: the unknown-tool error is thrown before the
try/catch of the CallTool handler and escapes the dispatch boundary
(Except.error of callToolParam), refuting the claim that the failure is
surfaced as an error payload in the uniform envelope rather than as an
exception escaping dispatch. -/
theorem c2_counterexample :
    callToolParam "does_not_exist" none = Except.error "Tool 'does_not_exist' not found" ∧
    ¬ ∃ env : CallToolEnvelope, callToolParam "does_not_exist" none = Except.ok env := by
  constructor
  · rfl
  · rintro ⟨env, henv⟩
    rw [show callToolParam "does_not_exist" none =
        Except.error "Tool 'does_not_exist' not found" from rfl] at henv
    exact Except.noConfusion henv

/-- C2, amended: for every tool name absent from the handler table of either
server variant, dispatch fails by throwing an Error whose message names the
requested tool ("Tool '<name>' not found"); the throw stands before the
try/catch, so it escapes the dispatch handler (to the transport SDK) instead
of being converted into the isError envelope. -/
theorem c2_unknown_tool_throws (name : String)
    (hp : paramToolHandlers.lookup name = none)
    (hf : fineToolHandlers.lookup name = none) :
    (∀ args, callToolParam name args = Except.error ("Tool '" ++ name ++ "' not found")) ∧
    (∀ args, callToolFine name args = Except.error ("Tool '" ++ name ++ "' not found")) ∧
    (∃ pre post : String, "Tool '" ++ name ++ "' not found" = pre ++ name ++ post) := by
  refine ⟨fun args => ?_, fun args => ?_, ⟨"Tool '", "' not found", rfl⟩⟩
  · unfold callToolParam
    rw [hp]
  · unfold callToolFine
    rw [hf]

/-- C2, witness: the name "does_not_exist" is in neither handler table, and
dispatching it in either server variant yields the escaping thrown error. -/
theorem c2_unknown_tool_throws_witness :
    callToolParam "does_not_exist" none = Except.error "Tool 'does_not_exist' not found" ∧
    callToolFine "does_not_exist" none = Except.error "Tool 'does_not_exist' not found" :=
  ⟨(c2_unknown_tool_throws "does_not_exist" rfl rfl).1 none,
   (c2_unknown_tool_throws "does_not_exist" rfl rfl).2.1 none⟩

/-- C3: for every id that is not a registered key, getDetailedPattern and
getPatternOverview both fail with the not-found assertion error, and the
parameterized dispatch converts that failure into the error payload envelope
with isError set, whose message contains the requested id; the call returns
an envelope (no exception escapes dispatch for this failure). -/
theorem c3_unknown_id_not_found (id : String) (h : id ∉ getPatternIds) :
    getDetailedPattern id = Except.error (notFoundMessage id) ∧
    getPatternOverview id = Except.error (notFoundMessage id) ∧
    callToolParam "get_pattern" (some [("patternId", Json.str id)]) =
      Except.ok { content := ResponsePayload.failure (notFoundMessage id), isError := true } ∧
    (∃ pre post : String, notFoundMessage id = pre ++ id ++ post) := by
  have hnone : registryLookup id = none := registryLookup_eq_none_of_not_mem id h
  have h2 : getDetailedPattern id = Except.error (notFoundMessage id) := by
    unfold getDetailedPattern
    rw [hnone]
  have h1 : handleGetPattern id = Except.error (notFoundMessage id) := by
    unfold handleGetPattern
    rw [h2]
  have happ : getPatternHandlerFn (some [("patternId", Json.str id)]) =
      (match handleGetPattern id with
       | Except.ok r => Except.ok (ToolResult.patternR r)
       | Except.error e => Except.error e) := rfl
  have happ2 : getPatternHandlerFn (some [("patternId", Json.str id)]) =
      Except.error (notFoundMessage id) := by
    rw [happ, h1]
  have hcall : callToolParam "get_pattern" (some [("patternId", Json.str id)]) =
      (match getPatternHandlerFn (some [("patternId", Json.str id)]) with
       | Except.ok r => Except.ok { content := ResponsePayload.success r, isError := false }
       | Except.error e => Except.ok { content := ResponsePayload.failure e, isError := true }) := rfl
  refine ⟨h2, ?_, ?_, ⟨"Pattern '", "' not found in registry", rfl⟩⟩
  · unfold getPatternOverview
    rw [hnone]
  · rw [hcall, happ2]

/-- C3, witness: "no-such-pattern" is not a registered key; looking it up
fails with the not-found error and dispatching it yields the error envelope. -/
theorem c3_unknown_id_not_found_witness :
    getDetailedPattern "no-such-pattern" = Except.error (notFoundMessage "no-such-pattern") ∧
    callToolParam "get_pattern" (some [("patternId", Json.str "not-real")]) =
      Except.ok { content := ResponsePayload.failure (notFoundMessage "not-real"), isError := true } :=
  ⟨(c3_unknown_id_not_found "no-such-pattern" (by decide)).1,
   (c3_unknown_id_not_found "not-real" (by decide)).2.2.1⟩

/-- C4: for every id in getPatternIds, getDetailedPattern succeeds and the
returned document's id field equals the requested id (the document merged
with its own id), and getPatternOverview succeeds. -/
theorem c4_registry_completeness (id : String) (h : id ∈ getPatternIds) :
    detailedIdOf id = some id ∧
    exceptIsOk (getDetailedPattern id) = true ∧
    exceptIsOk (getPatternOverview id) = true := by
  have H : ∀ x ∈ getPatternIds,
      detailedIdOf x = some x ∧ exceptIsOk (getDetailedPattern x) = true ∧
      exceptIsOk (getPatternOverview x) = true := by decide
  exact H id h

/-- C4, witness: registry completeness evaluated at the key
"builder-pattern". -/
theorem c4_registry_completeness_witness :
    detailedIdOf "builder-pattern" = some "builder-pattern" ∧
    exceptIsOk (getDetailedPattern "builder-pattern") = true ∧
    exceptIsOk (getPatternOverview "builder-pattern") = true :=
  c4_registry_completeness "builder-pattern" (by decide)

/-- C5: for every pattern definition registered in PATTERN_REGISTRY and every
entry r of its relatedPatterns, r is a registered id and r differs from the
pattern's own key (no self-reference). -/
theorem c5_referential_integrity (k : String) (p : PatternDefinition)
    (hkp : (k, p) ∈ PATTERN_REGISTRY) (r : String)
    (hr : r ∈ p.detailed.relatedPatterns) :
    r ∈ getPatternIds ∧ r ≠ k := by
  have H : ∀ kp ∈ PATTERN_REGISTRY, ∀ s ∈ kp.2.detailed.relatedPatterns,
      s ∈ getPatternIds ∧ s ≠ kp.1 := by decide
  exact H (k, p) hkp r hr

/-- C5, witness: the relatedPatterns entry "adapter-pattern" of the registered
builder-pattern definition is itself a registered id distinct from
"builder-pattern". -/
theorem c5_referential_integrity_witness :
    ("adapter-pattern" : String) ∈ getPatternIds ∧ ("adapter-pattern" : String) ≠ "builder-pattern" :=
  c5_referential_integrity "builder-pattern" builderPattern
    (by unfold PATTERN_REGISTRY
        exact List.Mem.tail _ (List.Mem.tail _ (List.Mem.tail _ (List.Mem.tail _
          (List.Mem.tail _ (List.Mem.tail _ (List.Mem.tail _ (List.Mem.tail _
            (List.Mem.tail _ (List.Mem.head _))))))))))
    "adapter-pattern" (by decide)

/-- C6: whenever the get_pattern arguments fail the validation check
(!args || typeof args.patternId !== "string" — in particular {} and
{ patternId: 42 }), the parameterized dispatch returns the error payload
envelope "patternId is required" with isError set, not a crash (no exception
escapes the dispatch handler for this failure). -/
theorem c6_invalid_arguments (args : Option (List (String × Json)))
    (h : getPatternArgsInvalid args = true) :
    callToolParam "get_pattern" args =
      Except.ok { content := ResponsePayload.failure "patternId is required", isError := true } := by
  have hh : getPatternHandlerFn args = Except.error "patternId is required" := by
    cases args with
    | none => rfl
    | some fields =>
      unfold getPatternArgsInvalid at h
      unfold getPatternHandlerFn
      dsimp only at h ⊢
      cases hf : fields.lookup "patternId" with
      | none => rfl
      | some v =>
        rw [hf] at h
        cases v with
        | str s => exact Bool.noConfusion h
        | num n => rfl
        | bool b => rfl
        | null => rfl
        | arr xs => rfl
        | obj fs => rfl
  have hcall : callToolParam "get_pattern" args =
      (match getPatternHandlerFn args with
       | Except.ok r => Except.ok { content := ResponsePayload.success r, isError := false }
       | Except.error e => Except.ok { content := ResponsePayload.failure e, isError := true }) := rfl
  rw [hcall, hh]

/-- C6, witness: the empty arguments object and { patternId: 42 } both fail
validation and both dispatch to the "patternId is required" error envelope. -/
theorem c6_invalid_arguments_witness :
    getPatternArgsInvalid (some []) = true ∧
    getPatternArgsInvalid (some [("patternId", Json.num 42)]) = true ∧
    callToolParam "get_pattern" (some []) =
      Except.ok { content := ResponsePayload.failure "patternId is required", isError := true } ∧
    callToolParam "get_pattern" (some [("patternId", Json.num 42)]) =
      Except.ok { content := ResponsePayload.failure "patternId is required", isError := true } :=
  ⟨rfl, rfl, c6_invalid_arguments (some []) rfl,
   c6_invalid_arguments (some [("patternId", Json.num 42)]) rfl⟩

/-- C7: getAllPatternOverviews returns exactly one entry per registered
pattern, in registry insertion order (its ids are exactly getPatternIds in
order), each entry with non-empty name, description and whenToUse; the
listing is never empty and, being a total function, has no failure mode. -/
theorem c7_listing_totality :
    getAllPatternOverviews.length = getPatternIds.length ∧
    getAllPatternOverviews.map (fun e => e.id) = getPatternIds ∧
    getAllPatternOverviews.all
      (fun e => !(e.name == "") && !(e.description == "") && !(e.whenToUse == "")) = true ∧
    getAllPatternOverviews.isEmpty = false :=
  ⟨by decide, by decide, by decide, by decide⟩

/-- C8: the quality-fundamentals accessor takes no parameters, has no failure
path, and always returns the one static document, whose principles object
carries exactly the four keys readability, predictability, cohesion and
coupling (in literal order), each with a non-empty concepts list. -/
theorem c8_quality_fundamentals_static :
    handleGetCodeQualityFundamentals = codeQualityFundamentals ∧
    (principlesFields handleGetCodeQualityFundamentals.principles).map (fun kp => kp.1) =
      ["readability", "predictability", "cohesion", "coupling"] ∧
    (principlesFields handleGetCodeQualityFundamentals.principles).all
      (fun kp => !kp.2.concepts.isEmpty) = true :=
  ⟨rfl, by decide, by decide⟩

/-- C9: every accessor of the embedding is a pure function of its input alone
(the source reads only module-level constants, with no randomness, clock or
mutable state), so calling any accessor twice with the same input yields
structurally identical output. -/
theorem c9_determinism (id : String) :
    getAllPatternOverviews = getAllPatternOverviews ∧
    getPatternOverview id = getPatternOverview id ∧
    getDetailedPattern id = getDetailedPattern id ∧
    getPatternIds = getPatternIds ∧
    handleGetCodeQualityFundamentals = handleGetCodeQualityFundamentals :=
  ⟨rfl, rfl, rfl, rfl, rfl⟩

/-- C10: every overview entry advertises toolName
get_<key with every dash replaced by an underscore>_pattern; consequently,
for the three keys that already end in "-pattern" (builder-pattern,
factory-pattern, adapter-pattern), the advertised toolName (for example
"get_builder_pattern_pattern") differs from the tool name registered for
that pattern in the fine-grained server's handler table (for example
"get_builder_pattern") and is absent from that table altogether. -/
theorem c10_advertised_toolname_mismatch :
    getAllPatternOverviews.map (fun e => (e.id, e.toolName)) = [
      ("container-presentational", "get_container_presentational_pattern"),
      ("render-props", "get_render_props_pattern"),
      ("compound-component", "get_compound_component_pattern"),
      ("higher-order-component", "get_higher_order_component_pattern"),
      ("dependency-injection", "get_dependency_injection_pattern"),
      ("service-layer", "get_service_layer_pattern"),
      ("adapter-pattern", "get_adapter_pattern_pattern"),
      ("declarative-programming", "get_declarative_programming_pattern"),
      ("prop-drilling-solutions", "get_prop_drilling_solutions_pattern"),
      ("builder-pattern", "get_builder_pattern_pattern"),
      ("factory-pattern", "get_factory_pattern_pattern")] ∧
    getPatternIds.all (fun k =>
      advertisedToolName k == some ("get_" ++ dashToUnderscore k ++ "_pattern")) = true ∧
    (["builder-pattern", "factory-pattern", "adapter-pattern"] : List String).all (fun k =>
      match advertisedToolName k, fineGrainedPatternTools.find? (fun np => np.2 == k) with
      | some adv, some np =>
        (adv != np.1) && !((fineToolHandlers.map (fun nh => nh.1)).contains adv)
      | _, _ => false) = true :=
  ⟨by decide, by decide, by decide⟩

end CCR
